import Mathlib

/-! GLX backend of the X11 video driver (`src/video/x11/SDL_x11opengl.c`)

A shallow embedding of the functions of `SDL_x11opengl.c` and the properties
proved about them.

Conventions of the embedding

* A C string is the list of its characters before the terminating NUL; a
  nullable `const char *` is an `Option (List Char)`.
* A C `int` is an `Int`; an `unsigned int` is a `Nat` below `2 ^ 32`; the
  conversions between them wrap modulo `2 ^ 32`.
* A nullable pointer or handle is an `Option`.
* The X server and the GL driver are outside the program.  Every call made to
  them is appended to a trace, and what they answer is given by functions of
  the trace so far (so an answer may depend on everything that happened
  before).
-/

namespace X11GL

/-! ## Extension probe: `HasExtension` (lines 300-337) -/

/-- The function `SDL_strstr(haystack, needle)`: the offset of the first occurrence of
`needle` in `haystack`, `none` for a NULL result.  The function lives in SDL's
C library layer (`SDL_string.c`, standard `strstr` behaviour). -/
def SDL_strstr : List Char → List Char → Option Nat
  | [], needle => if needle.isEmpty then some 0 else none
  | c :: cs, needle =>
    if needle.isPrefixOf (c :: cs) then some 0
    else (SDL_strstr cs needle).map (fun k => k + 1)

/-- The function `SDL_strchr(s, c)`: the offset of the first `c` in `s`, `none` for NULL. -/
def SDL_strchr : List Char → Char → Option Nat
  | [], _ => none
  | d :: ds, c => if d = c then some 0 else (SDL_strchr ds c).map (fun k => k + 1)

/-- The character a `const char *` at offset `i` of the string points to:
`none` stands for the terminating NUL. -/
def charAt (s : List Char) (i : Nat) : Option Char := s.get? i

/-- The `for (;;)` loop of `HasExtension` (lines 321-335).  `start` is the
offset of the pointer `start` in `extensions`; each iteration either returns
or moves `start` to `terminator`.  The first argument bounds the number of
iterations. -/
def HasExtension.loop (extension extensions : List Char) : Nat → Nat → Bool
  | 0, _ => false
  | fuel + 1, start =>
    match SDL_strstr (extensions.drop start) extension with
    | none => false
    | some k =>
      let wher := start + k
      let terminator := wher + extension.length
      if (wher == start || charAt extensions (wher - 1) == some ' ') &&
          (charAt extensions terminator == some ' ' || charAt extensions terminator == none) then
        true
      else
        HasExtension.loop extension extensions fuel terminator

/-- The function `HasExtension(extension, extensions)` (lines 300-337).  Every iteration of
the loop moves `start` forward by at least the length of the (non-empty)
extension name, so `length + 1` iterations are enough. -/
def HasExtension (extension : List Char) (extensions : Option (List Char)) : Bool :=
  match extensions with
  | none => false
  | some exts =>
    if (SDL_strchr extension ' ').isSome || extension.isEmpty then false
    else HasExtension.loop extension exts (exts.length + 1) 0

/-- The pieces obtained by splitting a haystack at spaces. -/
def tokens (extensions : List Char) : List (List Char) := List.splitOn ' ' extensions

/-- The loop of `HasExtension` (lines 321-335) with the iteration bound kept
apart from the answer: `none` when the bound is used up before the loop has
left through `break` or `return`. -/
def HasExtension.loopWithin (extension extensions : List Char) : Nat → Nat → Option Bool
  | 0, _ => none
  | fuel + 1, start =>
    match SDL_strstr (extensions.drop start) extension with
    | none => some false
    | some k =>
      let wher := start + k
      let terminator := wher + extension.length
      if (wher == start || charAt extensions (wher - 1) == some ' ') &&
          (charAt extensions terminator == some ' ' || charAt extensions terminator == none) then
        some true
      else
        HasExtension.loopWithin extension extensions fuel terminator

/-! ## GLX and X11 constants

The values of `<GL/glx.h>` and `<X11/X.h>`, and the fallback definitions of
lines 47-149. -/

def X_None : Int := 0
def X_True : Int := 1
def X_Success : Int := 0
def GLX_RGBA : Int := 4
def GLX_DOUBLEBUFFER : Int := 5
def GLX_STEREO : Int := 6
def GLX_RED_SIZE : Int := 8
def GLX_GREEN_SIZE : Int := 9
def GLX_BLUE_SIZE : Int := 10
def GLX_ALPHA_SIZE : Int := 11
def GLX_DEPTH_SIZE : Int := 12
def GLX_STENCIL_SIZE : Int := 13
def GLX_ACCUM_RED_SIZE : Int := 14
def GLX_ACCUM_GREEN_SIZE : Int := 15
def GLX_ACCUM_BLUE_SIZE : Int := 16
def GLX_ACCUM_ALPHA_SIZE : Int := 17
def GLX_BAD_CONTEXT : Int := 5
def GLX_RENDER_TYPE : Int := 0x8011
def GLX_RGBA_BIT : Int := 0x00000001
def GLX_NONE_EXT : Int := 0x8000
def GLX_SAMPLE_BUFFERS_ARB : Int := 100000
def GLX_SAMPLES_ARB : Int := 100001
def GLX_VISUAL_CAVEAT_EXT : Int := 0x20
def GLX_SLOW_VISUAL_EXT : Int := 0x8001
def GLX_X_VISUAL_TYPE_EXT : Int := 0x22
def GLX_DIRECT_COLOR_EXT : Int := 0x8003
def GLX_CONTEXT_MAJOR_VERSION_ARB : Int := 0x2091
def GLX_CONTEXT_MINOR_VERSION_ARB : Int := 0x2092
def GLX_CONTEXT_FLAGS_ARB : Int := 0x2094
def GLX_CONTEXT_PROFILE_MASK_ARB : Int := 0x9126
def GLX_CONTEXT_RESET_NOTIFICATION_STRATEGY_ARB : Int := 0x8256
def GLX_NO_RESET_NOTIFICATION_ARB : Int := 0x8261
def GLX_LOSE_CONTEXT_ON_RESET_ARB : Int := 0x8252
def GLX_FRAMEBUFFER_SRGB_CAPABLE_ARB : Int := 0x20B2
def GLX_RGBA_FLOAT_TYPE_ARB : Int := 0x20B9
def GLX_RGBA_FLOAT_BIT_ARB : Int := 0x00000004
def GLX_CONTEXT_OPENGL_NO_ERROR_ARB : Int := 0x31B3
def GLX_SWAP_INTERVAL_EXT : Int := 0x20F1
def GLX_LATE_SWAPS_TEAR_EXT : Int := 0x20F3
def GLX_CONTEXT_RELEASE_BEHAVIOR_ARB : Int := 0x2097
def GLX_CONTEXT_RELEASE_BEHAVIOR_NONE_ARB : Int := 0x0000
def GLX_CONTEXT_RELEASE_BEHAVIOR_FLUSH_ARB : Int := 0x2098
/-- The constant `SDL_GL_CONTEXT_PROFILE_ES` of `SDL_video.h`. -/
def SDL_GL_CONTEXT_PROFILE_ES : Int := 0x0004

/-! ## Data model -/

/-- The fields of `_this->gl_config` that this file reads (all C `int`s). -/
structure SDL_GLConfig where
  red_size : Int
  green_size : Int
  blue_size : Int
  alpha_size : Int
  depth_size : Int
  stencil_size : Int
  double_buffer : Int
  accum_red_size : Int
  accum_green_size : Int
  accum_blue_size : Int
  accum_alpha_size : Int
  stereo : Int
  multisamplebuffers : Int
  multisamplesamples : Int
  floatbuffers : Int
  accelerated : Int
  major_version : Int
  minor_version : Int
  flags : Int
  profile_mask : Int
  share_with_current_context : Int
  release_behavior : Int
  reset_notification : Int
  framebuffer_srgb_capable : Int
  no_error : Int

/-- A GLX rendering context handle (non-null). -/
abbrev GLXContext := Nat
/-- A GLX framebuffer configuration handle. -/
abbrev GLXFBConfig := Nat
/-- An X window or drawable id; `0` is `None`. -/
abbrev Window := Nat

/-- The fields of Xlib's `XVisualInfo` that matter here. -/
structure XVisualInfo where
  visualid : Nat
  screen : Int
  depth : Int
deriving DecidableEq, Repr

/-- The X error handlers that can be installed with `XSetErrorHandler`: the
one of this file, or some other one (identified by a number). -/
inductive XErrorHandler where
  | X11_GL_ErrorHandler
  | other (id : Nat)
deriving DecidableEq, Repr

/-- A call made to Xlib or to the GL driver, with the arguments that matter.
`X11_XFree` is memory management and is not recorded. -/
inductive Call where
  | XSync
  | XSetErrorHandler (h : Option XErrorHandler)
  | XGetWindowAttributes (w : Window)
  | XGetVisualInfo (screen : Int) (visualid : Option Nat)
  | glXChooseFBConfig (screen : Int) (attribs : List Int)
  | glXGetVisualFromFBConfig (config : GLXFBConfig)
  | glXChooseVisual (screen : Int) (attribs : List Int)
  | glXCreateContext (vinfo : XVisualInfo) (share : Option GLXContext) (direct : Int)
  | glXCreateContextAttribsARB (config : GLXFBConfig) (share : Option GLXContext)
      (direct : Int) (attribs : List Int)
  | glXMakeCurrent (drawable : Window) (ctx : Option GLXContext)
  | glXDestroyContext (ctx : Option GLXContext)
  | glXSwapIntervalEXT (drawable : Window) (interval : Int)
  | glXSwapIntervalMESA (interval : Int)
  | glXSwapIntervalSGI (interval : Int)
  | glXGetSwapIntervalMESA
  | glXQueryDrawable (drawable : Window) (attrib : Int)
deriving DecidableEq, Repr

/-- The `SDL_GLSwapIntervalTearBehavior` enumeration of `SDL_x11opengl.h`. -/
inductive SDL_GLSwapIntervalTearBehavior where
  | SDL_SWAPINTERVALTEAR_UNTESTED
  | SDL_SWAPINTERVALTEAR_UNKNOWN
  | SDL_SWAPINTERVALTEAR_MESA
  | SDL_SWAPINTERVALTEAR_NVIDIA
deriving DecidableEq, Repr

open SDL_GLSwapIntervalTearBehavior

/-- The maximum supported ES profile version of the session. -/
structure ESVersion where
  major : Int
  minor : Int

/-- What `struct SDL_GLDriverData` (`_this->gl_data`) holds.  An entry point
that `X11_GL_LoadLibrary` requires is always there; an optional one is `none`
when it was not resolved, and otherwise the function giving the driver's
answer from the trace of the calls made before and the arguments.
`glXChooseFBConfig` answers NULL or a non-empty array, given as its first
element and the rest; `glXSwapIntervalEXT` returns nothing, so only whether it
was resolved is kept. -/
structure SDL_GLDriverData where
  errorBase : Int
  HAS_GLX_EXT_visual_rating : Bool
  HAS_GLX_EXT_visual_info : Bool
  HAS_GLX_EXT_swap_control_tear : Bool
  HAS_GLX_ARB_context_flush_control : Bool
  HAS_GLX_ARB_create_context_robustness : Bool
  HAS_GLX_ARB_create_context_no_error : Bool
  es_profile_max_supported_version : ESVersion
  swap_interval_tear_behavior : SDL_GLSwapIntervalTearBehavior
  glXChooseVisual : List Call → Int → List Int → Option XVisualInfo
  glXCreateContext : List Call → XVisualInfo → Option GLXContext → Int → Option GLXContext
  glXMakeCurrent : List Call → Window → Option GLXContext → Int
  glXQueryDrawable : Option (List Call → Window → Int → Option Nat)
  glXCreateContextAttribsARB :
    Option (List Call → GLXFBConfig → Option GLXContext → Int → List Int → Option GLXContext)
  glXChooseFBConfig :
    Option (List Call → Int → List Int → Option (GLXFBConfig × List GLXFBConfig))
  glXGetVisualFromFBConfig : Option (List Call → GLXFBConfig → Option XVisualInfo)
  glXSwapIntervalEXT : Bool
  glXSwapIntervalMESA : Option (List Call → Int → Int)
  glXGetSwapIntervalMESA : Option (List Call → Int)
  glXSwapIntervalSGI : Option (List Call → Int → Int)

/-! ## Visual/config selector: `X11_GL_GetAttributes` (lines 490-610) -/

/-- The caller's buffer `attribs`, the running index `i`, and the local
`pvistypeattr` as the index of the slot it points to. -/
structure AttrState where
  attribs : List Int
  i : Nat
  pvistypeattr : Option Nat

/-- The statement `attribs[i++] = v`.  (A write at or beyond the end of the
buffer would leave the list as it is; that no such write happens is part of
what is proved below.) -/
def pushAttrib (v : Int) : StateM AttrState Unit :=
  modify fun s => { s with attribs := s.attribs.set s.i v, i := s.i + 1 }

/-- The statement `pvistypeattr = &attribs[i]`. -/
def markVisType : StateM AttrState Unit :=
  modify fun s => { s with pvistypeattr := some s.i }

/-- The body of `X11_GL_GetAttributes` between the two assertions (lines
499-601), run on the caller's buffer.  `gl` is the dereferenced
`_this->gl_data` (non-null at every call site) and `useDirectColor` the value
of `X11_UseDirectColorVisuals()`. -/
def X11_GL_GetAttributes.body (cfg : SDL_GLConfig) (gl : SDL_GLDriverData)
    (useDirectColor : Bool) (for_FBConfig : Bool) (transparent : Bool) :
    StateM AttrState Unit := do
  -- Setup our GLX attributes according to the gl_config.
  (if for_FBConfig then do
    pushAttrib GLX_RENDER_TYPE
    (if cfg.floatbuffers ≠ 0 then
      pushAttrib GLX_RGBA_FLOAT_BIT_ARB
    else
      pushAttrib GLX_RGBA_BIT)
  else
    pushAttrib GLX_RGBA)
  pushAttrib GLX_RED_SIZE
  pushAttrib cfg.red_size
  pushAttrib GLX_GREEN_SIZE
  pushAttrib cfg.green_size
  pushAttrib GLX_BLUE_SIZE
  pushAttrib cfg.blue_size
  (if cfg.alpha_size ≠ 0 then do
    pushAttrib GLX_ALPHA_SIZE
    pushAttrib cfg.alpha_size
  else pure ())
  (if cfg.double_buffer ≠ 0 then do
    pushAttrib GLX_DOUBLEBUFFER
    (if for_FBConfig then
      pushAttrib X_True
    else pure ())
  else pure ())
  pushAttrib GLX_DEPTH_SIZE
  pushAttrib cfg.depth_size
  (if cfg.stencil_size ≠ 0 then do
    pushAttrib GLX_STENCIL_SIZE
    pushAttrib cfg.stencil_size
  else pure ())
  (if cfg.accum_red_size ≠ 0 then do
    pushAttrib GLX_ACCUM_RED_SIZE
    pushAttrib cfg.accum_red_size
  else pure ())
  (if cfg.accum_green_size ≠ 0 then do
    pushAttrib GLX_ACCUM_GREEN_SIZE
    pushAttrib cfg.accum_green_size
  else pure ())
  (if cfg.accum_blue_size ≠ 0 then do
    pushAttrib GLX_ACCUM_BLUE_SIZE
    pushAttrib cfg.accum_blue_size
  else pure ())
  (if cfg.accum_alpha_size ≠ 0 then do
    pushAttrib GLX_ACCUM_ALPHA_SIZE
    pushAttrib cfg.accum_alpha_size
  else pure ())
  (if cfg.stereo ≠ 0 then do
    pushAttrib GLX_STEREO
    (if for_FBConfig then
      pushAttrib X_True
    else pure ())
  else pure ())
  (if cfg.multisamplebuffers ≠ 0 then do
    pushAttrib GLX_SAMPLE_BUFFERS_ARB
    pushAttrib cfg.multisamplebuffers
  else pure ())
  (if cfg.multisamplesamples ≠ 0 then do
    pushAttrib GLX_SAMPLES_ARB
    pushAttrib cfg.multisamplesamples
  else pure ())
  (if cfg.floatbuffers ≠ 0 then do
    pushAttrib GLX_RENDER_TYPE
    pushAttrib GLX_RGBA_FLOAT_TYPE_ARB
  else pure ())
  (if cfg.framebuffer_srgb_capable ≠ 0 then do
    pushAttrib GLX_FRAMEBUFFER_SRGB_CAPABLE_ARB
    pushAttrib X_True -- always needed, for_FBConfig or not!
  else pure ())
  (if cfg.accelerated ≥ 0 ∧ gl.HAS_GLX_EXT_visual_rating then do
    pushAttrib GLX_VISUAL_CAVEAT_EXT
    pushAttrib (if cfg.accelerated ≠ 0 then GLX_NONE_EXT else GLX_SLOW_VISUAL_EXT)
  else pure ())
  -- Un-wanted when we request a transparent buffer
  (if !transparent then
    /- If we are supposed to use DirectColor visuals, and we have got the
       EXT_visual_info extension, then add GLX_X_VISUAL_TYPE_EXT. -/
    (if useDirectColor ∧ gl.HAS_GLX_EXT_visual_info then do
      markVisType
      pushAttrib GLX_X_VISUAL_TYPE_EXT
      pushAttrib GLX_DIRECT_COLOR_EXT
    else pure ())
  else pure ())
  pushAttrib X_None

/-- The constant `MAX_ATTRIBUTES` local to `X11_GL_GetAttributes`. -/
def MAX_ATTRIBUTES : Nat := 64

/-- The function `X11_GL_GetAttributes` (lines 490-610): the state after the body has run
on the caller's buffer, starting with `i = 0` and `pvistypeattr = NULL`.  The
return value is `.i`, the buffer afterwards is `.attribs`, and `.pvistypeattr`
is what is stored through `_pvistypeattr` (every caller passes a non-null
`_pvistypeattr`).  The two `SDL_assert`s do not change the state. -/
def X11_GL_GetAttributes (cfg : SDL_GLConfig) (gl : SDL_GLDriverData)
    (useDirectColor : Bool) (attribs : List Int) (for_FBConfig : Bool) (transparent : Bool) :
    AttrState :=
  ((X11_GL_GetAttributes.body cfg gl useDirectColor for_FBConfig transparent).run
    { attribs := attribs, i := 0, pvistypeattr := none }).2

/-! ## The program state and the outside world -/

/-- The part of an `SDL_Window` this file reads. -/
structure SDL_Window where
  /-- The field `window->internal->xwindow`. -/
  xwindow : Window
  /-- Whether `window->flags & SDL_WINDOW_TRANSPARENT` is non-zero. -/
  transparent : Bool
  /-- The value `SDL_GetDisplayDriverDataForWindow(window)->screen`. -/
  screen : Int

/-- An X protocol error event (`XErrorEvent`); `error_code` is an
`unsigned char`. -/
structure XErrorEvent where
  error_code : Nat

/-- What the collaborators outside this file answer. -/
structure Env where
  /-- The error events that Xlib hands to the installed error handler while
  the last call of the given trace runs. -/
  xerrors : List Call → List XErrorEvent
  /-- The text that `X11_XGetErrorText` followed by `SDL_iconv_string` gives
  for an error code; `none` when one of the two fails. -/
  x11_error_text : Int → Option String
  /-- The hint store: `SDL_GetHintBoolean(name, default_value)`. -/
  SDL_GetHintBoolean : String → Bool → Bool
  /-- The policy function `X11_UseDirectColorVisuals()`. -/
  X11_UseDirectColorVisuals : Bool
  /-- The visuals of the server in its enumeration order (what
  `XGetVisualInfo` filters). -/
  visuals : List XVisualInfo
  /-- The derived pixel format of a visual (a `Uint32`); the argument is the
  `XVisualInfo *` that is passed. -/
  X11_GetPixelFormatFromVisualInfo : Option XVisualInfo → Nat
  /-- The test `SDL_ISPIXELFORMAT_ALPHA` of `SDL_pixels.h`. -/
  SDL_ISPIXELFORMAT_ALPHA : Nat → Bool
  /-- The visual id of a window: `X11_XVisualIDFromVisual(xattr.visual)` after
  `X11_XGetWindowAttributes`. -/
  windowVisualID : List Call → Window → Nat
  /-- The value `DefaultScreen(display)`. -/
  DefaultScreen : Int

/-- The mutable state the functions of this file work on: the video device
(`_this`), the file-level statics, SDL's error slot, the handler installed in
Xlib, the registry of the current window and context, and the trace of the
calls made so far (oldest first). -/
structure Sys where
  gl_data : Option SDL_GLDriverData
  gl_config : SDL_GLConfig
  trace : List Call
  /-- The message last recorded with `SDL_SetError`. -/
  error : Option String
  /-- The error handler installed in Xlib (`none`: Xlib's default). -/
  installed : Option XErrorHandler
  /-- The file-level static `handler`. -/
  handler : Option XErrorHandler
  errorHandlerOperation : Option String
  errorBase : Int
  errorCode : Int
  /-- The file-level static `swapinterval`. -/
  swapinterval : Int
  /-- The value `SDL_GL_GetCurrentWindow()`. -/
  current_window : Option SDL_Window
  /-- The value `SDL_GL_GetCurrentContext()`. -/
  current_context : Option GLXContext

/-- Why a run has no result: the C code dereferences a null pointer, calls
through a null function pointer, or violates one of its `SDL_assert`s. -/
inductive Fault where
  | nullDeref
  | nullCall
  | assertFailed
deriving DecidableEq, Repr

/-- The function `SDL_SetError(msg)`: records the message (and returns false). -/
def SDL_SetError (msg : String) (s : Sys) : Sys := { s with error := some msg }

/-- The function `SDL_Unsupported()` of `SDL_error.h`. -/
def SDL_Unsupported (s : Sys) : Sys := SDL_SetError "That operation is not supported" s

/-- The function `X11_GL_ErrorHandler` (lines 718-736). -/
def X11_GL_ErrorHandler (env : Env) (e : XErrorEvent) (s : Sys) : Sys :=
  let s := { s with errorCode := (e.error_code : Int) }
  let op := s.errorHandlerOperation.getD "(null)"
  match env.x11_error_text s.errorCode with
  | some x11_error => SDL_SetError ("Could not " ++ op ++ ": " ++ x11_error) s
  | none =>
    SDL_SetError ("Could not " ++ op ++ ": " ++ toString s.errorCode ++ " (Base "
      ++ toString s.errorBase ++ ")") s

/-- Xlib handing the error events of the last call to the installed handler.
Only the handler of this file is followed; events that reach another handler
are outside this file. -/
def dispatchErrors (env : Env) (s : Sys) : Sys :=
  match s.installed with
  | some XErrorHandler.X11_GL_ErrorHandler =>
    (env.xerrors s.trace).foldl (fun s e => X11_GL_ErrorHandler env e s) s
  | _ => s

/-- A call to the X server or the driver: it is recorded, and the X errors it
raises are dispatched. -/
def extcall (env : Env) (c : Call) (s : Sys) : Sys :=
  dispatchErrors env { s with trace := s.trace ++ [c] }

/-- A call to Xlib that does not read from the connection: it is recorded. -/
def logcall (c : Call) (s : Sys) : Sys := { s with trace := s.trace ++ [c] }

/-- The function `X11_XSetErrorHandler(h)`: installs `h` and returns the handler that was
installed. -/
def X11_XSetErrorHandler (h : Option XErrorHandler) (s : Sys) : Option XErrorHandler × Sys :=
  (s.installed, logcall (Call.XSetErrorHandler h) { s with installed := h })

/-- The four statements that open the error bridge in `X11_GL_CreateContext`
(lines 771-774) and `X11_GL_MakeCurrent` (lines 919-922):
`errorHandlerOperation = op; errorBase = _this->gl_data->errorBase;
errorCode = Success; handler = X11_XSetErrorHandler(X11_GL_ErrorHandler);`. -/
def installBridge (op : String) (gl : SDL_GLDriverData) (s : Sys) : Sys :=
  let s := { s with
    errorHandlerOperation := some op
    errorBase := gl.errorBase
    errorCode := X_Success }
  let r := X11_XSetErrorHandler (some XErrorHandler.X11_GL_ErrorHandler) s
  { r.2 with handler := r.1 }

/-- The statement `X11_XSetErrorHandler(handler);` that closes the bridge. -/
def removeBridge (s : Sys) : Sys := (X11_XSetErrorHandler s.handler s).2

/-- The function `X11_XGetVisualInfo(display, mask, &template, &n)` with the screen mask
and, when `visualid` is given, the visual-id mask: the matching visuals in the
server's order, NULL when there is none (Xlib's documented behaviour). -/
def X11_XGetVisualInfo (env : Env) (screen : Int) (visualid : Option Nat) (s : Sys) :
    Option (List XVisualInfo) × Sys :=
  let l := env.visuals.filter
    (fun v => decide (v.screen = screen) && (visualid.isNone || visualid == some v.visualid))
  (if l.isEmpty then none else some l, logcall (Call.XGetVisualInfo screen visualid) s)

/-- Whether the derived pixel format of a visual has an alpha channel. -/
def hasAlpha (env : Env) (v : Option XVisualInfo) : Bool :=
  env.SDL_ISPIXELFORMAT_ALPHA (env.X11_GetPixelFormatFromVisualInfo v)

/-! ## Context lifecycle: `X11_GL_MakeCurrent`, `X11_GL_DestroyContext` -/

/-- The function `X11_GL_MakeCurrent` (lines 905-933).  The window is read only when the
context is non-null. -/
def X11_GL_MakeCurrent (env : Env) (window : SDL_Window) (context : Option GLXContext)
    (s : Sys) : Bool × Sys :=
  let drawable : Window := if context.isSome then window.xwindow else 0
  match s.gl_data with
  | none => (false, SDL_SetError "OpenGL not initialized" s)
  | some gl =>
    -- We do this to create a clean separation between X and GLX errors.
    let s := extcall env Call.XSync s
    let s := installBridge "make GL context current" gl s
    let rc := gl.glXMakeCurrent s.trace drawable context
    let s := extcall env (Call.glXMakeCurrent drawable context) s
    let s := removeBridge s
    if s.errorCode ≠ X_Success then
      (false, s) -- the error handler called SDL_SetError() already.
    else if rc = 0 then
      (false, SDL_SetError "Unable to make GL context current" s)
    else
      (true, s)

/-- The function `X11_GL_DestroyContext` (lines 1101-1112). -/
def X11_GL_DestroyContext (env : Env) (context : Option GLXContext) (s : Sys) : Bool × Sys :=
  match s.gl_data with
  | none => (true, s)
  | some _ =>
    let s := extcall env (Call.glXDestroyContext context) s
    let s := extcall env Call.XSync s
    (true, s)

/-! ## `X11_GL_UseEGL` (lines 738-749) -/

def SDL_HINT_VIDEO_FORCE_EGL : String := "SDL_VIDEO_FORCE_EGL"
def SDL_HINT_OPENGL_ES_DRIVER : String := "SDL_OPENGL_ES_DRIVER"

/-- The function `X11_GL_UseEGL` (lines 738-749).  A violated `SDL_assert` is a fault. -/
def X11_GL_UseEGL (env : Env) (s : Sys) : Except Fault Bool :=
  match s.gl_data with
  | none => .error Fault.assertFailed
  | some gl =>
    if env.SDL_GetHintBoolean SDL_HINT_VIDEO_FORCE_EGL false then
      -- use of EGL has been requested, even for desktop GL
      .ok true
    else if s.gl_config.profile_mask ≠ SDL_GL_CONTEXT_PROFILE_ES then
      .error Fault.assertFailed
    else
      .ok (env.SDL_GetHintBoolean SDL_HINT_OPENGL_ES_DRIVER false
        || decide (s.gl_config.major_version = 1)
        || decide (s.gl_config.major_version > gl.es_profile_max_supported_version.major)
        || (decide (s.gl_config.major_version = gl.es_profile_max_supported_version.major)
            && decide (s.gl_config.minor_version > gl.es_profile_max_supported_version.minor)))

/-! ### The list of values that `X11_GL_GetAttributes` writes -/

/-- Writing the values `vs` into consecutive slots of `buf` from index `i`. -/
def writeAt : List Int → Nat → List Int → List Int
  | buf, _, [] => buf
  | buf, i, v :: vs => writeAt (buf.set i v) (i + 1) vs

/-- Several `attribs[i++] = v` in a row. -/
def pushAll (vs : List Int) : StateM AttrState Unit :=
  modify fun s => { s with attribs := writeAt s.attribs s.i vs, i := s.i + vs.length }

/-- The attributes that come before the visual-type pair, in the order of the
specification: render-type head, colour sizes, and the optional attributes. -/
def baseAttribs (cfg : SDL_GLConfig) (gl : SDL_GLDriverData) (for_FBConfig : Bool) : List Int :=
  (if for_FBConfig then
      [GLX_RENDER_TYPE, if cfg.floatbuffers ≠ 0 then GLX_RGBA_FLOAT_BIT_ARB else GLX_RGBA_BIT]
    else [GLX_RGBA])
  ++ [GLX_RED_SIZE, cfg.red_size, GLX_GREEN_SIZE, cfg.green_size, GLX_BLUE_SIZE, cfg.blue_size]
  ++ (if cfg.alpha_size ≠ 0 then [GLX_ALPHA_SIZE, cfg.alpha_size] else [])
  ++ (if cfg.double_buffer ≠ 0 then
        GLX_DOUBLEBUFFER :: (if for_FBConfig then [X_True] else []) else [])
  ++ [GLX_DEPTH_SIZE, cfg.depth_size]
  ++ (if cfg.stencil_size ≠ 0 then [GLX_STENCIL_SIZE, cfg.stencil_size] else [])
  ++ (if cfg.accum_red_size ≠ 0 then [GLX_ACCUM_RED_SIZE, cfg.accum_red_size] else [])
  ++ (if cfg.accum_green_size ≠ 0 then [GLX_ACCUM_GREEN_SIZE, cfg.accum_green_size] else [])
  ++ (if cfg.accum_blue_size ≠ 0 then [GLX_ACCUM_BLUE_SIZE, cfg.accum_blue_size] else [])
  ++ (if cfg.accum_alpha_size ≠ 0 then [GLX_ACCUM_ALPHA_SIZE, cfg.accum_alpha_size] else [])
  ++ (if cfg.stereo ≠ 0 then GLX_STEREO :: (if for_FBConfig then [X_True] else []) else [])
  ++ (if cfg.multisamplebuffers ≠ 0 then [GLX_SAMPLE_BUFFERS_ARB, cfg.multisamplebuffers] else [])
  ++ (if cfg.multisamplesamples ≠ 0 then [GLX_SAMPLES_ARB, cfg.multisamplesamples] else [])
  ++ (if cfg.floatbuffers ≠ 0 then [GLX_RENDER_TYPE, GLX_RGBA_FLOAT_TYPE_ARB] else [])
  ++ (if cfg.framebuffer_srgb_capable ≠ 0 then [GLX_FRAMEBUFFER_SRGB_CAPABLE_ARB, X_True] else [])
  ++ (if cfg.accelerated ≥ 0 ∧ gl.HAS_GLX_EXT_visual_rating = true then
        [GLX_VISUAL_CAVEAT_EXT, if cfg.accelerated ≠ 0 then GLX_NONE_EXT else GLX_SLOW_VISUAL_EXT]
      else [])

/-- Whether the visual-type pair is appended (lines 591-599). -/
def wantsVisType (gl : SDL_GLDriverData) (useDirectColor transparent : Bool) : Bool :=
  !transparent && (useDirectColor && gl.HAS_GLX_EXT_visual_info)

/-- All the values written, sentinel included. -/
def allAttribs (cfg : SDL_GLConfig) (gl : SDL_GLDriverData) (useDirectColor : Bool)
    (for_FBConfig transparent : Bool) : List Int :=
  baseAttribs cfg gl for_FBConfig
    ++ (if wantsVisType gl useDirectColor transparent then
          [GLX_X_VISUAL_TYPE_EXT, GLX_DIRECT_COLOR_EXT] else [])
    ++ [X_None]

/-! ## Visual selection: `X11_GL_GetVisual` (lines 612-712) -/

/-- The loop of `X11_GL_GetTransparentVisualInfo` (lines 623-633): the first
visual of the array whose derived format has an alpha channel. -/
def X11_GL_GetTransparentVisualInfo.scan (env : Env) : List XVisualInfo → Option XVisualInfo
  | [] => none
  | v :: rest =>
    if hasAlpha env (some v) then some v else X11_GL_GetTransparentVisualInfo.scan env rest

/-- The function `X11_GL_GetTransparentVisualInfo` (lines 613-636).  The result is the
array `visualinfo` points to when the function returns. -/
def X11_GL_GetTransparentVisualInfo (env : Env) (screen : Int) (s : Sys) :
    Option (List XVisualInfo) × Sys :=
  let r := X11_XGetVisualInfo env screen none s
  match r.1 with
  | none => (none, r.2)
  | some visualinfo =>
    match X11_GL_GetTransparentVisualInfo.scan env visualinfo with
    | some v => X11_XGetVisualInfo env screen (some v.visualid) r.2
    | none => (some visualinfo, r.2)

/-- The query `glXChooseFBConfig(display, screen, attribs, &fbcount)` with its
one relaxation retry (lines 656-660 and 845-854): if there is no config and a
visual-type slot was recorded, `None` is stored in that slot and the query is
made once more.  The result holds `framebuffer_config`, the buffer and the
state afterwards. -/
def chooseFBConfigRetry (env : Env)
    (choose : List Call → Int → List Int → Option (GLXFBConfig × List GLXFBConfig))
    (screen : Int) (a : AttrState) (s : Sys) :
    Option (GLXFBConfig × List GLXFBConfig) × List Int × Sys :=
  let framebuffer_config := choose s.trace screen a.attribs
  let s := extcall env (Call.glXChooseFBConfig screen a.attribs) s
  match framebuffer_config, a.pvistypeattr with
  | none, some p =>
    let attribs := a.attribs.set p X_None
    (choose s.trace screen attribs, attribs, extcall env (Call.glXChooseFBConfig screen attribs) s)
  | _, _ => (framebuffer_config, a.attribs, s)

/-- The loop of `X11_GL_GetVisual` over the configs (lines 665-676): whether
it left through `break`, and `vinfo` when it ends. -/
def X11_GL_GetVisual.scan (env : Env) (getVisual : List Call → GLXFBConfig → Option XVisualInfo) :
    List GLXFBConfig → Sys → Bool × Option XVisualInfo × Sys
  | [], s => (false, none, s)
  | config :: rest, s =>
    let vinfo := getVisual s.trace config
    let s := extcall env (Call.glXGetVisualFromFBConfig config) s
    if hasAlpha env vinfo then (true, vinfo, s) -- found!
    else X11_GL_GetVisual.scan env getVisual rest s

/-- The FBConfig block of `X11_GL_GetVisual` (lines 650-684): `vinfo` and the
buffer `attribs` after it. -/
def X11_GL_GetVisual.fbconfig (env : Env) (gl : SDL_GLDriverData) (cfg : SDL_GLConfig)
    (screen : Int) (transparent : Bool) (attribs : List Int) (s : Sys) :
    Option XVisualInfo × List Int × Sys :=
  match gl.glXChooseFBConfig, gl.glXGetVisualFromFBConfig with
  | some choose, some getVisual =>
    let a := X11_GL_GetAttributes cfg gl env.X11_UseDirectColorVisuals attribs true transparent
    let r := chooseFBConfigRetry env choose screen a s
    let attribs := r.2.1
    match r.1 with
    | none => (none, attribs, r.2.2)
    | some (first, rest) =>
      let found : Bool × Option XVisualInfo × Sys :=
        if transparent then X11_GL_GetVisual.scan env getVisual (first :: rest) r.2.2
        else (false, none, r.2.2)
      if found.1 then (found.2.1, attribs, found.2.2)
      else
        let s := found.2.2
        (getVisual s.trace first, attribs, extcall env (Call.glXGetVisualFromFBConfig first) s)
  | _, _ => (none, attribs, s)

/-- The legacy block of `X11_GL_GetVisual` (lines 687-693), run when the
FBConfig block gave no visual. -/
def X11_GL_GetVisual.legacy (env : Env) (gl : SDL_GLDriverData) (cfg : SDL_GLConfig)
    (screen : Int) (transparent : Bool) (attribs : List Int) (s : Sys) :
    Option XVisualInfo × Sys :=
  let a := X11_GL_GetAttributes cfg gl env.X11_UseDirectColorVisuals attribs false transparent
  let vinfo := gl.glXChooseVisual s.trace screen a.attribs
  let s := extcall env (Call.glXChooseVisual screen a.attribs) s
  match vinfo, a.pvistypeattr with
  | none, some p =>
    let attribs := a.attribs.set p X_None
    (gl.glXChooseVisual s.trace screen attribs, extcall env (Call.glXChooseVisual screen attribs) s)
  | _, _ => (vinfo, s)

/-- The GLX query of `X11_GL_GetVisual` (lines 650-694): the FBConfig block,
then the legacy block if there is no visual yet.  The local array `attribs`
is not initialised in C; it starts here as 64 zeroes, and no slot is read
that was not written. -/
def X11_GL_GetVisual.glx (env : Env) (gl : SDL_GLDriverData) (cfg : SDL_GLConfig)
    (screen : Int) (transparent : Bool) (s : Sys) : Option XVisualInfo × Sys :=
  let r := X11_GL_GetVisual.fbconfig env gl cfg screen transparent (List.replicate 64 0) s
  match r.1 with
  | some vinfo => (some vinfo, r.2.2)
  | none => X11_GL_GetVisual.legacy env gl cfg screen transparent r.2.1 r.2.2

/-- The function `X11_GL_GetVisual` (lines 638-712). -/
def X11_GL_GetVisual (env : Env) (screen : Int) (transparent : Bool) (s : Sys) :
    Option XVisualInfo × Sys :=
  match s.gl_data with
  | none =>
    -- The OpenGL library wasn't loaded, SDL_GetError() should have info
    (none, s)
  | some gl =>
    let r := X11_GL_GetVisual.glx env gl s.gl_config screen transparent s
    let r : Option XVisualInfo × Sys :=
      match transparent, r.1 with
      | true, some vinfo =>
        if !hasAlpha env (some vinfo) then
          -- not transparent!
          let t := X11_GL_GetTransparentVisualInfo env screen r.2
          match t.1 with
          | some visualinfo => (visualinfo.head?, t.2)
          | none => (some vinfo, t.2)
        else r
      | _, _ => r
    match r.1 with
    | none => (none, SDL_SetError "Couldn't find matching GLX visual" r.2)
    | some vinfo => (some vinfo, r.2)

/-! ## Context creation: `X11_GL_CreateContext` (lines 751-903) -/

/-- The context attribute array of the modern path (lines 788-829):
`int attribs[15]` with its five initialisers, `iattr = 4`, and the appends. -/
def X11_GL_CreateContext.attribs (cfg : SDL_GLConfig) (gl : SDL_GLDriverData) : AttrState :=
  let body : StateM AttrState Unit := do
    -- SDL profile bits match GLX profile bits
    (if cfg.profile_mask ≠ 0 then do
      pushAttrib GLX_CONTEXT_PROFILE_MASK_ARB
      pushAttrib cfg.profile_mask
    else pure ())
    -- SDL flags match GLX flags
    (if cfg.flags ≠ 0 then do
      pushAttrib GLX_CONTEXT_FLAGS_ARB
      pushAttrib cfg.flags
    else pure ())
    -- only set if glx extension is available and not the default setting
    (if gl.HAS_GLX_ARB_context_flush_control ∧ cfg.release_behavior = 0 then do
      pushAttrib GLX_CONTEXT_RELEASE_BEHAVIOR_ARB
      pushAttrib (if cfg.release_behavior ≠ 0 then GLX_CONTEXT_RELEASE_BEHAVIOR_FLUSH_ARB
        else GLX_CONTEXT_RELEASE_BEHAVIOR_NONE_ARB)
    else pure ())
    -- only set if glx extension is available and not the default setting
    (if gl.HAS_GLX_ARB_create_context_robustness ∧ cfg.reset_notification ≠ 0 then do
      pushAttrib GLX_CONTEXT_RESET_NOTIFICATION_STRATEGY_ARB
      pushAttrib (if cfg.reset_notification ≠ 0 then GLX_LOSE_CONTEXT_ON_RESET_ARB
        else GLX_NO_RESET_NOTIFICATION_ARB)
    else pure ())
    -- only set if glx extension is available and not the default setting
    (if gl.HAS_GLX_ARB_create_context_no_error ∧ cfg.no_error ≠ 0 then do
      pushAttrib GLX_CONTEXT_OPENGL_NO_ERROR_ARB
      pushAttrib cfg.no_error
    else pure ())
    pushAttrib 0
  (body.run
    { attribs := [GLX_CONTEXT_MAJOR_VERSION_ARB, cfg.major_version,
        GLX_CONTEXT_MINOR_VERSION_ARB, cfg.minor_version, 0] ++ List.replicate 10 0
      i := 4
      pvistypeattr := none }).2

/-- The loop of the modern path over the configs (lines 858-874): `some
context` when it left through `break` after creating `context`, `none` when
it ran to the end. -/
def X11_GL_CreateContext.scan (env : Env) (gl : SDL_GLDriverData)
    (createARB : List Call → GLXFBConfig → Option GLXContext → Int → List Int → Option GLXContext)
    (share_context : Option GLXContext) (attribs : List Int) :
    List GLXFBConfig → Sys → Except Fault (Option (Option GLXContext) × Sys)
  | [], s => .ok (none, s)
  | config :: rest, s =>
    match gl.glXGetVisualFromFBConfig with
    | none => .error Fault.nullCall
    | some getVisual =>
      let vinfo_temp := getVisual s.trace config
      let s := extcall env (Call.glXGetVisualFromFBConfig config) s
      if vinfo_temp.isSome ∧ hasAlpha env vinfo_temp then
        -- found!
        let context := createARB s.trace config share_context X_True attribs
        let s := extcall env
          (Call.glXCreateContextAttribsARB config share_context X_True attribs) s
        .ok (some context, s)
      else X11_GL_CreateContext.scan env gl createARB share_context attribs rest s

/-- The modern path of `X11_GL_CreateContext` (lines 787-883): `context` after
it. -/
def X11_GL_CreateContext.modern (env : Env) (gl : SDL_GLDriverData) (cfg : SDL_GLConfig)
    (share_context : Option GLXContext) (transparent : Bool) (s : Sys) :
    Except Fault (Option GLXContext × Sys) :=
  -- max 14 attributes plus terminator
  let attribs := (X11_GL_CreateContext.attribs cfg gl).attribs
  -- Get a pointer to the context creation function for GL 3.0
  match gl.glXCreateContextAttribsARB with
  | none => .ok (none, SDL_SetError "OpenGL 3.0 and later are not supported by this system" s)
  | some createARB =>
    -- Create a GL 3.x context
    let a := X11_GL_GetAttributes cfg gl env.X11_UseDirectColorVisuals (List.replicate 64 0)
      true transparent
    match gl.glXChooseFBConfig with
    | none => .ok (none, s)
    | some choose =>
      let r := chooseFBConfigRetry env choose env.DefaultScreen a s
      match r.1 with
      | none => .ok (none, r.2.2)
      | some (first, rest) => do
        let found ←
          (if transparent then
            X11_GL_CreateContext.scan env gl createARB share_context attribs (first :: rest)
              r.2.2
          else .ok (none, r.2.2))
        match found.1 with
        | some context => .ok (context, found.2)
        | none =>
          let s := found.2
          .ok (createARB s.trace first share_context X_True attribs,
            extcall env (Call.glXCreateContextAttribsARB first share_context X_True attribs) s)

/-- The bridged part of `X11_GL_CreateContext` (lines 763-888): the context
that was created, if any. -/
def X11_GL_CreateContext.create (env : Env) (gl : SDL_GLDriverData) (window : SDL_Window)
    (s : Sys) : Except Fault (Option GLXContext × Sys) :=
  let cfg := s.gl_config
  let screen := window.screen
  let transparent := window.transparent
  let share_context : Option GLXContext :=
    if cfg.share_with_current_context ≠ 0 then s.current_context else none
  -- We do this to create a clean separation between X and GLX errors.
  let s := extcall env Call.XSync s
  let s := installBridge "create GL context" gl s
  let visualid := env.windowVisualID s.trace window.xwindow
  let s := extcall env (Call.XGetWindowAttributes window.xwindow) s
  let r := X11_XGetVisualInfo env screen (some visualid) s
  let s := r.2
  do
    let c ←
      (match r.1.bind List.head? with
      | some vinfo =>
        if cfg.major_version < 3 ∧ cfg.profile_mask = 0 ∧ cfg.flags = 0 ∧ transparent = false then
          -- Create legacy context
          .ok (gl.glXCreateContext s.trace vinfo share_context X_True,
            extcall env (Call.glXCreateContext vinfo share_context X_True) s)
        else X11_GL_CreateContext.modern env gl cfg share_context transparent s
      | none => .ok (none, s))
    let s := extcall env Call.XSync c.2
    let s := removeBridge s
    .ok (c.1, s)

/-- The function `X11_GL_CreateContext` (lines 751-903). -/
def X11_GL_CreateContext (env : Env) (window : SDL_Window) (s : Sys) :
    Except Fault (Option GLXContext × Sys) :=
  match s.gl_data with
  | none => .error Fault.nullDeref
  | some gl => do
    let c ← X11_GL_CreateContext.create env gl window s
    let s := c.2
    match c.1 with
    | none =>
      .ok (none, if s.errorCode = X_Success then SDL_SetError "Could not create GL context" s
        else s)
    | some context =>
      let m := X11_GL_MakeCurrent env window (some context) s
      if !m.1 then
        .ok (none, (X11_GL_DestroyContext env (some context) m.2).2)
      else .ok (some context, m.2)

/-! ## Swap interval and tear behaviour (lines 943-1085) -/

/-- The conversion `(int)u` of an `unsigned int`. -/
def toInt32 (u : Nat) : Int :=
  if u % 2 ^ 32 < 2 ^ 31 then ((u % 2 ^ 32 : Nat) : Int) else ((u % 2 ^ 32 : Nat) : Int) - 2 ^ 32

/-- The negation `-x` of an `int`, wrapping in two's complement. -/
def negInt32 (x : Int) : Int := toInt32 ((-x) % 2 ^ 32).toNat

/-- The call `glXQueryDrawable(display, drawable, attrib, &value)`: the driver
either stores an `unsigned int` through the pointer or leaves the variable as
it was.  The entry point is optional, so the pointer may be null. -/
def glXQueryDrawable (env : Env) (gl : SDL_GLDriverData) (drawable : Window) (attrib : Int)
    (value : Nat) (s : Sys) : Except Fault (Nat × Sys) :=
  match gl.glXQueryDrawable with
  | none => .error Fault.nullCall
  | some f =>
    let value := match f s.trace drawable attrib with
      | some v => v % 2 ^ 32
      | none => value
    .ok (value, extcall env (Call.glXQueryDrawable drawable attrib) s)

/-- The call `glXSwapIntervalEXT(display, drawable, interval)` through the
optional pointer of the session. -/
def glXSwapIntervalEXT (env : Env) (gl : SDL_GLDriverData) (drawable : Window) (interval : Int)
    (s : Sys) : Except Fault Sys :=
  if gl.glXSwapIntervalEXT then .ok (extcall env (Call.glXSwapIntervalEXT drawable interval) s)
  else .error Fault.nullCall

/-- The assignment `_this->gl_data->swap_interval_tear_behavior = b`. -/
def setTearBehavior (b : SDL_GLSwapIntervalTearBehavior) (s : Sys) : Sys :=
  { s with gl_data := s.gl_data.map (fun gl => { gl with swap_interval_tear_behavior := b }) }

/-- The function `CheckSwapIntervalTearBehavior` (lines 992-1036). -/
def CheckSwapIntervalTearBehavior (env : Env) (drawable : Window) (current_val : Nat)
    (current_allow_late : Nat) (s : Sys) :
    Except Fault (SDL_GLSwapIntervalTearBehavior × Sys) :=
  match s.gl_data with
  | none => .error Fault.nullDeref
  | some gl =>
    if gl.swap_interval_tear_behavior = SDL_SWAPINTERVALTEAR_UNTESTED then
      if !gl.HAS_GLX_EXT_swap_control_tear then
        .ok (SDL_SWAPINTERVALTEAR_UNKNOWN, setTearBehavior SDL_SWAPINTERVALTEAR_UNKNOWN s)
      else do
        let allow_late_swap_tearing : Nat := 22
        let original_val : Int := toInt32 current_val
        let s ← glXSwapIntervalEXT env gl drawable (toInt32 current_val) s
        -- set it to no swap interval and see how it affects GLX_LATE_SWAPS_TEAR_EXT...
        let s ← glXSwapIntervalEXT env gl drawable 0 s
        let q ← glXQueryDrawable env gl drawable GLX_LATE_SWAPS_TEAR_EXT allow_late_swap_tearing s
        let allow_late_swap_tearing := q.1
        let s := q.2
        let behavior :=
          if allow_late_swap_tearing = 0 then SDL_SWAPINTERVALTEAR_NVIDIA
          else if allow_late_swap_tearing = 1 then SDL_SWAPINTERVALTEAR_MESA
          else SDL_SWAPINTERVALTEAR_UNKNOWN
        let original_val :=
          if allow_late_swap_tearing = 0 ∧ current_allow_late ≠ 0 then negInt32 original_val
          else original_val
        let s := setTearBehavior behavior s
        -- set us back to what it was originally...
        let s ← glXSwapIntervalEXT env gl drawable original_val s
        .ok (behavior, s)
    else
      .ok (gl.swap_interval_tear_behavior, s)

/-- The function `X11_GL_GetSwapInterval` (lines 1039-1085).  `interval` is the value of
`*interval` before the call; the result holds the return value and `*interval`
afterwards. -/
def X11_GL_GetSwapInterval (env : Env) (interval : Int) (s : Sys) :
    Except Fault (Bool × Int × Sys) :=
  match s.gl_data with
  | none => .error Fault.nullDeref
  | some gl =>
    if gl.glXSwapIntervalEXT then
      match s.current_window with
      | none => .error Fault.nullDeref
      | some windowdata => do
        let drawable := windowdata.xwindow
        let q ←
          (if gl.HAS_GLX_EXT_swap_control_tear then
            -- set this to nonsense.
            glXQueryDrawable env gl drawable GLX_LATE_SWAPS_TEAR_EXT 22 s
          else .ok (0, s))
        let allow_late_swap_tearing := q.1
        let q ← glXQueryDrawable env gl drawable GLX_SWAP_INTERVAL_EXT 0 q.2
        let val := q.1
        let c ← CheckSwapIntervalTearBehavior env drawable val allow_late_swap_tearing q.2
        match c.1 with
        | SDL_SWAPINTERVALTEAR_MESA => .ok (true, toInt32 val, c.2)
        | _ =>
          if allow_late_swap_tearing ≠ 0 ∧ val > 0 then .ok (true, negInt32 (toInt32 val), c.2)
          else .ok (true, toInt32 val, c.2)
    else
      match gl.glXGetSwapIntervalMESA with
      | some f =>
        let val := f s.trace
        let s := extcall env Call.glXGetSwapIntervalMESA s
        if val = GLX_BAD_CONTEXT then .ok (false, interval, SDL_SetError "GLX_BAD_CONTEXT" s)
        else .ok (true, val, s)
      | none => .ok (true, s.swapinterval, s)

/-- The function `X11_GL_SetSwapInterval` (lines 944-990). -/
def X11_GL_SetSwapInterval (env : Env) (interval : Int) (s : Sys) : Except Fault (Bool × Sys) :=
  match s.gl_data with
  | none => .error Fault.nullDeref
  | some gl =>
    if interval < 0 ∧ ¬ gl.HAS_GLX_EXT_swap_control_tear then
      .ok (false, SDL_SetError "Negative swap interval unsupported in this GL" s)
    else if gl.glXSwapIntervalEXT then
      match s.current_window with
      | none => .error Fault.nullDeref
      | some windowdata => do
        let drawable := windowdata.xwindow
        let g ← X11_GL_GetSwapInterval env 0 s
        let currentInterval := g.2.1
        let s := g.2.2
        let s ← glXSwapIntervalEXT env gl drawable currentInterval s
        let s ← glXSwapIntervalEXT env gl drawable interval s
        .ok (true, { s with swapinterval := interval })
    else
      match gl.glXSwapIntervalMESA with
      | some f =>
        let rc := f s.trace interval
        let s := extcall env (Call.glXSwapIntervalMESA interval) s
        if rc = 0 then .ok (true, { s with swapinterval := interval })
        else .ok (false, SDL_SetError "glXSwapIntervalMESA failed" s)
      | none =>
        match gl.glXSwapIntervalSGI with
        | some f =>
          let rc := f s.trace interval
          let s := extcall env (Call.glXSwapIntervalSGI interval) s
          if rc = 0 then .ok (true, { s with swapinterval := interval })
          else .ok (false, SDL_SetError "glXSwapIntervalSGI failed" s)
        | none => .ok (false, SDL_Unsupported s)

/-- The swap-control family an entry point belongs to, for the entry points
that set or query the swap interval. -/
inductive SwapFamily where
  | EXT
  | MESA
  | SGI
deriving DecidableEq, Repr

/-- The family of a recorded call (`glXQueryDrawable` is how the EXT family
reads the interval back). -/
def Call.family : Call → Option SwapFamily
  | Call.glXSwapIntervalEXT _ _ => some SwapFamily.EXT
  | Call.glXQueryDrawable _ _ => some SwapFamily.EXT
  | Call.glXSwapIntervalMESA _ => some SwapFamily.MESA
  | Call.glXGetSwapIntervalMESA => some SwapFamily.MESA
  | Call.glXSwapIntervalSGI _ => some SwapFamily.SGI
  | _ => none

/-- The message `X11_GL_ErrorHandler` records for an error code, given the
operation name and the error base of the bridge. -/
def handlerMessage (env : Env) (op : Option String) (errorCode errorBase : Int) : String :=
  match env.x11_error_text errorCode with
  | some x11_error => "Could not " ++ op.getD "(null)" ++ ": " ++ x11_error
  | none =>
    "Could not " ++ op.getD "(null)" ++ ": " ++ toString errorCode ++ " (Base "
      ++ toString errorBase ++ ")"

/-- The events that reach the handler of this file during the
`glXMakeCurrent` call of `X11_GL_MakeCurrent` started in state `s`. -/
def makeCurrentEvents (env : Env) (window : SDL_Window) (context : Option GLXContext)
    (s : Sys) : List XErrorEvent :=
  env.xerrors (s.trace ++ [Call.XSync,
    Call.XSetErrorHandler (some XErrorHandler.X11_GL_ErrorHandler),
    Call.glXMakeCurrent (if context.isSome then window.xwindow else 0) context])

/-- What the driver's `glXMakeCurrent` returns in `X11_GL_MakeCurrent` started
in state `s`. -/
def makeCurrentRc (gl : SDL_GLDriverData) (window : SDL_Window) (context : Option GLXContext)
    (s : Sys) : Int :=
  gl.glXMakeCurrent (s.trace ++ [Call.XSync,
    Call.XSetErrorHandler (some XErrorHandler.X11_GL_ErrorHandler)])
    (if context.isSome then window.xwindow else 0) context

/-- The value of the static `errorCode` after the handler has run on the
events, starting from `Success`: the code of the last event. -/
def capturedCode (evs : List XErrorEvent) : Int :=
  match evs.getLast? with
  | some e => (e.error_code : Int)
  | none => X_Success

/-- The state `s2` continues `s1` with calls of the EXT swap-control family
only. -/
def ExtOnly (s1 s2 : Sys) : Prop :=
  ∃ tr : List Call, s2.trace = s1.trace ++ tr ∧ ∀ c ∈ tr, c.family = some SwapFamily.EXT

/-- A sequence of `X11_GL_SetSwapInterval` calls, one per element of the list:
the argument and the return value of each call, and the state at the end. -/
def setSwapIntervals (env : Env) : List Int → Sys → Except Fault (List (Int × Bool) × Sys)
  | [], s => .ok ([], s)
  | n :: ns, s =>
    match X11_GL_SetSwapInterval env n s with
    | .error f => .error f
    | .ok r =>
      match setSwapIntervals env ns r.2 with
      | .error f => .error f
      | .ok rest => .ok ((n, r.1) :: rest.1, rest.2)

/-- The argument of the most recent call of a log that returned true, `d` if
there is none. -/
def lastAccepted (d : Int) (log : List (Int × Bool)) : Int :=
  ((log.filter (fun p => p.2)).getLast?.map Prod.fst).getD d

/-! ## Concrete sessions

Small configurations, drivers and servers on which the statements below are
evaluated. -/

/-- A desktop GL 2.1 request with an 8-bit RGBA, double-buffered format. -/
def demoConfig : SDL_GLConfig where
  red_size := 8
  green_size := 8
  blue_size := 8
  alpha_size := 8
  depth_size := 16
  stencil_size := 0
  double_buffer := 1
  accum_red_size := 0
  accum_green_size := 0
  accum_blue_size := 0
  accum_alpha_size := 0
  stereo := 0
  multisamplebuffers := 0
  multisamplesamples := 0
  floatbuffers := 0
  accelerated := -1
  major_version := 2
  minor_version := 1
  flags := 0
  profile_mask := 0
  share_with_current_context := 0
  release_behavior := 1
  reset_notification := 0
  framebuffer_srgb_capable := 0
  no_error := 0

/-- A 3.2 core-profile request (`SDL_GL_CONTEXT_PROFILE_CORE` is 1). -/
def coreConfig : SDL_GLConfig :=
  { demoConfig with major_version := 3, minor_version := 2, profile_mask := 1 }

/-- An ES 2.0 request. -/
def esConfig : SDL_GLConfig :=
  { demoConfig with major_version := 2, minor_version := 0,
                    profile_mask := SDL_GL_CONTEXT_PROFILE_ES }

/-- A driver with the three swap-control families resolved and no
`GLX_ARB_create_context`: `glXCreateContext` gives context 7, `glXMakeCurrent`
succeeds, and the MESA and SGI setters accept every interval but 0. -/
def demoDriver : SDL_GLDriverData where
  errorBase := 150
  HAS_GLX_EXT_visual_rating := true
  HAS_GLX_EXT_visual_info := true
  HAS_GLX_EXT_swap_control_tear := false
  HAS_GLX_ARB_context_flush_control := false
  HAS_GLX_ARB_create_context_robustness := false
  HAS_GLX_ARB_create_context_no_error := false
  es_profile_max_supported_version := { major := 0, minor := 0 }
  swap_interval_tear_behavior := SDL_SWAPINTERVALTEAR_UNTESTED
  glXChooseVisual := fun _ _ _ => none
  glXCreateContext := fun _ _ _ _ => some 7
  glXMakeCurrent := fun _ _ _ => 1
  glXQueryDrawable := some (fun _ _ _ => some 1)
  glXCreateContextAttribsARB := none
  glXChooseFBConfig := none
  glXGetVisualFromFBConfig := none
  glXSwapIntervalEXT := true
  glXSwapIntervalMESA := some (fun _ n => if n = 0 then 1 else 0)
  glXGetSwapIntervalMESA := none
  glXSwapIntervalSGI := some (fun _ n => if n = 0 then 1 else 0)

/-- A server with one opaque visual (id 33) and one 32-bit visual (id 99) on
screen 0, that raises no X error; the derived format of a visual is its depth,
and a format has alpha when it is 32. -/
def demoEnv : Env where
  xerrors := fun _ => []
  x11_error_text := fun _ => none
  SDL_GetHintBoolean := fun _ d => d
  X11_UseDirectColorVisuals := true
  visuals := [{ visualid := 33, screen := 0, depth := 24 },
              { visualid := 99, screen := 0, depth := 32 }]
  X11_GetPixelFormatFromVisualInfo := fun v =>
    match v with
    | some x => x.depth.toNat
    | none => 0
  SDL_ISPIXELFORMAT_ALPHA := fun f => f == 32
  windowVisualID := fun _ _ => 33
  DefaultScreen := 0

/-- A window on screen 0. -/
def demoWindow : SDL_Window := { xwindow := 5, transparent := false, screen := 0 }

/-- A freshly initialised session of `demoDriver` with `demoWindow` current. -/
def demoSys : Sys where
  gl_data := some demoDriver
  gl_config := demoConfig
  trace := []
  error := none
  installed := some (XErrorHandler.other 0)
  handler := none
  errorHandlerOperation := none
  errorBase := 0
  errorCode := 0
  swapinterval := 0
  current_window := some demoWindow
  current_context := none

/-- A session of `demoDriver` without the EXT and MESA families: only
`glXSwapIntervalSGI` is resolved (it rejects the interval 0). -/
def sgiSys : Sys :=
  { demoSys with
    gl_data := some { demoDriver with glXSwapIntervalEXT := false, glXSwapIntervalMESA := none } }

/-- The session `demoSys` with a 3.2 core-profile request; its driver has no
`glXCreateContextAttribsARB`. -/
def coreSys : Sys := { demoSys with gl_config := coreConfig }

/-- A driver like `demoDriver` whose `glXMakeCurrent` fails (returns 0). -/
def failDriver : SDL_GLDriverData := { demoDriver with glXMakeCurrent := fun _ _ _ => 0 }

/-- A session of `failDriver`. -/
def failSys : Sys := { demoSys with gl_data := some failDriver }

/-- A driver like `demoDriver` whose `glXChooseVisual` answers the opaque
visual 33 for every request. -/
def visDriver : SDL_GLDriverData :=
  { demoDriver with
    glXChooseVisual := fun _ _ _ => some { visualid := 33, screen := 0, depth := 24 } }

/-- A session of `visDriver`. -/
def visSys : Sys := { demoSys with gl_data := some visDriver }

/-- The optional pairs of the context attribute array of the modern path, in
the order in which lines 798-827 append them. -/
def optionalContextAttribs (cfg : SDL_GLConfig) (gl : SDL_GLDriverData) : List Int :=
  (if cfg.profile_mask ≠ 0 then [GLX_CONTEXT_PROFILE_MASK_ARB, cfg.profile_mask] else [])
  ++ (if cfg.flags ≠ 0 then [GLX_CONTEXT_FLAGS_ARB, cfg.flags] else [])
  ++ (if gl.HAS_GLX_ARB_context_flush_control = true ∧ cfg.release_behavior = 0 then
        [GLX_CONTEXT_RELEASE_BEHAVIOR_ARB, GLX_CONTEXT_RELEASE_BEHAVIOR_NONE_ARB] else [])
  ++ (if gl.HAS_GLX_ARB_create_context_robustness = true ∧ cfg.reset_notification ≠ 0 then
        [GLX_CONTEXT_RESET_NOTIFICATION_STRATEGY_ARB, GLX_LOSE_CONTEXT_ON_RESET_ARB] else [])
  ++ (if gl.HAS_GLX_ARB_create_context_no_error = true ∧ cfg.no_error ≠ 0 then
        [GLX_CONTEXT_OPENGL_NO_ERROR_ARB, cfg.no_error] else [])

/-- A driver of a server that advertises no GLX extension at all: every flag
is false and no optional entry point is resolved. -/
def bareDriver : SDL_GLDriverData :=
  { demoDriver with
    HAS_GLX_EXT_visual_rating := false
    HAS_GLX_EXT_visual_info := false
    glXQueryDrawable := none
    glXSwapIntervalEXT := false
    glXSwapIntervalMESA := none
    glXSwapIntervalSGI := none }

/-- The cached tear behaviour of the session
(`_this->gl_data->swap_interval_tear_behavior`); `none` when `gl_data` is
null. -/
def tearCache (s : Sys) : Option SDL_GLSwapIntervalTearBehavior :=
  s.gl_data.map (fun gl => gl.swap_interval_tear_behavior)

/-- The value of `allow_late_swap_tearing` after the query of the probe that
`CheckSwapIntervalTearBehavior` runs from state `s`: what the driver stores
for `GLX_LATE_SWAPS_TEAR_EXT` once the interval has been set to 0, or the
pre-set 22 when the driver stores nothing. -/
def probedLateSwaps (q : List Call → Window → Int → Option Nat) (drawable : Window)
    (current_val : Nat) (s : Sys) : Nat :=
  match q (s.trace ++ [Call.glXSwapIntervalEXT drawable (toInt32 current_val),
      Call.glXSwapIntervalEXT drawable 0]) drawable GLX_LATE_SWAPS_TEAR_EXT with
  | some v => v % 2 ^ 32
  | none => 22

/-- A driver like `demoDriver` with the tear extension, whose
`glXQueryDrawable` reports 0 for `GLX_LATE_SWAPS_TEAR_EXT` and 1 for every
other attribute. -/
def tearDriver : SDL_GLDriverData :=
  { demoDriver with
    HAS_GLX_EXT_swap_control_tear := true
    glXQueryDrawable := some (fun _ _ a => if a = GLX_LATE_SWAPS_TEAR_EXT then some 0 else some 1) }

/-- A session of `tearDriver` that has not probed the tear behaviour yet. -/
def tearSys : Sys := { demoSys with gl_data := some tearDriver }

/-- A session of `tearDriver` whose cached tear behaviour is MESA. -/
def cachedSys : Sys :=
  { demoSys with
    gl_data := some { tearDriver with swap_interval_tear_behavior := SDL_SWAPINTERVALTEAR_MESA } }

/-- A server like `demoEnv` whose screen 0 lists two visuals, 33 and 34, both
of depth 24: no visual has an alpha format. -/
def opaqueEnv : Env :=
  { demoEnv with
    visuals := [{ visualid := 33, screen := 0, depth := 24 },
                { visualid := 34, screen := 0, depth := 24 }] }

/-- A driver like `demoDriver` whose `glXChooseVisual` answers visual 34 for
every request. -/
def opaqueDriver : SDL_GLDriverData :=
  { demoDriver with
    glXChooseVisual := fun _ _ _ => some { visualid := 34, screen := 0, depth := 24 } }

/-- A session of `opaqueDriver`. -/
def opaqueSys : Sys := { demoSys with gl_data := some opaqueDriver }

/-- The slots of an attribute buffer that come before the first slot holding
`None`: the buffer read up to its first sentinel. -/
def upToSentinel (attribs : List Int) : List Int :=
  attribs.takeWhile (fun v => decide (v ≠ X_None))

/-- The driver `demoDriver` without `GLX_EXT_visual_info`. -/
def noVisInfoDriver : SDL_GLDriverData :=
  { demoDriver with HAS_GLX_EXT_visual_info := false }

/-! # Theorems -/

/-! ## `HasExtension` -/

/-- C1: the code returns true for a token that is not one of the
space-separated pieces of the haystack.  For the token `ab` and the haystack
`abab`, the first occurrence is rejected (it is followed by `a`), `start`
moves to offset 2, the next occurrence begins at `start` and so passes the
test `where == start` although the character before it is not a space, and it
is followed by the end of the string. -/
theorem C1_HasExtension_adjacent_repeat :
    HasExtension "ab".toList (some "abab".toList) = true ∧
    "ab".toList ≠ [] ∧ ' ' ∉ "ab".toList ∧
    "ab".toList ∉ tokens "abab".toList := by
  decide

/-! ## `X11_GL_GetAttributes` -/

theorem pushAttrib_eq (v : Int) : pushAttrib v = pushAll [v] := rfl

theorem writeAt_append (buf : List Int) (i : Nat) (a b : List Int) :
    writeAt buf i (a ++ b) = writeAt (writeAt buf i a) (i + a.length) b := by
  induction a generalizing buf i with
  | nil => simp [writeAt]
  | cons v vs ih => simp [writeAt, ih, Nat.add_assoc, Nat.add_comm 1]

theorem pushAll_seq (a b : List Int) :
    (pushAll a >>= fun _ => pushAll b) = pushAll (a ++ b) := by
  funext s
  simp [pushAll, modify, modifyGet, MonadStateOf.modifyGet, StateT.modifyGet, bind, StateT.bind,
    writeAt_append, Nat.add_assoc, pure]

theorem pushAll_seq_bind (a b : List Int) (k : Unit → StateM AttrState Unit) :
    (pushAll a >>= fun _ => pushAll b >>= k) = (pushAll (a ++ b) >>= k) := by
  rw [← pushAll_seq, bind_assoc]

theorem pushAll_ite (c : Prop) [Decidable c] (a b : List Int) :
    (if c then pushAll a else pushAll b) = pushAll (if c then a else b) := by
  split <;> rfl

theorem pushAll_nil : (pure PUnit.unit : StateM AttrState Unit) = pushAll [] := by
  funext s
  simp [pushAll, modify, modifyGet, MonadStateOf.modifyGet, StateT.modifyGet, pure, StateT.pure,
    writeAt]

theorem body_eq (cfg : SDL_GLConfig) (gl : SDL_GLDriverData)
    (useDirectColor for_FBConfig transparent : Bool) :
    X11_GL_GetAttributes.body cfg gl useDirectColor for_FBConfig transparent =
      (pushAll (baseAttribs cfg gl for_FBConfig) >>= fun _ =>
        (if wantsVisType gl useDirectColor transparent then
          (markVisType >>= fun _ => pushAll [GLX_X_VISUAL_TYPE_EXT, GLX_DIRECT_COLOR_EXT])
        else pushAll []) >>= fun _ => pushAll [X_None]) := by
  unfold X11_GL_GetAttributes.body baseAttribs
  simp only [pushAttrib_eq, pushAll_nil, pushAll_seq, pushAll_seq_bind, pushAll_ite, bind_assoc]
  by_cases hf : cfg.floatbuffers = 0 <;> cases transparent <;> cases useDirectColor <;>
    cases hv : gl.HAS_GLX_EXT_visual_info <;> simp [hf, hv, wantsVisType]

theorem GetAttributes_eq (cfg : SDL_GLConfig) (gl : SDL_GLDriverData)
    (useDirectColor : Bool) (attribs : List Int) (for_FBConfig transparent : Bool) :
    X11_GL_GetAttributes cfg gl useDirectColor attribs for_FBConfig transparent =
      { attribs := writeAt attribs 0 (allAttribs cfg gl useDirectColor for_FBConfig transparent)
        i := (allAttribs cfg gl useDirectColor for_FBConfig transparent).length
        pvistypeattr :=
          if wantsVisType gl useDirectColor transparent then
            some (baseAttribs cfg gl for_FBConfig).length
          else none } := by
  unfold X11_GL_GetAttributes
  rw [body_eq]
  cases hw : wantsVisType gl useDirectColor transparent <;>
    simp [allAttribs, hw, pushAll, markVisType, modify, modifyGet, MonadStateOf.modifyGet,
      StateT.modifyGet, bind, StateT.bind, StateT.run, pure, writeAt_append, Nat.add_assoc] <;>
    simp only [writeAt]

theorem getElem?_snoc_last (p : List Int) (x : Int) :
    (p ++ [x])[(p ++ [x]).length - 1]? = some x := by
  simp

theorem length_writeAt (buf : List Int) (i : Nat) (vs : List Int) :
    (writeAt buf i vs).length = buf.length := by
  induction vs generalizing buf i with
  | nil => rfl
  | cons v vs ih => simp [writeAt, ih]

theorem writeAt_get_ge (buf : List Int) (i : Nat) (vs : List Int) (j : Nat)
    (h : i + vs.length ≤ j) : (writeAt buf i vs)[j]? = buf[j]? := by
  induction vs generalizing buf i with
  | nil => rfl
  | cons v vs ih =>
    simp only [writeAt, List.length_cons] at h ⊢
    rw [ih _ _ (by omega), List.getElem?_set_ne (by omega)]

theorem writeAt_get_lt (buf : List Int) (i : Nat) (vs : List Int) (j : Nat)
    (h : j < i) : (writeAt buf i vs)[j]? = buf[j]? := by
  induction vs generalizing buf i with
  | nil => rfl
  | cons v vs ih =>
    simp only [writeAt]
    rw [ih _ _ (by omega), List.getElem?_set_ne (by omega)]

theorem writeAt_get_mid (buf : List Int) (i : Nat) (vs : List Int) (k : Nat)
    (hk : k < vs.length) (h : i + vs.length ≤ buf.length) :
    (writeAt buf i vs)[i + k]? = vs[k]? := by
  induction vs generalizing buf i k with
  | nil => simp at hk
  | cons v vs ih =>
    simp only [writeAt, List.length_cons] at h hk ⊢
    cases k with
    | zero =>
      rw [writeAt_get_lt _ _ _ _ (by omega)]
      simp [List.getElem?_set_self, show i < buf.length by omega]
    | succ k =>
      have := ih (buf.set i v) (i + 1) k (by omega) (by simp; omega)
      simpa [Nat.add_assoc, Nat.add_comm 1] using this

theorem length_ite_le (c : Prop) [Decidable c] (l : List Int) :
    (if c then l else []).length ≤ l.length := by
  split <;> simp

theorem baseAttribs_length_le (cfg : SDL_GLConfig) (gl : SDL_GLDriverData) (for_FBConfig : Bool) :
    (baseAttribs cfg gl for_FBConfig).length ≤ 36 := by
  have h0 : (if for_FBConfig = true then
      [GLX_RENDER_TYPE, if cfg.floatbuffers ≠ 0 then GLX_RGBA_FLOAT_BIT_ARB else GLX_RGBA_BIT]
    else [GLX_RGBA]).length ≤ 2 := by split <;> simp
  have h1 := length_ite_le (cfg.alpha_size ≠ 0) [GLX_ALPHA_SIZE, cfg.alpha_size]
  have h2 : (if cfg.double_buffer ≠ 0 then
        GLX_DOUBLEBUFFER :: (if for_FBConfig = true then [X_True] else []) else []).length ≤ 2 := by
    split <;> [split; skip] <;> simp
  have h3 := length_ite_le (cfg.stencil_size ≠ 0) [GLX_STENCIL_SIZE, cfg.stencil_size]
  have h4 := length_ite_le (cfg.accum_red_size ≠ 0) [GLX_ACCUM_RED_SIZE, cfg.accum_red_size]
  have h5 := length_ite_le (cfg.accum_green_size ≠ 0) [GLX_ACCUM_GREEN_SIZE, cfg.accum_green_size]
  have h6 := length_ite_le (cfg.accum_blue_size ≠ 0) [GLX_ACCUM_BLUE_SIZE, cfg.accum_blue_size]
  have h7 := length_ite_le (cfg.accum_alpha_size ≠ 0) [GLX_ACCUM_ALPHA_SIZE, cfg.accum_alpha_size]
  have h8 : (if cfg.stereo ≠ 0 then
        GLX_STEREO :: (if for_FBConfig = true then [X_True] else []) else []).length ≤ 2 := by
    split <;> [split; skip] <;> simp
  have h9 := length_ite_le (cfg.multisamplebuffers ≠ 0)
    [GLX_SAMPLE_BUFFERS_ARB, cfg.multisamplebuffers]
  have h10 := length_ite_le (cfg.multisamplesamples ≠ 0) [GLX_SAMPLES_ARB, cfg.multisamplesamples]
  have h11 := length_ite_le (cfg.floatbuffers ≠ 0) [GLX_RENDER_TYPE, GLX_RGBA_FLOAT_TYPE_ARB]
  have h12 := length_ite_le (cfg.framebuffer_srgb_capable ≠ 0)
    [GLX_FRAMEBUFFER_SRGB_CAPABLE_ARB, X_True]
  have h13 := length_ite_le (cfg.accelerated ≥ 0 ∧ gl.HAS_GLX_EXT_visual_rating = true)
    [GLX_VISUAL_CAVEAT_EXT, if cfg.accelerated ≠ 0 then GLX_NONE_EXT else GLX_SLOW_VISUAL_EXT]
  simp only [baseAttribs, List.length_append, List.length_cons, List.length_nil] at *
  omega

theorem allAttribs_length (cfg : SDL_GLConfig) (gl : SDL_GLDriverData) (useDirectColor : Bool)
    (for_FBConfig transparent : Bool) :
    1 ≤ (allAttribs cfg gl useDirectColor for_FBConfig transparent).length ∧
    (allAttribs cfg gl useDirectColor for_FBConfig transparent).length ≤ 39 := by
  have hb := baseAttribs_length_le cfg gl for_FBConfig
  have hv := length_ite_le (wantsVisType gl useDirectColor transparent = true)
    [GLX_X_VISUAL_TYPE_EXT, GLX_DIRECT_COLOR_EXT]
  simp only [allAttribs, List.length_append, List.length_cons, List.length_nil] at *
  omega

/-- C5: for every configuration, flags, direct-colour policy and both values
of `for_FBConfig` and `transparent`, `X11_GL_GetAttributes` run on a buffer of
at least `MAX_ATTRIBUTES` slots returns a count `i` with `1 ≤ i ≤ 64` (the
assertion `i <= MAX_ATTRIBUTES` holds), keeps the size of the buffer, leaves
every slot of index `i` or more as it was, and has the sentinel `None` in slot
`i - 1`. -/
theorem C5_GetAttributes_bounds (cfg : SDL_GLConfig) (gl : SDL_GLDriverData)
    (useDirectColor : Bool) (attribs : List Int) (for_FBConfig transparent : Bool)
    (hsize : MAX_ATTRIBUTES ≤ attribs.length) :
    1 ≤ (X11_GL_GetAttributes cfg gl useDirectColor attribs for_FBConfig transparent).i ∧
    (X11_GL_GetAttributes cfg gl useDirectColor attribs for_FBConfig transparent).i
      ≤ MAX_ATTRIBUTES ∧
    (X11_GL_GetAttributes cfg gl useDirectColor attribs for_FBConfig transparent).attribs.length
      = attribs.length ∧
    (∀ j, (X11_GL_GetAttributes cfg gl useDirectColor attribs for_FBConfig transparent).i ≤ j →
      (X11_GL_GetAttributes cfg gl useDirectColor attribs for_FBConfig transparent).attribs[j]?
        = attribs[j]?) ∧
    (X11_GL_GetAttributes cfg gl useDirectColor attribs for_FBConfig transparent).attribs[
      (X11_GL_GetAttributes cfg gl useDirectColor attribs for_FBConfig transparent).i - 1]?
        = some X_None := by
  rw [GetAttributes_eq]
  have hl := allAttribs_length cfg gl useDirectColor for_FBConfig transparent
  simp only [MAX_ATTRIBUTES] at hsize ⊢
  refine ⟨hl.1, by omega, length_writeAt _ _ _, ?_, ?_⟩
  · intro j hj
    exact writeAt_get_ge _ _ _ _ (by omega)
  · have := writeAt_get_mid attribs 0
      (allAttribs cfg gl useDirectColor for_FBConfig transparent)
      ((allAttribs cfg gl useDirectColor for_FBConfig transparent).length - 1)
      (by omega) (by omega)
    rw [Nat.zero_add] at this
    rw [this]
    exact getElem?_snoc_last _ _

/-- C5 on the FBConfig list of `demoConfig` with `demoDriver`, written into a
buffer of 64 zeroes: the count is 17. -/
theorem C5_GetAttributes_bounds_witness :
    (X11_GL_GetAttributes demoConfig demoDriver true (List.replicate 64 0) true false).i = 17 ∧
    1 ≤ (X11_GL_GetAttributes demoConfig demoDriver true (List.replicate 64 0) true false).i ∧
    (X11_GL_GetAttributes demoConfig demoDriver true (List.replicate 64 0) true false).i
      ≤ MAX_ATTRIBUTES ∧
    (X11_GL_GetAttributes demoConfig demoDriver true (List.replicate 64 0) true
      false).attribs.length = (List.replicate 64 (0 : Int)).length ∧
    (∀ j, (X11_GL_GetAttributes demoConfig demoDriver true (List.replicate 64 0) true false).i
        ≤ j →
      (X11_GL_GetAttributes demoConfig demoDriver true (List.replicate 64 0) true
        false).attribs[j]? = (List.replicate 64 (0 : Int))[j]?) ∧
    (X11_GL_GetAttributes demoConfig demoDriver true (List.replicate 64 0) true false).attribs[
      (X11_GL_GetAttributes demoConfig demoDriver true (List.replicate 64 0) true false).i - 1]?
        = some X_None :=
  ⟨by decide,
    C5_GetAttributes_bounds demoConfig demoDriver true (List.replicate 64 0) true false
      (by decide)⟩

/-! ## The error bridge -/

theorem foldl_handler (env : Env) (evs : List XErrorEvent) (s : Sys) :
    evs.foldl (fun s e => X11_GL_ErrorHandler env e s) s =
      match evs.getLast? with
      | none => s
      | some e =>
        { s with
          errorCode := (e.error_code : Int)
          error := some (handlerMessage env s.errorHandlerOperation e.error_code s.errorBase) } := by
  induction evs generalizing s with
  | nil => rfl
  | cons e es ih =>
    rw [List.foldl_cons, ih]
    cases es with
    | nil =>
      simp only [List.getLast?_nil, List.getLast?_singleton]
      simp only [X11_GL_ErrorHandler, handlerMessage, SDL_SetError]
      cases env.x11_error_text (e.error_code : Int) <;> rfl
    | cons e2 es2 =>
      rw [List.getLast?_cons_cons]
      cases h : (e2 :: es2).getLast? with
      | none => simp at h
      | some e3 =>
        simp only [X11_GL_ErrorHandler, handlerMessage, SDL_SetError]
        cases env.x11_error_text (e.error_code : Int) <;> rfl

theorem dispatchErrors_eq (env : Env) (s : Sys) :
    dispatchErrors env s =
      match s.installed, (env.xerrors s.trace).getLast? with
      | some XErrorHandler.X11_GL_ErrorHandler, some e =>
        { s with
          errorCode := (e.error_code : Int)
          error := some (handlerMessage env s.errorHandlerOperation e.error_code s.errorBase) }
      | _, _ => s := by
  unfold dispatchErrors
  split
  · rename_i heq
    rw [foldl_handler]
    simp only [heq]
    cases (env.xerrors s.trace).getLast? <;> rfl
  · rename_i hne
    split
    · rename_i heq _
      exact absurd heq (hne)
    · rfl

theorem dispatchErrors_fields (env : Env) (s : Sys) :
    ∃ code msg, dispatchErrors env s = { s with errorCode := code, error := msg } := by
  rw [dispatchErrors_eq]
  split
  · exact ⟨_, _, rfl⟩
  · exact ⟨s.errorCode, s.error, rfl⟩

theorem extcall_fields (env : Env) (c : Call) (s : Sys) :
    ∃ code msg, extcall env c s =
      { s with trace := s.trace ++ [c], errorCode := code, error := msg } := by
  obtain ⟨code, msg, h⟩ := dispatchErrors_fields env { s with trace := s.trace ++ [c] }
  exact ⟨code, msg, h⟩

@[simp] theorem extcall_trace (env : Env) (c : Call) (s : Sys) :
    (extcall env c s).trace = s.trace ++ [c] := by
  obtain ⟨_, _, h⟩ := extcall_fields env c s; rw [h]

@[simp] theorem extcall_gl_data (env : Env) (c : Call) (s : Sys) :
    (extcall env c s).gl_data = s.gl_data := by
  obtain ⟨_, _, h⟩ := extcall_fields env c s; rw [h]

@[simp] theorem extcall_gl_config (env : Env) (c : Call) (s : Sys) :
    (extcall env c s).gl_config = s.gl_config := by
  obtain ⟨_, _, h⟩ := extcall_fields env c s; rw [h]

@[simp] theorem extcall_installed (env : Env) (c : Call) (s : Sys) :
    (extcall env c s).installed = s.installed := by
  obtain ⟨_, _, h⟩ := extcall_fields env c s; rw [h]

@[simp] theorem extcall_handler (env : Env) (c : Call) (s : Sys) :
    (extcall env c s).handler = s.handler := by
  obtain ⟨_, _, h⟩ := extcall_fields env c s; rw [h]

@[simp] theorem extcall_errorBase (env : Env) (c : Call) (s : Sys) :
    (extcall env c s).errorBase = s.errorBase := by
  obtain ⟨_, _, h⟩ := extcall_fields env c s; rw [h]

@[simp] theorem extcall_errorHandlerOperation (env : Env) (c : Call) (s : Sys) :
    (extcall env c s).errorHandlerOperation = s.errorHandlerOperation := by
  obtain ⟨_, _, h⟩ := extcall_fields env c s; rw [h]

@[simp] theorem extcall_swapinterval (env : Env) (c : Call) (s : Sys) :
    (extcall env c s).swapinterval = s.swapinterval := by
  obtain ⟨_, _, h⟩ := extcall_fields env c s; rw [h]

@[simp] theorem extcall_current_window (env : Env) (c : Call) (s : Sys) :
    (extcall env c s).current_window = s.current_window := by
  obtain ⟨_, _, h⟩ := extcall_fields env c s; rw [h]

@[simp] theorem extcall_current_context (env : Env) (c : Call) (s : Sys) :
    (extcall env c s).current_context = s.current_context := by
  obtain ⟨_, _, h⟩ := extcall_fields env c s; rw [h]

/-- A call made while the handler of this file is installed: the static
`errorCode` and the error slot afterwards. -/
theorem extcall_bridged (env : Env) (c : Call) (s : Sys)
    (hi : s.installed = some XErrorHandler.X11_GL_ErrorHandler) :
    (extcall env c s).errorCode =
        (match (env.xerrors (s.trace ++ [c])).getLast? with
          | some e => (e.error_code : Int)
          | none => s.errorCode) ∧
    (extcall env c s).error =
        (match (env.xerrors (s.trace ++ [c])).getLast? with
          | some e =>
            some (handlerMessage env s.errorHandlerOperation e.error_code s.errorBase)
          | none => s.error) := by
  unfold extcall
  rw [dispatchErrors_eq]
  simp only [hi]
  cases (env.xerrors (s.trace ++ [c])).getLast? <;> exact ⟨rfl, rfl⟩

/-- A call made while another handler is installed leaves the statics and the
error slot alone. -/
theorem extcall_unbridged (env : Env) (c : Call) (s : Sys)
    (hi : s.installed ≠ some XErrorHandler.X11_GL_ErrorHandler) :
    extcall env c s = { s with trace := s.trace ++ [c] } := by
  unfold extcall
  rw [dispatchErrors_eq]
  split
  · rename_i h _; exact absurd h hi
  · rfl

@[simp] theorem installBridge_trace (op : String) (gl : SDL_GLDriverData) (s : Sys) :
    (installBridge op gl s).trace =
      s.trace ++ [Call.XSetErrorHandler (some XErrorHandler.X11_GL_ErrorHandler)] := rfl

@[simp] theorem installBridge_gl_data (op : String) (gl : SDL_GLDriverData) (s : Sys) :
    (installBridge op gl s).gl_data = s.gl_data := rfl

@[simp] theorem installBridge_gl_config (op : String) (gl : SDL_GLDriverData) (s : Sys) :
    (installBridge op gl s).gl_config = s.gl_config := rfl

@[simp] theorem installBridge_installed (op : String) (gl : SDL_GLDriverData) (s : Sys) :
    (installBridge op gl s).installed = some XErrorHandler.X11_GL_ErrorHandler := rfl

@[simp] theorem installBridge_handler (op : String) (gl : SDL_GLDriverData) (s : Sys) :
    (installBridge op gl s).handler = s.installed := rfl

@[simp] theorem installBridge_errorCode (op : String) (gl : SDL_GLDriverData) (s : Sys) :
    (installBridge op gl s).errorCode = X_Success := rfl

@[simp] theorem installBridge_errorBase (op : String) (gl : SDL_GLDriverData) (s : Sys) :
    (installBridge op gl s).errorBase = gl.errorBase := rfl

@[simp] theorem installBridge_errorHandlerOperation (op : String) (gl : SDL_GLDriverData)
    (s : Sys) : (installBridge op gl s).errorHandlerOperation = some op := rfl

@[simp] theorem installBridge_error (op : String) (gl : SDL_GLDriverData) (s : Sys) :
    (installBridge op gl s).error = s.error := rfl

@[simp] theorem installBridge_swapinterval (op : String) (gl : SDL_GLDriverData) (s : Sys) :
    (installBridge op gl s).swapinterval = s.swapinterval := rfl

@[simp] theorem installBridge_current_window (op : String) (gl : SDL_GLDriverData) (s : Sys) :
    (installBridge op gl s).current_window = s.current_window := rfl

@[simp] theorem installBridge_current_context (op : String) (gl : SDL_GLDriverData) (s : Sys) :
    (installBridge op gl s).current_context = s.current_context := rfl

@[simp] theorem removeBridge_trace (s : Sys) :
    (removeBridge s).trace = s.trace ++ [Call.XSetErrorHandler s.handler] := rfl

@[simp] theorem removeBridge_gl_data (s : Sys) : (removeBridge s).gl_data = s.gl_data := rfl

@[simp] theorem removeBridge_gl_config (s : Sys) : (removeBridge s).gl_config = s.gl_config := rfl

@[simp] theorem removeBridge_installed (s : Sys) : (removeBridge s).installed = s.handler := rfl

@[simp] theorem removeBridge_handler (s : Sys) : (removeBridge s).handler = s.handler := rfl

@[simp] theorem removeBridge_errorCode (s : Sys) : (removeBridge s).errorCode = s.errorCode := rfl

@[simp] theorem removeBridge_error (s : Sys) : (removeBridge s).error = s.error := rfl

@[simp] theorem removeBridge_swapinterval (s : Sys) :
    (removeBridge s).swapinterval = s.swapinterval := rfl

@[simp] theorem removeBridge_current_window (s : Sys) :
    (removeBridge s).current_window = s.current_window := rfl

@[simp] theorem removeBridge_current_context (s : Sys) :
    (removeBridge s).current_context = s.current_context := rfl

@[simp] theorem SDL_SetError_error (msg : String) (s : Sys) :
    (SDL_SetError msg s).error = some msg := rfl

@[simp] theorem SDL_SetError_trace (msg : String) (s : Sys) :
    (SDL_SetError msg s).trace = s.trace := rfl

@[simp] theorem SDL_SetError_gl_data (msg : String) (s : Sys) :
    (SDL_SetError msg s).gl_data = s.gl_data := rfl

@[simp] theorem SDL_SetError_swapinterval (msg : String) (s : Sys) :
    (SDL_SetError msg s).swapinterval = s.swapinterval := rfl

@[simp] theorem SDL_SetError_errorCode (msg : String) (s : Sys) :
    (SDL_SetError msg s).errorCode = s.errorCode := rfl

@[simp] theorem SDL_SetError_handler (msg : String) (s : Sys) :
    (SDL_SetError msg s).handler = s.handler := rfl

@[simp] theorem SDL_SetError_installed (msg : String) (s : Sys) :
    (SDL_SetError msg s).installed = s.installed := rfl

/-! ## `X11_GL_MakeCurrent` -/

/-- The state in which `X11_GL_MakeCurrent` makes its final test, for an
initialised session: the static `errorCode` is the code captured during the
`glXMakeCurrent` call, and the error slot holds the handler's message if an
event arrived. -/
theorem MakeCurrent_bridged (env : Env) (window : SDL_Window) (context : Option GLXContext)
    (s : Sys) (gl : SDL_GLDriverData) (hgl : s.gl_data = some gl) :
    ∃ sb : Sys,
      sb.errorCode = capturedCode (makeCurrentEvents env window context s) ∧
      (capturedCode (makeCurrentEvents env window context s) ≠ X_Success →
        sb.error = some (handlerMessage env (some "make GL context current")
          (capturedCode (makeCurrentEvents env window context s)) gl.errorBase)) ∧
      sb.gl_data = s.gl_data ∧
      sb.trace = s.trace ++ [Call.XSync,
        Call.XSetErrorHandler (some XErrorHandler.X11_GL_ErrorHandler),
        Call.glXMakeCurrent (if context.isSome then window.xwindow else 0) context,
        Call.XSetErrorHandler s.installed] ∧
      X11_GL_MakeCurrent env window context s =
        if sb.errorCode ≠ X_Success then (false, sb)
        else if makeCurrentRc gl window context s = 0 then
          (false, SDL_SetError "Unable to make GL context current" sb)
        else (true, sb) := by
  unfold X11_GL_MakeCurrent
  simp only [hgl]
  have hb := extcall_bridged env
    (Call.glXMakeCurrent (if context.isSome then window.xwindow else 0) context)
    (installBridge "make GL context current" gl (extcall env Call.XSync s)) rfl
  simp only [installBridge_trace, extcall_trace, installBridge_errorCode, installBridge_error,
    installBridge_errorHandlerOperation, installBridge_errorBase, List.append_assoc,
    List.singleton_append, List.cons_append, List.nil_append] at hb
  refine ⟨removeBridge (extcall env
    (Call.glXMakeCurrent (if context.isSome then window.xwindow else 0) context)
    (installBridge "make GL context current" gl (extcall env Call.XSync s))), ?_, ?_, ?_, ?_, ?_⟩
  rotate_left 4
  · simp [makeCurrentRc]
  · rw [removeBridge_errorCode, hb.1]
    unfold capturedCode makeCurrentEvents
    rfl
  · intro hc
    rw [removeBridge_error, hb.2]
    unfold capturedCode makeCurrentEvents at hc ⊢
    cases h : (env.xerrors (s.trace ++ [Call.XSync,
      Call.XSetErrorHandler (some XErrorHandler.X11_GL_ErrorHandler),
      Call.glXMakeCurrent (if context.isSome = true then window.xwindow else 0)
        context])).getLast? with
    | none => rw [h] at hc; exact absurd rfl hc
    | some e => rfl
  · simp [hgl]
  · simp

/-- C9: `X11_GL_MakeCurrent` returns true exactly when the session is
initialised, the error bridge captured no X error during the `glXMakeCurrent`
call (the static `errorCode` is still `Success`) and `glXMakeCurrent` returned
non-zero.  When an error was captured the call returns false with the
handler's message in the error slot, whatever `glXMakeCurrent` returned; when
none was captured and `glXMakeCurrent` returned 0 the message is
"Unable to make GL context current". -/
theorem C9_MakeCurrent_result (env : Env) (window : SDL_Window)
    (context : Option GLXContext) (s : Sys) :
    ((X11_GL_MakeCurrent env window context s).1 = true ↔
      ∃ gl, s.gl_data = some gl ∧
        capturedCode (makeCurrentEvents env window context s) = X_Success ∧
        makeCurrentRc gl window context s ≠ 0) ∧
    (∀ gl, s.gl_data = some gl →
      capturedCode (makeCurrentEvents env window context s) ≠ X_Success →
        (X11_GL_MakeCurrent env window context s).1 = false ∧
        (X11_GL_MakeCurrent env window context s).2.error =
          some (handlerMessage env (some "make GL context current")
            (capturedCode (makeCurrentEvents env window context s)) gl.errorBase)) ∧
    (∀ gl, s.gl_data = some gl →
      capturedCode (makeCurrentEvents env window context s) = X_Success →
      makeCurrentRc gl window context s = 0 →
        (X11_GL_MakeCurrent env window context s).1 = false ∧
        (X11_GL_MakeCurrent env window context s).2.error =
          some "Unable to make GL context current") := by
  refine ⟨?_, ?_, ?_⟩
  · cases hgl : s.gl_data with
    | none => simp [X11_GL_MakeCurrent, hgl]
    | some gl =>
      obtain ⟨sb, hcode, -, -, -, heq⟩ := MakeCurrent_bridged env window context s gl hgl
      rw [heq, hcode]
      by_cases hc : capturedCode (makeCurrentEvents env window context s) = X_Success
      · by_cases hrc : makeCurrentRc gl window context s = 0 <;> simp [hc, hrc]
      · simp [hc]
  · intro gl hgl hc
    obtain ⟨sb, hcode, herr, -, -, heq⟩ := MakeCurrent_bridged env window context s gl hgl
    rw [heq, hcode]
    simp [hc, herr hc]
  · intro gl hgl hc hrc
    obtain ⟨sb, hcode, -, -, -, heq⟩ := MakeCurrent_bridged env window context s gl hgl
    rw [heq, hcode]
    simp [hc, hrc]

/-! ## `X11_GL_UseEGL` -/

/-- C10: with the session initialised, `X11_GL_UseEGL` returns true when the
force-EGL hint is set; otherwise, for an ES-profile request, it returns true
exactly when the ES-driver hint is set, or the requested major version is 1,
or the requested (major, minor) is greater in lexicographic order than the
maximum supported ES version; so with the maximum left at 0.0 every ES
request with major at least 1 goes to the alternate backend. -/
theorem C10_UseEGL (env : Env) (s : Sys) (gl : SDL_GLDriverData) (hgl : s.gl_data = some gl) :
    (env.SDL_GetHintBoolean SDL_HINT_VIDEO_FORCE_EGL false = true →
      X11_GL_UseEGL env s = .ok true) ∧
    (env.SDL_GetHintBoolean SDL_HINT_VIDEO_FORCE_EGL false = false →
      s.gl_config.profile_mask = SDL_GL_CONTEXT_PROFILE_ES →
      ∃ b, X11_GL_UseEGL env s = .ok b ∧
        (b = true ↔
          (env.SDL_GetHintBoolean SDL_HINT_OPENGL_ES_DRIVER false = true ∨
           s.gl_config.major_version = 1 ∨
           toLex (gl.es_profile_max_supported_version.major,
                  gl.es_profile_max_supported_version.minor)
             < toLex (s.gl_config.major_version, s.gl_config.minor_version)))) ∧
    (env.SDL_GetHintBoolean SDL_HINT_VIDEO_FORCE_EGL false = false →
      s.gl_config.profile_mask = SDL_GL_CONTEXT_PROFILE_ES →
      gl.es_profile_max_supported_version.major = 0 →
      gl.es_profile_max_supported_version.minor = 0 →
      1 ≤ s.gl_config.major_version →
      X11_GL_UseEGL env s = .ok true) := by
  refine ⟨?_, ?_, ?_⟩
  · intro hf
    simp [X11_GL_UseEGL, hgl, hf]
  · intro hf hp
    refine ⟨_, by simp only [X11_GL_UseEGL, hgl, hf, hp]; rfl, ?_⟩
    simp only [Prod.Lex.lt_iff, Bool.or_eq_true, Bool.and_eq_true, decide_eq_true_eq, gt_iff_lt]
    tauto
  · intro hf hp hM hm hmaj
    simp only [X11_GL_UseEGL, hgl, hf, hp, hM, hm]
    have : decide (s.gl_config.major_version > 0) = true := by
      simp only [decide_eq_true_eq]; omega
    simp [this]

/-- C10 on an ES 2.0 request to `demoDriver`, whose maximum ES version is 0.0. -/
theorem C10_UseEGL_witness :
    X11_GL_UseEGL demoEnv { demoSys with gl_config := esConfig } = .ok true :=
  (C10_UseEGL demoEnv { demoSys with gl_config := esConfig } demoDriver rfl).2.2
    rfl rfl rfl rfl (by decide)

/-! ## Swap interval -/

theorem ExtOnly.refl (s : Sys) : ExtOnly s s := ⟨[], by simp, by simp⟩

theorem ExtOnly.trans {s1 s2 s3 : Sys} (h12 : ExtOnly s1 s2) (h23 : ExtOnly s2 s3) :
    ExtOnly s1 s3 := by
  obtain ⟨t1, e1, f1⟩ := h12
  obtain ⟨t2, e2, f2⟩ := h23
  refine ⟨t1 ++ t2, by rw [e2, e1, List.append_assoc], ?_⟩
  intro c hc
  rcases List.mem_append.1 hc with h | h
  · exact f1 c h
  · exact f2 c h

theorem ExtOnly.step (env : Env) (c : Call) (s : Sys) (hc : c.family = some SwapFamily.EXT) :
    ExtOnly s (extcall env c s) :=
  ⟨[c], extcall_trace env c s, by simpa using hc⟩

theorem ExtOnly.of_trace {s1 s2 s3 : Sys} (h : ExtOnly s1 s2) (ht : s3.trace = s2.trace) :
    ExtOnly s1 s3 := by
  obtain ⟨t, e, f⟩ := h
  exact ⟨t, by rw [ht, e], f⟩

@[simp] theorem setTearBehavior_trace (b : SDL_GLSwapIntervalTearBehavior) (s : Sys) :
    (setTearBehavior b s).trace = s.trace := rfl

@[simp] theorem setTearBehavior_swapinterval (b : SDL_GLSwapIntervalTearBehavior) (s : Sys) :
    (setTearBehavior b s).swapinterval = s.swapinterval := rfl

@[simp] theorem setTearBehavior_current_window (b : SDL_GLSwapIntervalTearBehavior) (s : Sys) :
    (setTearBehavior b s).current_window = s.current_window := rfl

@[simp] theorem setTearBehavior_installed (b : SDL_GLSwapIntervalTearBehavior) (s : Sys) :
    (setTearBehavior b s).installed = s.installed := rfl

theorem glXQueryDrawable_ok (env : Env) (gl : SDL_GLDriverData) (drawable : Window)
    (attrib : Int) (value : Nat) (s : Sys)
    (q : List Call → Window → Int → Option Nat) (hq : gl.glXQueryDrawable = some q) :
    ∃ v, glXQueryDrawable env gl drawable attrib value s =
      .ok (v, extcall env (Call.glXQueryDrawable drawable attrib) s) := by
  unfold glXQueryDrawable
  rw [hq]
  exact ⟨_, rfl⟩

theorem glXSwapIntervalEXT_ok (env : Env) (gl : SDL_GLDriverData) (drawable : Window)
    (interval : Int) (s : Sys) (hext : gl.glXSwapIntervalEXT = true) :
    glXSwapIntervalEXT env gl drawable interval s =
      .ok (extcall env (Call.glXSwapIntervalEXT drawable interval) s) := by
  unfold glXSwapIntervalEXT
  simp [hext]

theorem Check_ok (env : Env) (drawable : Window) (current_val current_allow_late : Nat)
    (s : Sys) (gl : SDL_GLDriverData) (hgl : s.gl_data = some gl)
    (hext : gl.glXSwapIntervalEXT = true)
    (q : List Call → Window → Int → Option Nat) (hq : gl.glXQueryDrawable = some q) :
    ∃ b s2, CheckSwapIntervalTearBehavior env drawable current_val current_allow_late s
        = .ok (b, s2) ∧ ExtOnly s s2 ∧ s2.swapinterval = s.swapinterval := by
  unfold CheckSwapIntervalTearBehavior
  simp only [hgl]
  by_cases hu : gl.swap_interval_tear_behavior = SDL_SWAPINTERVALTEAR_UNTESTED
  · by_cases ht : gl.HAS_GLX_EXT_swap_control_tear = true
    · obtain ⟨v, hv⟩ := glXQueryDrawable_ok env gl drawable GLX_LATE_SWAPS_TEAR_EXT 22
        (extcall env (Call.glXSwapIntervalEXT drawable 0)
          (extcall env (Call.glXSwapIntervalEXT drawable (toInt32 current_val)) s)) q hq
      simp only [hu, ht, if_true, Bool.not_true, Bool.false_eq_true, if_false,
        glXSwapIntervalEXT_ok env gl _ _ _ hext, hv, bind, Except.bind]
      refine ⟨_, _, rfl, ?_, by simp⟩
      exact ⟨[Call.glXSwapIntervalEXT drawable (toInt32 current_val),
        Call.glXSwapIntervalEXT drawable 0,
        Call.glXQueryDrawable drawable GLX_LATE_SWAPS_TEAR_EXT,
        Call.glXSwapIntervalEXT drawable
          (if v = 0 ∧ current_allow_late ≠ 0 then negInt32 (toInt32 current_val)
            else toInt32 current_val)], by simp, by simp [Call.family]⟩
    · simp only [Bool.not_eq_true] at ht
      simp only [hu, ht, if_true, Bool.not_false]
      exact ⟨_, _, rfl, ⟨[], by simp, by simp⟩, rfl⟩
  · simp only [hu, if_false]
    exact ⟨_, _, rfl, ExtOnly.refl s, rfl⟩

theorem GetSwapInterval_EXT (env : Env) (interval : Int) (s : Sys) (gl : SDL_GLDriverData)
    (hgl : s.gl_data = some gl) (hext : gl.glXSwapIntervalEXT = true)
    (q : List Call → Window → Int → Option Nat) (hq : gl.glXQueryDrawable = some q)
    (w : SDL_Window) (hw : s.current_window = some w) :
    ∃ b v s2, X11_GL_GetSwapInterval env interval s = .ok (b, v, s2) ∧ ExtOnly s s2 ∧
      s2.swapinterval = s.swapinterval := by
  unfold X11_GL_GetSwapInterval
  simp only [hgl, hext, hw, if_true]
  have key : ∀ (al : Nat) (s1 : Sys), s1.gl_data = some gl → ExtOnly s s1 →
      s1.swapinterval = s.swapinterval →
      ∃ b v s2,
        (do
          let q ← glXQueryDrawable env gl w.xwindow GLX_SWAP_INTERVAL_EXT 0 s1
          let c ← CheckSwapIntervalTearBehavior env w.xwindow q.1 al q.2
          match c.1 with
            | SDL_SWAPINTERVALTEAR_MESA => Except.ok (true, toInt32 q.1, c.2)
            | _ =>
              if al ≠ 0 ∧ q.1 > 0 then Except.ok (true, negInt32 (toInt32 q.1), c.2)
              else Except.ok (true, toInt32 q.1, c.2) : Except Fault (Bool × Int × Sys))
          = .ok (b, v, s2) ∧ ExtOnly s s2 ∧ s2.swapinterval = s.swapinterval := by
    intro al s1 h1 he hs
    obtain ⟨val, hval⟩ := glXQueryDrawable_ok env gl w.xwindow GLX_SWAP_INTERVAL_EXT 0 s1 q hq
    obtain ⟨b, s3, hc, he3, hs3⟩ := Check_ok env w.xwindow val al
      (extcall env (Call.glXQueryDrawable w.xwindow GLX_SWAP_INTERVAL_EXT) s1) gl
      (by simp [h1]) hext q hq
    simp only [hval, hc, bind, Except.bind]
    have he' : ExtOnly s s3 :=
      ExtOnly.trans he (ExtOnly.trans
        (ExtOnly.step env (Call.glXQueryDrawable w.xwindow GLX_SWAP_INTERVAL_EXT) s1 rfl) he3)
    have hs' : s3.swapinterval = s.swapinterval := by rw [hs3]; simp [hs]
    cases b
    case SDL_SWAPINTERVALTEAR_MESA => exact ⟨_, _, _, rfl, he', hs'⟩
    all_goals
      dsimp only
      split <;> exact ⟨_, _, _, rfl, he', hs'⟩
  by_cases ht : gl.HAS_GLX_EXT_swap_control_tear = true
  · obtain ⟨al, hal⟩ := glXQueryDrawable_ok env gl w.xwindow GLX_LATE_SWAPS_TEAR_EXT 22 s q hq
    simp only [ht, if_true, hal]
    exact key al _ (by simp [hgl])
      (ExtOnly.step env (Call.glXQueryDrawable w.xwindow GLX_LATE_SWAPS_TEAR_EXT) s rfl) (by simp)
  · simp only [ht, if_false]
    exact key 0 s hgl (ExtOnly.refl s) rfl

/-- C6: a negative interval on a session without the tear extension is
rejected: the call returns false with an error recorded, makes no call to the
driver (the trace is unchanged, whichever entry points are resolved) and
leaves the static `swapinterval` as it was. -/
theorem C6_SetSwapInterval_negative (env : Env) (s : Sys) (gl : SDL_GLDriverData)
    (interval : Int) (hgl : s.gl_data = some gl) (hneg : interval < 0)
    (htear : gl.HAS_GLX_EXT_swap_control_tear = false) :
    ∃ s2, X11_GL_SetSwapInterval env interval s = .ok (false, s2) ∧
      s2.error = some "Negative swap interval unsupported in this GL" ∧
      s2.trace = s.trace ∧ s2.swapinterval = s.swapinterval := by
  refine ⟨SDL_SetError "Negative swap interval unsupported in this GL" s, ?_, rfl, rfl, rfl⟩
  unfold X11_GL_SetSwapInterval
  simp [hgl, hneg, htear]

/-- C6 on `demoSys`, where the three setters are resolved, with interval -1. -/
theorem C6_SetSwapInterval_negative_witness :
    ∃ s2, X11_GL_SetSwapInterval demoEnv (-1) demoSys = .ok (false, s2) ∧
      s2.error = some "Negative swap interval unsupported in this GL" ∧
      s2.trace = demoSys.trace ∧ s2.swapinterval = demoSys.swapinterval :=
  C6_SetSwapInterval_negative demoEnv demoSys demoDriver (-1) rfl (by decide) rfl

/-- C7: for an interval that is not rejected as negative-without-tear, the
swap-control family is chosen in priority order.  With `glXSwapIntervalEXT`
resolved the call succeeds making calls of the EXT family only, the last of
them `glXSwapIntervalEXT` with the new interval; otherwise with
`glXSwapIntervalMESA` resolved the only call is `glXSwapIntervalMESA`, and the
result is true exactly when it returned 0; otherwise with `glXSwapIntervalSGI`
resolved the only call is `glXSwapIntervalSGI`, likewise; with none resolved
the call fails as unsupported. -/
theorem C7_SetSwapInterval_priority (env : Env) (s : Sys) (gl : SDL_GLDriverData)
    (interval : Int) (hgl : s.gl_data = some gl)
    (hok : ¬ (interval < 0 ∧ gl.HAS_GLX_EXT_swap_control_tear = false)) :
    (gl.glXSwapIntervalEXT = true →
      ∀ w q, s.current_window = some w → gl.glXQueryDrawable = some q →
        ∃ s2, X11_GL_SetSwapInterval env interval s = .ok (true, s2) ∧ ExtOnly s s2 ∧
          s2.trace.getLast? = some (Call.glXSwapIntervalEXT w.xwindow interval)) ∧
    (gl.glXSwapIntervalEXT = false → ∀ f, gl.glXSwapIntervalMESA = some f →
      ∃ s2, X11_GL_SetSwapInterval env interval s = .ok (decide (f s.trace interval = 0), s2) ∧
        s2.trace = s.trace ++ [Call.glXSwapIntervalMESA interval]) ∧
    (gl.glXSwapIntervalEXT = false → gl.glXSwapIntervalMESA = none →
      ∀ f, gl.glXSwapIntervalSGI = some f →
      ∃ s2, X11_GL_SetSwapInterval env interval s = .ok (decide (f s.trace interval = 0), s2) ∧
        s2.trace = s.trace ++ [Call.glXSwapIntervalSGI interval]) ∧
    (gl.glXSwapIntervalEXT = false → gl.glXSwapIntervalMESA = none →
      gl.glXSwapIntervalSGI = none →
      X11_GL_SetSwapInterval env interval s = .ok (false, SDL_Unsupported s)) := by
  have hok2 : ¬ (interval < 0 ∧ ¬ gl.HAS_GLX_EXT_swap_control_tear = true) := by
    simpa using hok
  refine ⟨?_, ?_, ?_, ?_⟩
  · intro hext w q hw hq
    obtain ⟨b, v, s1, hg, he, -⟩ := GetSwapInterval_EXT env 0 s gl hgl hext q hq w hw
    unfold X11_GL_SetSwapInterval
    simp only [hgl, hok2, if_false, hext, if_true, hw, hg, bind, Except.bind,
      glXSwapIntervalEXT_ok env gl _ _ _ hext]
    refine ⟨_, rfl, ?_, by simp⟩
    have h2 : ExtOnly s (extcall env (Call.glXSwapIntervalEXT w.xwindow interval)
        (extcall env (Call.glXSwapIntervalEXT w.xwindow v) s1)) :=
      ExtOnly.trans he (ExtOnly.trans
        (ExtOnly.step env (Call.glXSwapIntervalEXT w.xwindow v) s1 rfl)
        (ExtOnly.step env (Call.glXSwapIntervalEXT w.xwindow interval) _ rfl))
    exact ExtOnly.of_trace h2 rfl
  · intro hext f hf
    unfold X11_GL_SetSwapInterval
    simp only [hgl, hok2, if_false, hext, hf, Bool.false_eq_true]
    by_cases hrc : f s.trace interval = 0
    · simp only [hrc, if_true, decide_True]; exact ⟨_, rfl, by simp⟩
    · simp only [hrc, if_false, decide_False]; exact ⟨_, rfl, by simp⟩
  · intro hext hm f hf
    unfold X11_GL_SetSwapInterval
    simp only [hgl, hok2, if_false, hext, hm, hf, Bool.false_eq_true]
    by_cases hrc : f s.trace interval = 0
    · simp only [hrc, if_true, decide_True]; exact ⟨_, rfl, by simp⟩
    · simp only [hrc, if_false, decide_False]; exact ⟨_, rfl, by simp⟩
  · intro hext hm hsgi
    unfold X11_GL_SetSwapInterval
    simp only [hgl, hok2, if_false, hext, hm, hsgi, Bool.false_eq_true]

/-- C7 on `demoSys` (all three families resolved) with interval 1: the EXT
family is used. -/
theorem C7_SetSwapInterval_priority_witness :
    ∃ s2, X11_GL_SetSwapInterval demoEnv 1 demoSys = .ok (true, s2) ∧ ExtOnly demoSys s2 ∧
      s2.trace.getLast? = some (Call.glXSwapIntervalEXT demoWindow.xwindow 1) :=
  (C7_SetSwapInterval_priority demoEnv demoSys demoDriver 1 rfl (by decide)).1 rfl
    demoWindow _ rfl rfl

/-- One `X11_GL_SetSwapInterval` call in a session without
`glXSwapIntervalEXT`: it returns, keeps the session data, and the static
`swapinterval` becomes the argument exactly when the call returns true. -/
theorem SetSwapInterval_fallback (env : Env) (n : Int) (s : Sys) (gl : SDL_GLDriverData)
    (hgl : s.gl_data = some gl) (hext : gl.glXSwapIntervalEXT = false) :
    ∃ b s2, X11_GL_SetSwapInterval env n s = .ok (b, s2) ∧ s2.gl_data = s.gl_data ∧
      s2.swapinterval = (if b then n else s.swapinterval) := by
  unfold X11_GL_SetSwapInterval
  simp only [hgl, hext, Bool.false_eq_true, if_false]
  split
  · exact ⟨_, _, rfl, hgl, rfl⟩
  · cases gl.glXSwapIntervalMESA with
    | some f =>
      dsimp only
      split
      · exact ⟨_, _, rfl, by simp [hgl], rfl⟩
      · exact ⟨_, _, rfl, by simp [hgl], by simp⟩
    | none =>
      cases gl.glXSwapIntervalSGI with
      | some f =>
        dsimp only
        split
        · exact ⟨_, _, rfl, by simp [hgl], rfl⟩
        · exact ⟨_, _, rfl, by simp [hgl], by simp⟩
      | none => exact ⟨_, _, rfl, hgl, rfl⟩

theorem GetSwapInterval_fallback (env : Env) (interval : Int) (s : Sys) (gl : SDL_GLDriverData)
    (hgl : s.gl_data = some gl) (hext : gl.glXSwapIntervalEXT = false)
    (hget : gl.glXGetSwapIntervalMESA = none) :
    X11_GL_GetSwapInterval env interval s = .ok (true, s.swapinterval, s) := by
  unfold X11_GL_GetSwapInterval
  simp [hgl, hext, hget]

theorem lastAccepted_cons (d n : Int) (b : Bool) (log : List (Int × Bool)) :
    lastAccepted d ((n, b) :: log) = lastAccepted (if b then n else d) log := by
  unfold lastAccepted
  cases b with
  | false => simp
  | true =>
    simp only [List.filter_cons_of_pos, if_true]
    cases h : List.filter (fun p => p.2) log with
    | nil => simp
    | cons x xs =>
      cases hl : (x :: xs).getLast? with
      | none => simp at hl
      | some y => simp [List.getLast?_cons_cons, hl]

theorem setSwapIntervals_fallback (env : Env) (gl : SDL_GLDriverData)
    (hext : gl.glXSwapIntervalEXT = false) (ns : List Int) :
    ∀ s : Sys, s.gl_data = some gl →
      ∃ log s2, setSwapIntervals env ns s = .ok (log, s2) ∧ log.map Prod.fst = ns ∧
        s2.gl_data = some gl ∧ s2.swapinterval = lastAccepted s.swapinterval log := by
  induction ns with
  | nil =>
    intro s hgl
    exact ⟨[], s, rfl, rfl, hgl, rfl⟩
  | cons n ns ih =>
    intro s hgl
    obtain ⟨b, s1, h1, hg1, hs1⟩ := SetSwapInterval_fallback env n s gl hgl hext
    obtain ⟨log, s2, h2, hm, hg2, hs2⟩ := ih s1 (by rw [hg1, hgl])
    refine ⟨(n, b) :: log, s2, ?_, by simp [hm], hg2, ?_⟩
    · simp only [setSwapIntervals, h1, h2]
    · rw [lastAccepted_cons, hs2, hs1]

/-- C8: in a session where neither `glXSwapIntervalEXT` nor
`glXGetSwapIntervalMESA` is resolved, started with the static `swapinterval`
at its initial value 0, every sequence of `X11_GL_SetSwapInterval` calls
returns, and afterwards `X11_GL_GetSwapInterval` succeeds and reports the
argument of the most recent call that returned true (0 if there was none); a
further call that returns false does not change what is reported. -/
theorem C8_GetSwapInterval_fallback (env : Env) (s : Sys) (gl : SDL_GLDriverData)
    (ns : List Int) (interval : Int)
    (hgl : s.gl_data = some gl) (hext : gl.glXSwapIntervalEXT = false)
    (hget : gl.glXGetSwapIntervalMESA = none) (h0 : s.swapinterval = 0) :
    ∃ log s2, setSwapIntervals env ns s = .ok (log, s2) ∧ log.map Prod.fst = ns ∧
      X11_GL_GetSwapInterval env interval s2 = .ok (true, lastAccepted 0 log, s2) ∧
      ∀ n s3, X11_GL_SetSwapInterval env n s2 = .ok (false, s3) →
        X11_GL_GetSwapInterval env interval s3 = .ok (true, lastAccepted 0 log, s3) := by
  obtain ⟨log, s2, hrun, hm, hg2, hs2⟩ := setSwapIntervals_fallback env gl hext ns s hgl
  rw [h0] at hs2
  refine ⟨log, s2, hrun, hm, ?_, ?_⟩
  · rw [GetSwapInterval_fallback env interval s2 gl hg2 hext hget, hs2]
  · intro n s3 h3
    obtain ⟨b, s3b, hb, hgb, hsb⟩ := SetSwapInterval_fallback env n s2 gl hg2 hext
    rw [hb] at h3
    injection h3 with h3
    injection h3 with hb1 hb2
    subst hb1 hb2
    rw [GetSwapInterval_fallback env interval s3b gl (by rw [hgb, hg2]) hext hget, hsb, hs2]
    rfl

/-- C8 on `sgiSys` (only `glXSwapIntervalSGI` resolved, which rejects 0) with
the calls 1, 0, 2, 0. -/
theorem C8_GetSwapInterval_fallback_witness :
    ∃ log s2, setSwapIntervals demoEnv [1, 0, 2, 0] sgiSys = .ok (log, s2) ∧
      log.map Prod.fst = [1, 0, 2, 0] ∧
      X11_GL_GetSwapInterval demoEnv 0 s2 = .ok (true, lastAccepted 0 log, s2) ∧
      ∀ n s3, X11_GL_SetSwapInterval demoEnv n s2 = .ok (false, s3) →
        X11_GL_GetSwapInterval demoEnv 0 s3 = .ok (true, lastAccepted 0 log, s3) :=
  C8_GetSwapInterval_fallback demoEnv sgiSys
    { demoDriver with glXSwapIntervalEXT := false, glXSwapIntervalMESA := none }
    [1, 0, 2, 0] 0 rfl rfl rfl rfl

/-! ## `X11_GL_CreateContext` -/

@[simp] theorem logcall_trace (c : Call) (s : Sys) : (logcall c s).trace = s.trace ++ [c] := rfl

@[simp] theorem logcall_gl_data (c : Call) (s : Sys) : (logcall c s).gl_data = s.gl_data := rfl

@[simp] theorem logcall_errorCode (c : Call) (s : Sys) :
    (logcall c s).errorCode = s.errorCode := rfl

@[simp] theorem logcall_error (c : Call) (s : Sys) : (logcall c s).error = s.error := rfl

@[simp] theorem logcall_handler (c : Call) (s : Sys) : (logcall c s).handler = s.handler := rfl

@[simp] theorem logcall_installed (c : Call) (s : Sys) :
    (logcall c s).installed = s.installed := rfl

@[simp] theorem XGetVisualInfo_state (env : Env) (screen : Int) (visualid : Option Nat)
    (s : Sys) :
    (X11_XGetVisualInfo env screen visualid s).2 =
      logcall (Call.XGetVisualInfo screen visualid) s := rfl

@[simp] theorem chooseFBConfigRetry_gl_data (env : Env)
    (choose : List Call → Int → List Int → Option (GLXFBConfig × List GLXFBConfig))
    (screen : Int) (a : AttrState) (s : Sys) :
    (chooseFBConfigRetry env choose screen a s).2.2.gl_data = s.gl_data := by
  unfold chooseFBConfigRetry
  dsimp only
  split <;> simp

/-- A call during which the server raises no X error is only recorded. -/
theorem extcall_quiet (env : Env) (hquiet : ∀ t, env.xerrors t = []) (c : Call) (s : Sys) :
    extcall env c s = logcall c s := by
  unfold extcall
  rw [dispatchErrors_eq, hquiet]
  simp only [List.getLast?_nil]
  split
  · rename_i h; exact absurd h (by simp)
  · rfl

theorem CreateContext_scan_gl_data (env : Env) (gl : SDL_GLDriverData)
    (createARB : List Call → GLXFBConfig → Option GLXContext → Int → List Int
      → Option GLXContext)
    (share_context : Option GLXContext) (attribs : List Int) (l : List GLXFBConfig) :
    ∀ (s : Sys) (r : Option (Option GLXContext) × Sys),
      X11_GL_CreateContext.scan env gl createARB share_context attribs l s = .ok r →
      r.2.gl_data = s.gl_data := by
  induction l with
  | nil =>
    intro s r h
    simp only [X11_GL_CreateContext.scan] at h
    cases h
    rfl
  | cons config rest ih =>
    intro s r h
    unfold X11_GL_CreateContext.scan at h
    split at h
    · cases h
    · dsimp only at h
      split at h
      · cases h
        simp
      · rw [ih _ _ h]
        simp

theorem CreateContext_modern_gl_data (env : Env) (gl : SDL_GLDriverData) (cfg : SDL_GLConfig)
    (share_context : Option GLXContext) (transparent : Bool) (s : Sys)
    (r : Option GLXContext × Sys)
    (h : X11_GL_CreateContext.modern env gl cfg share_context transparent s = .ok r) :
    r.2.gl_data = s.gl_data := by
  unfold X11_GL_CreateContext.modern at h
  dsimp only at h
  split at h
  · cases h; rfl
  · split at h
    · cases h; rfl
    · split at h
      · cases h; simp
      · rename_i first rest _
        cases transparent with
        | false =>
          simp only [Bool.false_eq_true, if_false, bind, Except.bind] at h
          cases h; simp
        | true =>
          simp only [if_true, bind, Except.bind] at h
          split at h
          · cases h
          · rename_i found hscan
            have hg := CreateContext_scan_gl_data env gl _ share_context _ _ _ _ hscan
            split at h <;> cases h <;> simp [hg]

theorem CreateContext_create_gl_data (env : Env) (gl : SDL_GLDriverData) (window : SDL_Window)
    (s : Sys) (r : Option GLXContext × Sys)
    (h : X11_GL_CreateContext.create env gl window s = .ok r) :
    r.2.gl_data = s.gl_data := by
  unfold X11_GL_CreateContext.create at h
  simp only [bind, Except.bind] at h
  split at h
  · cases h
  · rename_i c hc
    cases h
    simp only [removeBridge_gl_data, extcall_gl_data]
    split at hc
    · split at hc
      · cases hc; simp
      · rw [CreateContext_modern_gl_data _ _ _ _ _ _ _ hc]; simp
    · cases hc; simp

/-- The bridged part of `X11_GL_CreateContext` on the modern path of a session
without `glXCreateContextAttribsARB`, when the server raises no X error: no
context, the static `errorCode` still `Success`, and no creation call. -/
theorem CreateContext_create_no_ARB (env : Env) (gl : SDL_GLDriverData) (window : SDL_Window)
    (s : Sys) (hARB : gl.glXCreateContextAttribsARB = none)
    (hmodern : ¬ (s.gl_config.major_version < 3 ∧ s.gl_config.profile_mask = 0 ∧
      s.gl_config.flags = 0 ∧ window.transparent = false))
    (hquiet : ∀ t, env.xerrors t = []) :
    ∃ s1, X11_GL_CreateContext.create env gl window s = .ok (none, s1) ∧
      s1.errorCode = X_Success ∧
      s1.trace = s.trace ++ [Call.XSync,
        Call.XSetErrorHandler (some XErrorHandler.X11_GL_ErrorHandler),
        Call.XGetWindowAttributes window.xwindow,
        Call.XGetVisualInfo window.screen (some (env.windowVisualID (s.trace ++ [Call.XSync,
          Call.XSetErrorHandler (some XErrorHandler.X11_GL_ErrorHandler)]) window.xwindow)),
        Call.XSync, Call.XSetErrorHandler s.installed] := by
  unfold X11_GL_CreateContext.create
  simp only [extcall_quiet env hquiet, bind, Except.bind]
  split
  · rename_i f hf
    split at hf
    · simp only [hmodern, if_false, X11_GL_CreateContext.modern, hARB] at hf
      cases hf
    · cases hf
  · rename_i c hc
    split at hc
    · simp only [hmodern, if_false, X11_GL_CreateContext.modern, hARB] at hc
      cases hc
      exact ⟨_, rfl, rfl, by simp⟩
    · cases hc
      exact ⟨_, rfl, rfl, by simp⟩

/-- C2: what the code does on the modern path of a session without
`glXCreateContextAttribsARB` when no X error is raised: it returns NULL and
calls neither `glXCreateContext` nor `glXCreateContextAttribsARB`, but the
message in the error slot when the call returns is "Could not create GL
context" (line 892 runs because `errorCode` is still `Success`), not the
message "OpenGL 3.0 and later are not supported by this system" set at
line 833. -/
theorem C2_CreateContext_without_ARB (env : Env) (window : SDL_Window) (s : Sys)
    (gl : SDL_GLDriverData) (hgl : s.gl_data = some gl)
    (hARB : gl.glXCreateContextAttribsARB = none)
    (hmodern : ¬ (s.gl_config.major_version < 3 ∧ s.gl_config.profile_mask = 0 ∧
      s.gl_config.flags = 0 ∧ window.transparent = false))
    (hquiet : ∀ t, env.xerrors t = []) :
    ∃ s2, X11_GL_CreateContext env window s = .ok (none, s2) ∧
      s2.error = some "Could not create GL context" ∧
      s2.error ≠ some "OpenGL 3.0 and later are not supported by this system" ∧
      s2.trace = s.trace ++ [Call.XSync,
        Call.XSetErrorHandler (some XErrorHandler.X11_GL_ErrorHandler),
        Call.XGetWindowAttributes window.xwindow,
        Call.XGetVisualInfo window.screen (some (env.windowVisualID (s.trace ++ [Call.XSync,
          Call.XSetErrorHandler (some XErrorHandler.X11_GL_ErrorHandler)]) window.xwindow)),
        Call.XSync, Call.XSetErrorHandler s.installed] := by
  obtain ⟨s1, h1, hcode, htrace⟩ :=
    CreateContext_create_no_ARB env gl window s hARB hmodern hquiet
  refine ⟨SDL_SetError "Could not create GL context" s1, ?_, rfl, ?_, ?_⟩
  · unfold X11_GL_CreateContext
    simp only [hgl, h1, bind, Except.bind, hcode, if_true]
  · rw [SDL_SetError_error]; decide
  · rw [SDL_SetError_trace, htrace]

/-- C2 on `coreSys`: a 3.2 core-profile request, a window whose visual the
server knows, a driver without `glXCreateContextAttribsARB`, no X error. -/
theorem C2_CreateContext_without_ARB_witness :
    ∃ s2, X11_GL_CreateContext demoEnv demoWindow coreSys = .ok (none, s2) ∧
      s2.error = some "Could not create GL context" ∧
      s2.error ≠ some "OpenGL 3.0 and later are not supported by this system" ∧
      s2.trace = [Call.XSync,
        Call.XSetErrorHandler (some XErrorHandler.X11_GL_ErrorHandler),
        Call.XGetWindowAttributes 5, Call.XGetVisualInfo 0 (some 33),
        Call.XSync, Call.XSetErrorHandler (some (XErrorHandler.other 0))] :=
  C2_CreateContext_without_ARB demoEnv demoWindow coreSys demoDriver rfl rfl (by decide)
    (fun _ => rfl)

/-- C3: with the session initialised, `X11_GL_CreateContext` returns a
non-null context only if the bridged part created that context and
`X11_GL_MakeCurrent` on it returned true; and if a context was created but
`X11_GL_MakeCurrent` on it returns false, the call returns NULL after calling
`glXDestroyContext` on exactly that context (followed by the sync). -/
theorem C3_CreateContext_current (env : Env) (window : SDL_Window) (s : Sys)
    (gl : SDL_GLDriverData) (hgl : s.gl_data = some gl) :
    (∀ ctx s2, X11_GL_CreateContext env window s = .ok (some ctx, s2) →
      ∃ s1, X11_GL_CreateContext.create env gl window s = .ok (some ctx, s1) ∧
        X11_GL_MakeCurrent env window (some ctx) s1 = (true, s2)) ∧
    (∀ ctx s1, X11_GL_CreateContext.create env gl window s = .ok (some ctx, s1) →
      (X11_GL_MakeCurrent env window (some ctx) s1).1 = false →
      ∃ s2, X11_GL_CreateContext env window s = .ok (none, s2) ∧
        s2.trace = (X11_GL_MakeCurrent env window (some ctx) s1).2.trace
          ++ [Call.glXDestroyContext (some ctx), Call.XSync]) := by
  refine ⟨?_, ?_⟩
  · intro ctx s2 h
    unfold X11_GL_CreateContext at h
    simp only [hgl, bind, Except.bind] at h
    split at h
    · cases h
    · rename_i c hc
      obtain ⟨c1, c2⟩ := c
      cases c1 with
      | none => simp at h
      | some c0 =>
        dsimp only at h
        split at h
        · cases h
        · rename_i hm
          cases h
          refine ⟨c2, hc, ?_⟩
          simp only [Bool.not_eq_true, Bool.not_eq_false] at hm
          exact Prod.ext (by simpa using hm) rfl
  · intro ctx s1 hc hm
    have hg1 : s1.gl_data = some gl := by
      rw [CreateContext_create_gl_data env gl window s _ hc, hgl]
    obtain ⟨sb, -, -, hgb, -, heq⟩ := MakeCurrent_bridged env window (some ctx) s1 gl hg1
    have hg2 : (X11_GL_MakeCurrent env window (some ctx) s1).2.gl_data = some gl := by
      rw [heq]
      split
      · rw [hgb, hg1]
      · split
        · simp [hgb, hg1]
        · rw [hgb, hg1]
    refine ⟨(X11_GL_DestroyContext env (some ctx)
      (X11_GL_MakeCurrent env window (some ctx) s1).2).2, ?_, ?_⟩
    · unfold X11_GL_CreateContext
      simp only [hgl, hc, bind, Except.bind, hm, Bool.not_false, if_true]
    · unfold X11_GL_DestroyContext
      simp [hg2]

/-- C3 on `failSys`, where `glXCreateContext` gives context 7 and
`glXMakeCurrent` fails: NULL is returned and context 7 is destroyed. -/
theorem C3_CreateContext_current_witness :
    ((∀ ctx s2, X11_GL_CreateContext demoEnv demoWindow failSys = .ok (some ctx, s2) →
      ∃ s1, X11_GL_CreateContext.create demoEnv failDriver demoWindow failSys
          = .ok (some ctx, s1) ∧
        X11_GL_MakeCurrent demoEnv demoWindow (some ctx) s1 = (true, s2)) ∧
    (∀ ctx s1, X11_GL_CreateContext.create demoEnv failDriver demoWindow failSys
        = .ok (some ctx, s1) →
      (X11_GL_MakeCurrent demoEnv demoWindow (some ctx) s1).1 = false →
      ∃ s2, X11_GL_CreateContext demoEnv demoWindow failSys = .ok (none, s2) ∧
        s2.trace = (X11_GL_MakeCurrent demoEnv demoWindow (some ctx) s1).2.trace
          ++ [Call.glXDestroyContext (some ctx), Call.XSync])) ∧
    (X11_GL_CreateContext demoEnv demoWindow failSys).toOption.map
        (fun r => (r.1, r.2.trace.drop 8)) =
      some (none, [Call.XSetErrorHandler (some XErrorHandler.X11_GL_ErrorHandler),
        Call.glXMakeCurrent 5 (some 7), Call.XSetErrorHandler (some (XErrorHandler.other 0)),
        Call.glXDestroyContext (some 7), Call.XSync]) :=
  ⟨C3_CreateContext_current demoEnv demoWindow failSys failDriver rfl, by decide⟩

/-! ## `X11_GL_GetVisual` -/

theorem GetTransparentVisualInfo_scan_some (env : Env) (l : List XVisualInfo)
    (h : ∃ v ∈ l, hasAlpha env (some v) = true) :
    ∃ v0, X11_GL_GetTransparentVisualInfo.scan env l = some v0 ∧ v0 ∈ l ∧
      hasAlpha env (some v0) = true := by
  induction l with
  | nil => obtain ⟨v, hv, -⟩ := h; cases hv
  | cons x xs ih =>
    unfold X11_GL_GetTransparentVisualInfo.scan
    by_cases hx : hasAlpha env (some x) = true
    · simp only [hx, if_true]
      exact ⟨x, rfl, List.mem_cons_self _ _, hx⟩
    · simp only [hx, if_false]
      obtain ⟨v, hv, ha⟩ := h
      rcases List.mem_cons.1 hv with rfl | hmem
      · exact absurd ha hx
      · obtain ⟨v0, h0, hm0, ha0⟩ := ih ⟨v, hmem, ha⟩
        exact ⟨v0, h0, List.mem_cons_of_mem _ hm0, ha0⟩

/-- When the screen lists a visual with an alpha format and a visual id names
one visual per screen, `X11_GL_GetTransparentVisualInfo` returns an array
whose first element has an alpha format. -/
theorem GetTransparentVisualInfo_alpha (env : Env) (screen : Int) (s : Sys)
    (halpha : ∃ v ∈ env.visuals, v.screen = screen ∧ hasAlpha env (some v) = true)
    (huniq : ∀ u ∈ env.visuals, ∀ v ∈ env.visuals, u.screen = screen → v.screen = screen →
      u.visualid = v.visualid → u = v) :
    ∃ l v, (X11_GL_GetTransparentVisualInfo env screen s).1 = some l ∧ l.head? = some v ∧
      hasAlpha env (some v) = true := by
  obtain ⟨a, hamem, hascr, haalpha⟩ := halpha
  unfold X11_GL_GetTransparentVisualInfo
  have hfilter : ∀ v, v ∈ env.visuals.filter
      (fun v => decide (v.screen = screen) && ((none : Option Nat).isNone || none == some v.visualid))
      ↔ v ∈ env.visuals ∧ v.screen = screen := by
    intro v; simp [List.mem_filter]
  have hane : a ∈ env.visuals.filter
      (fun v => decide (v.screen = screen) && ((none : Option Nat).isNone || none == some v.visualid)) :=
    (hfilter a).2 ⟨hamem, hascr⟩
  obtain ⟨v0, hscan, hv0mem, hv0alpha⟩ := GetTransparentVisualInfo_scan_some env _
    ⟨a, hane, haalpha⟩
  have hv0 := (hfilter v0).1 hv0mem
  have hne : (env.visuals.filter
      (fun v => decide (v.screen = screen) && ((none : Option Nat).isNone || none == some v.visualid))).isEmpty
      = false := by
    cases hl : env.visuals.filter
      (fun v => decide (v.screen = screen) && ((none : Option Nat).isNone || none == some v.visualid)) with
    | nil => rw [hl] at hane; cases hane
    | cons x xs => rfl
  simp only [X11_XGetVisualInfo, hne, Bool.false_eq_true, if_false, hscan]
  have hmem2 : v0 ∈ env.visuals.filter
      (fun v => decide (v.screen = screen) &&
        ((some v0.visualid).isNone || some v0.visualid == some v.visualid)) := by
    simp [List.mem_filter, hv0.1, hv0.2]
  cases hl : env.visuals.filter
      (fun v => decide (v.screen = screen) &&
        ((some v0.visualid).isNone || some v0.visualid == some v.visualid)) with
  | nil => rw [hl] at hmem2; cases hmem2
  | cons u us =>
    have hu : u ∈ env.visuals.filter
        (fun v => decide (v.screen = screen) &&
          ((some v0.visualid).isNone || some v0.visualid == some v.visualid)) := by
      rw [hl]; exact List.mem_cons_self _ _
    simp only [List.mem_filter, Option.isNone_some, Bool.false_or, Bool.and_eq_true,
      decide_eq_true_eq, beq_iff_eq, Option.some.injEq] at hu
    have huv : u = v0 := huniq u hu.1 v0 hv0.1 hu.2.1 hv0.2 hu.2.2.symm
    refine ⟨u :: us, u, ?_, rfl, by rw [huv]; exact hv0alpha⟩
    simp

theorem XGetVisualInfo_ne_nil (env : Env) (screen : Int) (visualid : Option Nat) (s : Sys)
    (l : List XVisualInfo) (h : (X11_XGetVisualInfo env screen visualid s).1 = some l) :
    l.head? ≠ none := by
  unfold X11_XGetVisualInfo at h
  dsimp only at h
  split at h
  · cases h
  · rename_i hne
    cases h
    cases hl : env.visuals.filter (fun v => decide (v.screen = screen) &&
      (visualid.isNone || visualid == some v.visualid)) with
    | nil => rw [hl] at hne; exact absurd rfl hne
    | cons x xs => simp

theorem GetTransparentVisualInfo_ne_nil (env : Env) (screen : Int) (s : Sys)
    (l : List XVisualInfo) (h : (X11_GL_GetTransparentVisualInfo env screen s).1 = some l) :
    l.head? ≠ none := by
  unfold X11_GL_GetTransparentVisualInfo at h
  dsimp only at h
  split at h
  · cases h
  · rename_i visualinfo hv
    split at h
    · exact XGetVisualInfo_ne_nil env screen _ _ l h
    · cases h
      exact XGetVisualInfo_ne_nil env screen none s _ hv

/-- C4 as stated fails: on `demoSys` the screen lists a visual with an alpha
format (visual 99, depth 32), yet `X11_GL_GetVisual` with `transparent = true`
returns NULL with "Couldn't find matching GLX visual", because neither GLX
query yields a visual and the search for an alpha visual is made only when
one did. -/
theorem C4_GetVisual_transparent_counterexample :
    (∃ v ∈ demoEnv.visuals, v.screen = 0 ∧ hasAlpha demoEnv (some v) = true) ∧
    demoSys.gl_data.isSome = true ∧
    (X11_GL_GetVisual demoEnv 0 true demoSys).1 = none ∧
    (X11_GL_GetVisual demoEnv 0 true demoSys).2.error
      = some "Couldn't find matching GLX visual" := by
  decide

/-- C4 amended: with `transparent = true` on an initialised session,
`X11_GL_GetVisual` returns NULL exactly when the GLX query (the FBConfig
query, then the legacy `glXChooseVisual` query, each with its one relaxation
retry) yields no visual, and then records "Couldn't find matching GLX
visual"; when the GLX query yields a visual and the screen lists a visual
with an alpha format (a visual id naming one visual per screen), the call
returns a non-null visual whose derived pixel format has an alpha channel. -/
theorem C4_GetVisual_transparent (env : Env) (screen : Int) (s : Sys) (gl : SDL_GLDriverData)
    (hgl : s.gl_data = some gl) :
    ((X11_GL_GetVisual env screen true s).1 = none ↔
      (X11_GL_GetVisual.glx env gl s.gl_config screen true s).1 = none) ∧
    ((X11_GL_GetVisual.glx env gl s.gl_config screen true s).1 = none →
      (X11_GL_GetVisual env screen true s).2.error
        = some "Couldn't find matching GLX visual") ∧
    ((X11_GL_GetVisual.glx env gl s.gl_config screen true s).1 ≠ none →
      (∃ v ∈ env.visuals, v.screen = screen ∧ hasAlpha env (some v) = true) →
      (∀ u ∈ env.visuals, ∀ v ∈ env.visuals, u.screen = screen → v.screen = screen →
        u.visualid = v.visualid → u = v) →
      ∃ v, (X11_GL_GetVisual env screen true s).1 = some v ∧
        hasAlpha env (some v) = true) := by
  unfold X11_GL_GetVisual
  simp only [hgl]
  cases hq : (X11_GL_GetVisual.glx env gl s.gl_config screen true s).1 with
  | none => simp [hq]
  | some vinfo =>
    cases ha : hasAlpha env (some vinfo) with
    | true => simp [ha, hq]
    | false =>
      simp only [ha, Bool.not_false, if_true]
      refine ⟨?_, by simp, ?_⟩
      · cases ht : (X11_GL_GetTransparentVisualInfo env screen
            (X11_GL_GetVisual.glx env gl s.gl_config screen true s).2).1 with
        | none => simp
        | some l =>
          have hne := GetTransparentVisualInfo_ne_nil env screen _ l ht
          cases hl : l.head? with
          | none => exact absurd hl hne
          | some v => simp [hl]
      · intro _ halpha huniq
        obtain ⟨l, v, hl, hh, hv⟩ := GetTransparentVisualInfo_alpha env screen
          (X11_GL_GetVisual.glx env gl s.gl_config screen true s).2 halpha huniq
        simp only [hl, hh]
        exact ⟨v, rfl, hv⟩

/-- C4 amended, on `visSys`: the GLX query yields the opaque visual 33, the
screen lists the 32-bit visual 99, and the call returns a visual with an
alpha format. -/
theorem C4_GetVisual_transparent_witness :
    ∃ v, (X11_GL_GetVisual demoEnv 0 true visSys).1 = some v ∧
      hasAlpha demoEnv (some v) = true :=
  (C4_GetVisual_transparent demoEnv 0 visSys visDriver rfl).2.2
    (by decide) (by decide) (by decide)

/-! ## `X11_GL_DestroyContext` -/

/-- C11: `X11_GL_DestroyContext` returns true for every input; when the
session was never initialised it changes nothing (no driver entry point is
called), and when the session is initialised the calls it makes are exactly
`glXDestroyContext` on the given context followed by the sync. -/
theorem C11_DestroyContext (env : Env) (context : Option GLXContext) (s : Sys) :
    (X11_GL_DestroyContext env context s).1 = true ∧
    (s.gl_data = none → (X11_GL_DestroyContext env context s).2 = s) ∧
    (s.gl_data ≠ none →
      (X11_GL_DestroyContext env context s).2.trace
        = s.trace ++ [Call.glXDestroyContext context, Call.XSync]) := by
  unfold X11_GL_DestroyContext
  cases hgl : s.gl_data with
  | none => exact ⟨rfl, fun _ => rfl, fun h => absurd rfl h⟩
  | some gl =>
    refine ⟨rfl, ?_, ?_⟩
    · intro h; cases h
    · intro _; simp

/-! ## `HasExtension`: malformed queries -/

theorem SDL_strchr_isSome (s : List Char) (c : Char) :
    (SDL_strchr s c).isSome = true ↔ c ∈ s := by
  induction s with
  | nil => simp [SDL_strchr]
  | cons d ds ih =>
    unfold SDL_strchr
    by_cases h : d = c
    · simp [h]
    · have hne : ¬ c = d := fun e => h e.symm
      simp [h, hne, ih]

/-- C12: `HasExtension` returns false when the haystack is absent, when it is
the empty string, when the token is the empty string, and when the token
contains a space, whatever the haystack holds (for instance for the token
`a b` in the haystack `x a b y`). -/
theorem C12_HasExtension_malformed :
    (∀ T, HasExtension T none = false) ∧
    (∀ T, HasExtension T (some []) = false) ∧
    (∀ H, HasExtension [] H = false) ∧
    (∀ T H, ' ' ∈ T → HasExtension T H = false) ∧
    HasExtension "a b".toList (some "x a b y".toList) = false ∧
    HasExtension "".toList (some "x a b y".toList) = false := by
  refine ⟨fun _ => rfl, ?_, ?_, ?_, by decide, by decide⟩
  · intro T
    unfold HasExtension
    dsimp only
    split
    · rfl
    · rename_i h
      have hT : T.isEmpty = false := by
        cases hT : T.isEmpty with
        | false => rfl
        | true => simp [hT] at h
      simp [HasExtension.loop, SDL_strstr, hT]
  · intro H
    cases H with
    | none => rfl
    | some exts => simp [HasExtension]
  · intro T H hT
    cases H with
    | none => rfl
    | some exts =>
      have := (SDL_strchr_isSome T ' ').2 hT
      simp [HasExtension, this]

/-! ## `X11_GL_GetAttributes`: the list that is written -/

theorem writeAt_getElem (buf vs : List Int) (k : Nat) (hk : k < vs.length)
    (h : vs.length ≤ buf.length) : (writeAt buf 0 vs)[k]? = vs[k]? := by
  have := writeAt_get_mid buf 0 vs k hk (by omega)
  rwa [Nat.zero_add] at this

theorem getElem?_append_at (p q : List Int) (k : Nat) :
    (p ++ q)[p.length + k]? = q[k]? := by
  rw [List.getElem?_append_right (by omega)]
  congr 1
  omega

theorem take_writeAt (buf vs : List Int) (h : vs.length ≤ buf.length) :
    (writeAt buf 0 vs).take vs.length = vs := by
  apply List.ext_getElem?
  intro k
  by_cases hk : k < vs.length
  · rw [List.getElem?_take_of_lt hk, writeAt_getElem buf vs k hk h]
  · rw [List.getElem?_take_eq_none (by omega), List.getElem?_eq_none (by omega)]

/-- C13: for every configuration and capability flags, the values that
`X11_GL_GetAttributes` leaves in slots `0 .. i-1` of a buffer of at least
`MAX_ATTRIBUTES` slots are the concatenation, in the fixed order of
`baseAttribs` (render-type head, red, green and blue sizes, optional alpha,
double-buffer, depth, optional stencil, accumulation sizes, stereo,
multisample pairs, float render type, sRGB, visual caveat), then the
visual-type pair when it applies, then the sentinel `None`. -/
theorem C13_GetAttributes_list (cfg : SDL_GLConfig) (gl : SDL_GLDriverData)
    (useDirectColor : Bool) (attribs : List Int) (for_FBConfig transparent : Bool)
    (hsize : MAX_ATTRIBUTES ≤ attribs.length) :
    (X11_GL_GetAttributes cfg gl useDirectColor attribs for_FBConfig transparent).attribs.take
      (X11_GL_GetAttributes cfg gl useDirectColor attribs for_FBConfig transparent).i
      = baseAttribs cfg gl for_FBConfig
        ++ (if transparent = false ∧ useDirectColor = true ∧ gl.HAS_GLX_EXT_visual_info = true
            then [GLX_X_VISUAL_TYPE_EXT, GLX_DIRECT_COLOR_EXT] else [])
        ++ [X_None] := by
  rw [GetAttributes_eq]
  have hl := allAttribs_length cfg gl useDirectColor for_FBConfig transparent
  simp only [MAX_ATTRIBUTES] at hsize
  rw [take_writeAt _ _ (by omega)]
  unfold allAttribs wantsVisType
  cases transparent <;> cases useDirectColor <;> cases gl.HAS_GLX_EXT_visual_info <;> simp

/-- C13 on the FBConfig list of `demoConfig` with `demoDriver`. -/
theorem C13_GetAttributes_list_witness :
    (X11_GL_GetAttributes demoConfig demoDriver true (List.replicate 64 0) true false).attribs.take
      (X11_GL_GetAttributes demoConfig demoDriver true (List.replicate 64 0) true false).i
      = [GLX_RENDER_TYPE, GLX_RGBA_BIT, GLX_RED_SIZE, 8, GLX_GREEN_SIZE, 8, GLX_BLUE_SIZE, 8,
         GLX_ALPHA_SIZE, 8, GLX_DOUBLEBUFFER, X_True, GLX_DEPTH_SIZE, 16,
         GLX_X_VISUAL_TYPE_EXT, GLX_DIRECT_COLOR_EXT, X_None] :=
  (C13_GetAttributes_list demoConfig demoDriver true (List.replicate 64 0) true false
    (by decide)).trans (by decide)

/-- C14 as stated fails: on the FBConfig list of `demoConfig` with
`demoDriver` the slot reported through `_pvistypeattr` is slot 14, which holds
the key `GLX_X_VISUAL_TYPE_EXT`; the value `GLX_DIRECT_COLOR_EXT` is in slot
15. -/
theorem C14_GetAttributes_vistype_counterexample :
    (X11_GL_GetAttributes demoConfig demoDriver true (List.replicate 64 0) true
      false).pvistypeattr = some 14 ∧
    (X11_GL_GetAttributes demoConfig demoDriver true (List.replicate 64 0) true
      false).attribs[14]? = some GLX_X_VISUAL_TYPE_EXT ∧
    (X11_GL_GetAttributes demoConfig demoDriver true (List.replicate 64 0) true
      false).attribs[14]? ≠ some GLX_DIRECT_COLOR_EXT ∧
    (X11_GL_GetAttributes demoConfig demoDriver true (List.replicate 64 0) true
      false).attribs[15]? = some GLX_DIRECT_COLOR_EXT := by
  decide

/-- C14 amended: `X11_GL_GetAttributes` appends the pair
(`GLX_X_VISUAL_TYPE_EXT`, `GLX_DIRECT_COLOR_EXT`) as the last pair before the
sentinel exactly when `transparent` is false, `X11_UseDirectColorVisuals()`
is true and `HAS_GLX_EXT_visual_info` is set; in that case the slot it
reports through `_pvistypeattr` is the key slot of that pair (the slot
holding `GLX_X_VISUAL_TYPE_EXT`, three before the returned count), and
otherwise it reports null. -/
theorem C14_GetAttributes_vistype (cfg : SDL_GLConfig) (gl : SDL_GLDriverData)
    (useDirectColor : Bool) (attribs : List Int) (for_FBConfig transparent : Bool)
    (hsize : MAX_ATTRIBUTES ≤ attribs.length) :
    (transparent = false ∧ useDirectColor = true ∧ gl.HAS_GLX_EXT_visual_info = true →
      (X11_GL_GetAttributes cfg gl useDirectColor attribs for_FBConfig transparent).attribs.take
        (X11_GL_GetAttributes cfg gl useDirectColor attribs for_FBConfig transparent).i
        = baseAttribs cfg gl for_FBConfig
          ++ [GLX_X_VISUAL_TYPE_EXT, GLX_DIRECT_COLOR_EXT, X_None] ∧
      ∃ p, (X11_GL_GetAttributes cfg gl useDirectColor attribs for_FBConfig
          transparent).pvistypeattr = some p ∧
        p + 3 = (X11_GL_GetAttributes cfg gl useDirectColor attribs for_FBConfig transparent).i ∧
        (X11_GL_GetAttributes cfg gl useDirectColor attribs for_FBConfig
          transparent).attribs[p]? = some GLX_X_VISUAL_TYPE_EXT ∧
        (X11_GL_GetAttributes cfg gl useDirectColor attribs for_FBConfig
          transparent).attribs[p + 1]? = some GLX_DIRECT_COLOR_EXT) ∧
    (¬ (transparent = false ∧ useDirectColor = true ∧ gl.HAS_GLX_EXT_visual_info = true) →
      (X11_GL_GetAttributes cfg gl useDirectColor attribs for_FBConfig transparent).attribs.take
        (X11_GL_GetAttributes cfg gl useDirectColor attribs for_FBConfig transparent).i
        = baseAttribs cfg gl for_FBConfig ++ [X_None] ∧
      (X11_GL_GetAttributes cfg gl useDirectColor attribs for_FBConfig
        transparent).pvistypeattr = none) := by
  have hl := allAttribs_length cfg gl useDirectColor for_FBConfig transparent
  have hb := baseAttribs_length_le cfg gl for_FBConfig
  simp only [MAX_ATTRIBUTES] at hsize
  rw [GetAttributes_eq]
  dsimp only
  rw [take_writeAt _ _ (by omega)]
  refine ⟨?_, ?_⟩
  · rintro ⟨h1, h2, h3⟩
    have hw : wantsVisType gl useDirectColor transparent = true := by
      simp [wantsVisType, h1, h2, h3]
    have hall : allAttribs cfg gl useDirectColor for_FBConfig transparent
        = baseAttribs cfg gl for_FBConfig
          ++ [GLX_X_VISUAL_TYPE_EXT, GLX_DIRECT_COLOR_EXT, X_None] := by
      simp [allAttribs, hw]
    refine ⟨hall, (baseAttribs cfg gl for_FBConfig).length, by simp [hw], ?_, ?_, ?_⟩
    · rw [hall]; simp
    · rw [writeAt_getElem _ _ _ (by rw [hall]; simp) (by omega), hall]
      generalize baseAttribs cfg gl for_FBConfig = base
      have h0 := getElem?_append_at base
        [GLX_X_VISUAL_TYPE_EXT, GLX_DIRECT_COLOR_EXT, X_None] 0
      rw [Nat.add_zero] at h0
      rw [h0]; rfl
    · rw [writeAt_getElem _ _ _ (by rw [hall]; simp) (by omega), hall]
      generalize baseAttribs cfg gl for_FBConfig = base
      rw [getElem?_append_at base [GLX_X_VISUAL_TYPE_EXT, GLX_DIRECT_COLOR_EXT, X_None] 1]
      rfl
  · intro hn
    have hw : wantsVisType gl useDirectColor transparent = false := by
      cases transparent <;> cases useDirectColor <;> cases h : gl.HAS_GLX_EXT_visual_info <;>
        simp_all [wantsVisType]
    simp [allAttribs, hw]

/-- C14 amended, on the FBConfig list of `demoConfig` with `demoDriver`. -/
theorem C14_GetAttributes_vistype_witness :
    ∃ p, (X11_GL_GetAttributes demoConfig demoDriver true (List.replicate 64 0) true
          false).pvistypeattr = some p ∧
        p + 3 = (X11_GL_GetAttributes demoConfig demoDriver true (List.replicate 64 0) true
          false).i ∧
        (X11_GL_GetAttributes demoConfig demoDriver true (List.replicate 64 0) true
          false).attribs[p]? = some GLX_X_VISUAL_TYPE_EXT ∧
        (X11_GL_GetAttributes demoConfig demoDriver true (List.replicate 64 0) true
          false).attribs[p + 1]? = some GLX_DIRECT_COLOR_EXT :=
  ((C14_GetAttributes_vistype demoConfig demoDriver true (List.replicate 64 0) true false
    (by decide)).1 ⟨rfl, rfl, rfl⟩).2

/-! ## The context attribute array of `X11_GL_CreateContext` -/

theorem CreateContext_attribs_eq (cfg : SDL_GLConfig) (gl : SDL_GLDriverData) :
    X11_GL_CreateContext.attribs cfg gl =
      { attribs := writeAt ([GLX_CONTEXT_MAJOR_VERSION_ARB, cfg.major_version,
            GLX_CONTEXT_MINOR_VERSION_ARB, cfg.minor_version, 0] ++ List.replicate 10 0) 4
          (optionalContextAttribs cfg gl ++ [0])
        i := 4 + (optionalContextAttribs cfg gl ++ [0]).length
        pvistypeattr := none } := by
  unfold X11_GL_CreateContext.attribs
  simp only [pushAttrib_eq, pushAll_nil, pushAll_seq, pushAll_seq_bind, pushAll_ite, bind_assoc]
  by_cases h1 : cfg.release_behavior = 0 <;> by_cases h2 : cfg.reset_notification = 0 <;>
    simp [optionalContextAttribs, h1, h2, pushAll, modify, modifyGet, MonadStateOf.modifyGet,
      StateT.modifyGet, StateT.run]

theorem take_writeAt_at (buf : List Int) (i : Nat) (vs : List Int)
    (h : i + vs.length ≤ buf.length) :
    (writeAt buf i vs).take (i + vs.length) = buf.take i ++ vs := by
  have hlen : (buf.take i).length = i := by
    rw [List.length_take]; omega
  apply List.ext_getElem?
  intro k
  by_cases hk : k < i
  · rw [List.getElem?_take_of_lt (by omega), writeAt_get_lt _ _ _ _ hk,
      List.getElem?_append_left (by omega), List.getElem?_take_of_lt hk]
  · by_cases hk2 : k < i + vs.length
    · obtain ⟨j, rfl⟩ : ∃ j, k = i + j := ⟨k - i, by omega⟩
      rw [List.getElem?_take_of_lt hk2, writeAt_get_mid _ _ _ _ (by omega) h,
        List.getElem?_append_right (by omega)]
      congr 1
      omega
    · rw [List.getElem?_take_eq_none (by omega), List.getElem?_eq_none]
      rw [List.length_append, hlen]
      omega

theorem optionalContextAttribs_length_le (cfg : SDL_GLConfig) (gl : SDL_GLDriverData) :
    (optionalContextAttribs cfg gl).length ≤ 10 := by
  have h1 := length_ite_le (cfg.profile_mask ≠ 0) [GLX_CONTEXT_PROFILE_MASK_ARB, cfg.profile_mask]
  have h2 := length_ite_le (cfg.flags ≠ 0) [GLX_CONTEXT_FLAGS_ARB, cfg.flags]
  have h3 := length_ite_le
    (gl.HAS_GLX_ARB_context_flush_control = true ∧ cfg.release_behavior = 0)
    [GLX_CONTEXT_RELEASE_BEHAVIOR_ARB, GLX_CONTEXT_RELEASE_BEHAVIOR_NONE_ARB]
  have h4 := length_ite_le
    (gl.HAS_GLX_ARB_create_context_robustness = true ∧ cfg.reset_notification ≠ 0)
    [GLX_CONTEXT_RESET_NOTIFICATION_STRATEGY_ARB, GLX_LOSE_CONTEXT_ON_RESET_ARB]
  have h5 := length_ite_le
    (gl.HAS_GLX_ARB_create_context_no_error = true ∧ cfg.no_error ≠ 0)
    [GLX_CONTEXT_OPENGL_NO_ERROR_ARB, cfg.no_error]
  simp only [optionalContextAttribs, List.length_append, List.length_cons, List.length_nil] at *
  omega

/-- C15 as stated fails: for a 3.2 core-profile request on `bareDriver`, a
session in which no GLX extension was probed present, the context attribute
array still holds the profile-mask pair. -/
theorem C15_context_attribs_counterexample :
    bareDriver.HAS_GLX_ARB_context_flush_control = false ∧
    bareDriver.HAS_GLX_ARB_create_context_robustness = false ∧
    bareDriver.HAS_GLX_ARB_create_context_no_error = false ∧
    bareDriver.glXCreateContextAttribsARB.isNone = true ∧
    (X11_GL_CreateContext.attribs coreConfig bareDriver).attribs.take
      (X11_GL_CreateContext.attribs coreConfig bareDriver).i
      = [GLX_CONTEXT_MAJOR_VERSION_ARB, 3, GLX_CONTEXT_MINOR_VERSION_ARB, 2,
         GLX_CONTEXT_PROFILE_MASK_ARB, 1, 0] := by
  decide

/-- C15 amended: the context attribute array of the modern path holds
(`GLX_CONTEXT_MAJOR_VERSION_ARB`, major, `GLX_CONTEXT_MINOR_VERSION_ARB`,
minor), then, in this order, the profile-mask pair when `profile_mask` is
non-zero and the context-flags pair when `flags` is non-zero (no extension is
tested for these two; each carries the requested value), the
release-behaviour pair when `HAS_GLX_ARB_context_flush_control` is set and
`release_behavior` is 0 (carrying `GLX_CONTEXT_RELEASE_BEHAVIOR_NONE_ARB`),
the reset-notification pair when `HAS_GLX_ARB_create_context_robustness` is
set and `reset_notification` is non-zero (carrying
`GLX_LOSE_CONTEXT_ON_RESET_ARB`), the no-error pair when
`HAS_GLX_ARB_create_context_no_error` is set and `no_error` is non-zero
(carrying the requested value), and then the terminator 0. -/
theorem C15_context_attribs (cfg : SDL_GLConfig) (gl : SDL_GLDriverData) :
    (X11_GL_CreateContext.attribs cfg gl).attribs.take (X11_GL_CreateContext.attribs cfg gl).i
      = [GLX_CONTEXT_MAJOR_VERSION_ARB, cfg.major_version,
         GLX_CONTEXT_MINOR_VERSION_ARB, cfg.minor_version]
        ++ (if cfg.profile_mask ≠ 0 then [GLX_CONTEXT_PROFILE_MASK_ARB, cfg.profile_mask]
            else [])
        ++ (if cfg.flags ≠ 0 then [GLX_CONTEXT_FLAGS_ARB, cfg.flags] else [])
        ++ (if gl.HAS_GLX_ARB_context_flush_control = true ∧ cfg.release_behavior = 0 then
              [GLX_CONTEXT_RELEASE_BEHAVIOR_ARB, GLX_CONTEXT_RELEASE_BEHAVIOR_NONE_ARB] else [])
        ++ (if gl.HAS_GLX_ARB_create_context_robustness = true ∧ cfg.reset_notification ≠ 0
            then [GLX_CONTEXT_RESET_NOTIFICATION_STRATEGY_ARB, GLX_LOSE_CONTEXT_ON_RESET_ARB]
            else [])
        ++ (if gl.HAS_GLX_ARB_create_context_no_error = true ∧ cfg.no_error ≠ 0 then
              [GLX_CONTEXT_OPENGL_NO_ERROR_ARB, cfg.no_error] else [])
        ++ [0] := by
  have hl := optionalContextAttribs_length_le cfg gl
  rw [CreateContext_attribs_eq]
  dsimp only
  rw [take_writeAt_at _ _ _ (by simp; omega)]
  simp only [optionalContextAttribs, List.append_assoc]
  rfl

/-- C20: for every configuration and every combination of the probed flags,
the index `iattr` of the modern path after the terminator is written is at
least 5 and at most 15, the terminator is in slot `iattr - 1`, and the array
still has its 15 elements: no write goes out of bounds. -/
theorem C20_context_attribs_bound (cfg : SDL_GLConfig) (gl : SDL_GLDriverData) :
    5 ≤ (X11_GL_CreateContext.attribs cfg gl).i ∧
    (X11_GL_CreateContext.attribs cfg gl).i ≤ 15 ∧
    (X11_GL_CreateContext.attribs cfg gl).attribs.length = 15 ∧
    (X11_GL_CreateContext.attribs cfg gl).attribs[(X11_GL_CreateContext.attribs cfg gl).i - 1]?
      = some 0 := by
  have hl := optionalContextAttribs_length_le cfg gl
  rw [CreateContext_attribs_eq]
  dsimp only
  refine ⟨by simp; omega, by simp; omega, by rw [length_writeAt]; rfl, ?_⟩
  have hidx : 4 + (optionalContextAttribs cfg gl ++ [0]).length - 1
      = 4 + (optionalContextAttribs cfg gl).length := by simp
  rw [hidx, writeAt_get_mid _ _ _ _ (by simp) (by simp; omega)]
  simp

/-! ## `CheckSwapIntervalTearBehavior` -/

@[simp] theorem tearCache_extcall (env : Env) (c : Call) (s : Sys) :
    tearCache (extcall env c s) = tearCache s := by
  simp [tearCache]

theorem tearCache_setTearBehavior (b : SDL_GLSwapIntervalTearBehavior) (s : Sys)
    (gl : SDL_GLDriverData) (hgl : s.gl_data = some gl) :
    tearCache (setTearBehavior b s) = some b := by
  simp [tearCache, setTearBehavior, hgl]

/-- The probe of `CheckSwapIntervalTearBehavior`: with the cached state
UNTESTED, the tear extension present and the two entry points resolved, the
call returns the classification of the probed value, stores it, and makes
exactly four calls. -/
theorem Check_probe (env : Env) (drawable : Window) (current_val current_allow_late : Nat)
    (s : Sys) (gl : SDL_GLDriverData) (hgl : s.gl_data = some gl)
    (hu : gl.swap_interval_tear_behavior = SDL_SWAPINTERVALTEAR_UNTESTED)
    (ht : gl.HAS_GLX_EXT_swap_control_tear = true)
    (hext : gl.glXSwapIntervalEXT = true)
    (q : List Call → Window → Int → Option Nat) (hq : gl.glXQueryDrawable = some q) :
    ∃ s2, CheckSwapIntervalTearBehavior env drawable current_val current_allow_late s
        = .ok ((if probedLateSwaps q drawable current_val s = 0 then SDL_SWAPINTERVALTEAR_NVIDIA
                else if probedLateSwaps q drawable current_val s = 1
                then SDL_SWAPINTERVALTEAR_MESA
                else SDL_SWAPINTERVALTEAR_UNKNOWN), s2) ∧
      tearCache s2 = some (if probedLateSwaps q drawable current_val s = 0
                then SDL_SWAPINTERVALTEAR_NVIDIA
                else if probedLateSwaps q drawable current_val s = 1
                then SDL_SWAPINTERVALTEAR_MESA
                else SDL_SWAPINTERVALTEAR_UNKNOWN) ∧
      s2.trace = s.trace ++ [Call.glXSwapIntervalEXT drawable (toInt32 current_val),
        Call.glXSwapIntervalEXT drawable 0,
        Call.glXQueryDrawable drawable GLX_LATE_SWAPS_TEAR_EXT,
        Call.glXSwapIntervalEXT drawable
          (if probedLateSwaps q drawable current_val s = 0 ∧ current_allow_late ≠ 0
            then negInt32 (toInt32 current_val) else toInt32 current_val)] := by
  unfold CheckSwapIntervalTearBehavior
  simp only [hgl, hu, ht, if_true, Bool.not_true, Bool.false_eq_true, if_false,
    glXSwapIntervalEXT_ok env gl _ _ _ hext, glXQueryDrawable, hq, bind, Except.bind,
    extcall_trace, List.append_assoc, List.singleton_append]
  refine ⟨_, rfl, ?_, ?_⟩
  · rw [tearCache_extcall]
    exact tearCache_setTearBehavior _ _ gl (by simp [hgl])
  · simp [probedLateSwaps]

/-- C16: with the cached state UNTESTED, `CheckSwapIntervalTearBehavior`
without the tear extension returns UNKNOWN without calling the driver; with
the tear extension (and the two entry points it calls resolved) the value the
driver reports for `GLX_LATE_SWAPS_TEAR_EXT` after the interval was set to 0
decides the result: 0 gives NVIDIA, 1 gives MESA, every other value gives
UNKNOWN, as does the pre-set 22 when the driver stores nothing.  In both
cases the result is stored as the cached state of the session. -/
theorem C16_CheckSwapIntervalTearBehavior (env : Env) (drawable : Window)
    (current_val current_allow_late : Nat) (s : Sys) (gl : SDL_GLDriverData)
    (hgl : s.gl_data = some gl)
    (hu : gl.swap_interval_tear_behavior = SDL_SWAPINTERVALTEAR_UNTESTED) :
    (gl.HAS_GLX_EXT_swap_control_tear = false →
      ∃ s2, CheckSwapIntervalTearBehavior env drawable current_val current_allow_late s
          = .ok (SDL_SWAPINTERVALTEAR_UNKNOWN, s2) ∧
        s2.trace = s.trace ∧ tearCache s2 = some SDL_SWAPINTERVALTEAR_UNKNOWN) ∧
    (gl.HAS_GLX_EXT_swap_control_tear = true → gl.glXSwapIntervalEXT = true →
      ∀ q, gl.glXQueryDrawable = some q →
      ∃ b s2, CheckSwapIntervalTearBehavior env drawable current_val current_allow_late s
          = .ok (b, s2) ∧
        tearCache s2 = some b ∧
        (probedLateSwaps q drawable current_val s = 0 → b = SDL_SWAPINTERVALTEAR_NVIDIA) ∧
        (probedLateSwaps q drawable current_val s = 1 → b = SDL_SWAPINTERVALTEAR_MESA) ∧
        (probedLateSwaps q drawable current_val s ≠ 0 →
          probedLateSwaps q drawable current_val s ≠ 1 → b = SDL_SWAPINTERVALTEAR_UNKNOWN) ∧
        (q (s.trace ++ [Call.glXSwapIntervalEXT drawable (toInt32 current_val),
            Call.glXSwapIntervalEXT drawable 0]) drawable GLX_LATE_SWAPS_TEAR_EXT = none →
          b = SDL_SWAPINTERVALTEAR_UNKNOWN)) := by
  refine ⟨?_, ?_⟩
  · intro ht
    refine ⟨setTearBehavior SDL_SWAPINTERVALTEAR_UNKNOWN s, ?_, rfl,
      tearCache_setTearBehavior _ _ gl hgl⟩
    unfold CheckSwapIntervalTearBehavior
    simp [hgl, hu, ht]
  · intro ht hext q hq
    obtain ⟨s2, hc, hcache, -⟩ :=
      Check_probe env drawable current_val current_allow_late s gl hgl hu ht hext q hq
    refine ⟨_, s2, hc, hcache, ?_, ?_, ?_, ?_⟩
    · intro h0; simp [h0]
    · intro h1; simp [h1]
    · intro h0 h1; simp [h0, h1]
    · intro hn
      have h22 : probedLateSwaps q drawable current_val s = 22 := by
        simp [probedLateSwaps, hn]
      simp [h22]

/-- C16 on `tearSys`, whose driver reports 0 for `GLX_LATE_SWAPS_TEAR_EXT`:
the result is NVIDIA and it is cached. -/
theorem C16_CheckSwapIntervalTearBehavior_witness :
    ∃ b s2, CheckSwapIntervalTearBehavior demoEnv 5 1 1 tearSys = .ok (b, s2) ∧
      tearCache s2 = some b ∧ b = SDL_SWAPINTERVALTEAR_NVIDIA := by
  obtain ⟨b, s2, hc, hcache, h0, -⟩ :=
    (C16_CheckSwapIntervalTearBehavior demoEnv 5 1 1 tearSys tearDriver rfl rfl).2 rfl rfl
      _ rfl
  exact ⟨b, s2, hc, hcache, h0 (by decide)⟩

theorem negInt32_toInt32 (u : Nat) (h : u % 2 ^ 32 ≠ 2 ^ 31) :
    negInt32 (toInt32 u) = - toInt32 u := by
  unfold negInt32 toInt32
  have hlt : u % 2 ^ 32 < 2 ^ 32 := Nat.mod_lt _ (by norm_num)
  generalize u % 2 ^ 32 = m at h hlt
  norm_num at h hlt ⊢
  split <;> split <;> omega

/-- C18: whenever the probe runs (cached state UNTESTED, tear extension
present, entry points resolved), the calls it makes are `glXSwapIntervalEXT`
with the current value, `glXSwapIntervalEXT` with 0, the query of
`GLX_LATE_SWAPS_TEAR_EXT`, and `glXSwapIntervalEXT` with `r`, where `r` is the
C negation of `(int)current_val` if the outcome is NVIDIA and
`current_allow_late` is non-zero, and `(int)current_val` in every other case;
the C negation is the arithmetic one unless `(int)current_val` is `INT_MIN`. -/
theorem C18_probe_restores_interval (env : Env) (drawable : Window)
    (current_val current_allow_late : Nat) (s : Sys) (gl : SDL_GLDriverData)
    (hgl : s.gl_data = some gl)
    (hu : gl.swap_interval_tear_behavior = SDL_SWAPINTERVALTEAR_UNTESTED)
    (ht : gl.HAS_GLX_EXT_swap_control_tear = true)
    (hext : gl.glXSwapIntervalEXT = true)
    (q : List Call → Window → Int → Option Nat) (hq : gl.glXQueryDrawable = some q) :
    ∃ b s2, CheckSwapIntervalTearBehavior env drawable current_val current_allow_late s
        = .ok (b, s2) ∧
      s2.trace = s.trace ++ [Call.glXSwapIntervalEXT drawable (toInt32 current_val),
        Call.glXSwapIntervalEXT drawable 0,
        Call.glXQueryDrawable drawable GLX_LATE_SWAPS_TEAR_EXT,
        Call.glXSwapIntervalEXT drawable
          (if b = SDL_SWAPINTERVALTEAR_NVIDIA ∧ current_allow_late ≠ 0
            then negInt32 (toInt32 current_val) else toInt32 current_val)] ∧
      (current_val % 2 ^ 32 ≠ 2 ^ 31 → negInt32 (toInt32 current_val) = - toInt32 current_val) := by
  obtain ⟨s2, hc, -, htr⟩ :=
    Check_probe env drawable current_val current_allow_late s gl hgl hu ht hext q hq
  refine ⟨_, s2, hc, ?_, negInt32_toInt32 current_val⟩
  rw [htr]
  by_cases h0 : probedLateSwaps q drawable current_val s = 0
  · simp [h0]
  · by_cases h1 : probedLateSwaps q drawable current_val s = 1 <;> simp [h0, h1]

/-- C18 on `tearSys` with current interval 1 and late swaps allowed: the
intervals applied are 1, 0 and -1. -/
theorem C18_probe_restores_interval_witness :
    ∃ b s2, CheckSwapIntervalTearBehavior demoEnv 5 1 1 tearSys = .ok (b, s2) ∧
      s2.trace = [Call.glXSwapIntervalEXT 5 1, Call.glXSwapIntervalEXT 5 0,
        Call.glXQueryDrawable 5 GLX_LATE_SWAPS_TEAR_EXT, Call.glXSwapIntervalEXT 5 (-1)] := by
  obtain ⟨b, s2, hc, htr, -⟩ :=
    C18_probe_restores_interval demoEnv 5 1 1 tearSys tearDriver rfl rfl rfl rfl _ rfl
  refine ⟨b, s2, hc, ?_⟩
  rw [htr]
  have hb : (CheckSwapIntervalTearBehavior demoEnv 5 1 1 tearSys).toOption.map Prod.fst
      = some SDL_SWAPINTERVALTEAR_NVIDIA := by decide
  rw [hc] at hb
  simp only [Except.toOption, Option.map_some', Option.some.injEq] at hb
  subst hb
  decide

theorem Check_cached (env : Env) (drawable : Window) (current_val current_allow_late : Nat)
    (s : Sys) (gl : SDL_GLDriverData) (hgl : s.gl_data = some gl)
    (hne : gl.swap_interval_tear_behavior ≠ SDL_SWAPINTERVALTEAR_UNTESTED) :
    CheckSwapIntervalTearBehavior env drawable current_val current_allow_late s
      = .ok (gl.swap_interval_tear_behavior, s) := by
  unfold CheckSwapIntervalTearBehavior
  simp [hgl, hne]

/-- Every result of `CheckSwapIntervalTearBehavior` differs from UNTESTED and
is the cached state afterwards; the call returns whenever the entry points
the probe needs are resolved. -/
theorem Check_result (env : Env) (drawable : Window) (current_val current_allow_late : Nat)
    (s : Sys) (gl : SDL_GLDriverData) (hgl : s.gl_data = some gl)
    (hret : gl.swap_interval_tear_behavior = SDL_SWAPINTERVALTEAR_UNTESTED →
      gl.HAS_GLX_EXT_swap_control_tear = true →
      gl.glXSwapIntervalEXT = true ∧ ∃ q, gl.glXQueryDrawable = some q) :
    ∃ b s2, CheckSwapIntervalTearBehavior env drawable current_val current_allow_late s
        = .ok (b, s2) ∧ b ≠ SDL_SWAPINTERVALTEAR_UNTESTED ∧ tearCache s2 = some b := by
  by_cases hu : gl.swap_interval_tear_behavior = SDL_SWAPINTERVALTEAR_UNTESTED
  · cases ht : gl.HAS_GLX_EXT_swap_control_tear with
    | false =>
      refine ⟨SDL_SWAPINTERVALTEAR_UNKNOWN, setTearBehavior SDL_SWAPINTERVALTEAR_UNKNOWN s,
        ?_, by decide, tearCache_setTearBehavior _ _ gl hgl⟩
      unfold CheckSwapIntervalTearBehavior
      simp [hgl, hu, ht]
    | true =>
      obtain ⟨hext, q, hq⟩ := hret hu ht
      obtain ⟨s2, hc, hcache, -⟩ :=
        Check_probe env drawable current_val current_allow_late s gl hgl hu ht hext q hq
      refine ⟨_, s2, hc, ?_, hcache⟩
      split
      · decide
      · split <;> decide
  · exact ⟨_, s, Check_cached env drawable current_val current_allow_late s gl hgl hu, hu,
      by simp [tearCache, hgl]⟩

theorem GetSwapInterval_cached (env : Env) (interval : Int) (s : Sys) (gl : SDL_GLDriverData)
    (hgl : s.gl_data = some gl)
    (hne : gl.swap_interval_tear_behavior ≠ SDL_SWAPINTERVALTEAR_UNTESTED)
    (hret : gl.glXSwapIntervalEXT = true →
      (∃ w, s.current_window = some w) ∧ ∃ q, gl.glXQueryDrawable = some q) :
    ∃ b v s2, X11_GL_GetSwapInterval env interval s = .ok (b, v, s2) ∧
      s2.gl_data = s.gl_data ∧ s2.current_window = s.current_window := by
  unfold X11_GL_GetSwapInterval
  simp only [hgl]
  cases hext : gl.glXSwapIntervalEXT with
  | false =>
    simp only [Bool.false_eq_true, if_false]
    cases gl.glXGetSwapIntervalMESA with
    | none => exact ⟨_, _, _, rfl, hgl, rfl⟩
    | some f =>
      dsimp only
      split
      · exact ⟨_, _, _, rfl, by simp [hgl], by simp [SDL_SetError]⟩
      · exact ⟨_, _, _, rfl, by simp [hgl], by simp⟩
  | true =>
    obtain ⟨⟨w, hw⟩, q, hq⟩ := hret hext
    simp only [hw, if_true]
    have key : ∀ (al : Nat) (s1 : Sys), s1.gl_data = some gl →
        s1.current_window = some w →
        ∃ b v s2,
          (do
            let q ← glXQueryDrawable env gl w.xwindow GLX_SWAP_INTERVAL_EXT 0 s1
            let c ← CheckSwapIntervalTearBehavior env w.xwindow q.1 al q.2
            match c.1 with
              | SDL_SWAPINTERVALTEAR_MESA => Except.ok (true, toInt32 q.1, c.2)
              | _ =>
                if al ≠ 0 ∧ q.1 > 0 then Except.ok (true, negInt32 (toInt32 q.1), c.2)
                else Except.ok (true, toInt32 q.1, c.2) : Except Fault (Bool × Int × Sys))
            = .ok (b, v, s2) ∧ s2.gl_data = some gl ∧
              s2.current_window = some w := by
      intro al s1 h1 hcw
      obtain ⟨val, hval⟩ := glXQueryDrawable_ok env gl w.xwindow GLX_SWAP_INTERVAL_EXT 0 s1 q hq
      have hc := Check_cached env w.xwindow val al
        (extcall env (Call.glXQueryDrawable w.xwindow GLX_SWAP_INTERVAL_EXT) s1) gl
        (by simp [h1]) hne
      simp only [hval, hc, bind, Except.bind]
      have hg' : (extcall env (Call.glXQueryDrawable w.xwindow GLX_SWAP_INTERVAL_EXT)
          s1).gl_data = some gl := by simp [h1]
      have hw' : (extcall env (Call.glXQueryDrawable w.xwindow GLX_SWAP_INTERVAL_EXT)
          s1).current_window = some w := by simp [hcw]
      split
      · exact ⟨_, _, _, rfl, hg', hw'⟩
      · split <;> exact ⟨_, _, _, rfl, hg', hw'⟩
    cases ht : gl.HAS_GLX_EXT_swap_control_tear with
    | true =>
      obtain ⟨al, hal⟩ := glXQueryDrawable_ok env gl w.xwindow GLX_LATE_SWAPS_TEAR_EXT 22 s q hq
      simp only [if_true, hal]
      exact key al (extcall env (Call.glXQueryDrawable w.xwindow GLX_LATE_SWAPS_TEAR_EXT) s)
        (by simp [hgl]) (by simp [hw])
    | false =>
      simp only [Bool.false_eq_true, if_false]
      exact key 0 s hgl hw

theorem SetSwapInterval_cached (env : Env) (interval : Int) (s : Sys) (gl : SDL_GLDriverData)
    (hgl : s.gl_data = some gl)
    (hne : gl.swap_interval_tear_behavior ≠ SDL_SWAPINTERVALTEAR_UNTESTED)
    (hret : gl.glXSwapIntervalEXT = true →
      (∃ w, s.current_window = some w) ∧ ∃ q, gl.glXQueryDrawable = some q) :
    ∃ b s2, X11_GL_SetSwapInterval env interval s = .ok (b, s2) ∧ s2.gl_data = s.gl_data := by
  by_cases hrej : interval < 0 ∧ ¬ gl.HAS_GLX_EXT_swap_control_tear = true
  · refine ⟨false, SDL_SetError "Negative swap interval unsupported in this GL" s, ?_, rfl⟩
    unfold X11_GL_SetSwapInterval
    simp only [hgl]
    rw [if_pos hrej]
  · cases hext : gl.glXSwapIntervalEXT with
    | false =>
      obtain ⟨b, s2, h, hg, -⟩ := SetSwapInterval_fallback env interval s gl hgl hext
      exact ⟨b, s2, h, hg⟩
    | true =>
      obtain ⟨⟨w, hw⟩, q, hq⟩ := hret hext
      obtain ⟨b, v, s1, hg, hg1, -⟩ := GetSwapInterval_cached env 0 s gl hgl hne hret
      unfold X11_GL_SetSwapInterval
      simp only [hgl, hrej, if_false, hext, if_true, hw, hg, bind, Except.bind,
        glXSwapIntervalEXT_ok env gl _ _ _ hext]
      refine ⟨_, _, rfl, ?_⟩
      show (extcall env (Call.glXSwapIntervalEXT w.xwindow interval)
        (extcall env (Call.glXSwapIntervalEXT w.xwindow v) s1)).gl_data = some gl
      simp [hg1, hgl]

/-- C17: the tear-behaviour cache is write-once.  `CheckSwapIntervalTearBehavior`
(which returns whenever the entry points the probe needs are resolved) never
returns UNTESTED and leaves its result as the cached state; and once the
cached state differs from UNTESTED, `CheckSwapIntervalTearBehavior` returns
it with the state untouched (no driver call), and `X11_GL_GetSwapInterval`
and `X11_GL_SetSwapInterval` (which return whenever the current window and
the entry points of the EXT path are there) leave the session data, and with
it the cached state, as it was. -/
theorem C17_tear_cache_write_once (env : Env) (s : Sys) (gl : SDL_GLDriverData)
    (hgl : s.gl_data = some gl) :
    ((gl.swap_interval_tear_behavior = SDL_SWAPINTERVALTEAR_UNTESTED →
        gl.HAS_GLX_EXT_swap_control_tear = true →
        gl.glXSwapIntervalEXT = true ∧ ∃ q, gl.glXQueryDrawable = some q) →
      ∀ drawable current_val current_allow_late,
        ∃ b s2, CheckSwapIntervalTearBehavior env drawable current_val current_allow_late s
            = .ok (b, s2) ∧
          b ≠ SDL_SWAPINTERVALTEAR_UNTESTED ∧ tearCache s2 = some b) ∧
    (gl.swap_interval_tear_behavior ≠ SDL_SWAPINTERVALTEAR_UNTESTED →
      (∀ drawable current_val current_allow_late,
        CheckSwapIntervalTearBehavior env drawable current_val current_allow_late s
          = .ok (gl.swap_interval_tear_behavior, s)) ∧
      ((gl.glXSwapIntervalEXT = true →
          (∃ w, s.current_window = some w) ∧ ∃ q, gl.glXQueryDrawable = some q) →
        (∀ interval, ∃ b v s2, X11_GL_GetSwapInterval env interval s = .ok (b, v, s2) ∧
          s2.gl_data = s.gl_data ∧ tearCache s2 = some gl.swap_interval_tear_behavior) ∧
        (∀ interval, ∃ b s2, X11_GL_SetSwapInterval env interval s = .ok (b, s2) ∧
          s2.gl_data = s.gl_data ∧ tearCache s2 = some gl.swap_interval_tear_behavior))) := by
  refine ⟨?_, ?_⟩
  · intro hret drawable current_val current_allow_late
    exact Check_result env drawable current_val current_allow_late s gl hgl hret
  · intro hne
    refine ⟨fun d cv al => Check_cached env d cv al s gl hgl hne, ?_⟩
    intro hret
    refine ⟨?_, ?_⟩
    · intro interval
      obtain ⟨b, v, s2, h, hg, -⟩ := GetSwapInterval_cached env interval s gl hgl hne hret
      exact ⟨b, v, s2, h, hg, by simp [tearCache, hg, hgl]⟩
    · intro interval
      obtain ⟨b, s2, h, hg⟩ := SetSwapInterval_cached env interval s gl hgl hne hret
      exact ⟨b, s2, h, hg, by simp [tearCache, hg, hgl]⟩

/-- C17 on `cachedSys`, whose cached state is MESA: a check returns MESA and
leaves the trace empty, and a set of interval 2 keeps the cache. -/
theorem C17_tear_cache_write_once_witness :
    CheckSwapIntervalTearBehavior demoEnv 5 1 1 cachedSys
      = .ok (SDL_SWAPINTERVALTEAR_MESA, cachedSys) ∧
    cachedSys.trace = [] ∧
    ∃ b s2, X11_GL_SetSwapInterval demoEnv 2 cachedSys = .ok (b, s2) ∧
      s2.gl_data = cachedSys.gl_data ∧ tearCache s2 = some SDL_SWAPINTERVALTEAR_MESA :=
  ⟨((C17_tear_cache_write_once demoEnv cachedSys _ rfl).2 (by decide)).1 5 1 1, rfl,
    (((C17_tear_cache_write_once demoEnv cachedSys _ rfl).2 (by decide)).2
      (fun _ => ⟨⟨demoWindow, rfl⟩, _, rfl⟩)).2 2⟩

/-! ## `X11_GL_GetTransparentVisualInfo` -/

/-- C19: on `opaqueEnv`, where no visual of screen 0 has an alpha format,
`X11_GL_GetTransparentVisualInfo` does not return NULL: its loop ends without
a match and it returns the array of all the visuals of the screen.  So
`X11_GL_GetVisual` with `transparent = true`, whose GLX query chose visual 34,
returns visual 33, the first visual of the screen.  (On `demoEnv`, where
visual 99 has an alpha format, the function returns that visual.) -/
theorem C19_GetTransparentVisualInfo_no_alpha :
    (∀ v ∈ opaqueEnv.visuals, hasAlpha opaqueEnv (some v) = false) ∧
    (X11_GL_GetTransparentVisualInfo opaqueEnv 0 opaqueSys).1
      = some [{ visualid := 33, screen := 0, depth := 24 },
              { visualid := 34, screen := 0, depth := 24 }] ∧
    (X11_GL_GetVisual.glx opaqueEnv opaqueDriver opaqueSys.gl_config 0 true opaqueSys).1
      = some { visualid := 34, screen := 0, depth := 24 } ∧
    (X11_GL_GetVisual opaqueEnv 0 true opaqueSys).1
      = some { visualid := 33, screen := 0, depth := 24 } ∧
    (X11_GL_GetTransparentVisualInfo demoEnv 0 demoSys).1
      = some [{ visualid := 99, screen := 0, depth := 32 }] := by
  decide

/-! ## `HasExtension`: no false negatives -/

theorem SDL_strstr_le (H T : List Char) (j : Nat) (hj : T <+: H.drop j) :
    ∃ k, SDL_strstr H T = some k ∧ k ≤ j := by
  induction H generalizing j with
  | nil =>
    simp at hj
    subst hj
    exact ⟨0, by simp [SDL_strstr], Nat.zero_le _⟩
  | cons c cs ih =>
    unfold SDL_strstr
    by_cases hp : T.isPrefixOf (c :: cs) = true
    · exact ⟨0, by simp [hp], Nat.zero_le _⟩
    · cases j with
      | zero =>
        exfalso
        apply hp
        rw [List.isPrefixOf_iff_prefix]
        simpa using hj
      | succ j =>
        obtain ⟨k, hk, hkj⟩ := ih j (by simpa using hj)
        exact ⟨k + 1, by simp [hp, hk], by omega⟩

theorem SDL_strstr_some (H T : List Char) (k : Nat) (h : SDL_strstr H T = some k) :
    T <+: H.drop k := by
  induction H generalizing k with
  | nil =>
    unfold SDL_strstr at h
    split at h
    · rename_i he
      simp at he
      subst he
      simp
    · simp at h
  | cons c cs ih =>
    unfold SDL_strstr at h
    split at h
    · rename_i hp
      rw [List.isPrefixOf_iff_prefix] at hp
      simp at h
      subst h
      simpa using hp
    · simp at h
      obtain ⟨a, ha, rfl⟩ := h
      simpa using ih a ha

theorem SDL_strstr_bound (H T : List Char) (k : Nat) (hT : T ≠ [])
    (h : SDL_strstr H T = some k) : k + T.length ≤ H.length := by
  have hp := (SDL_strstr_some H T k h).length_le
  have : 0 < T.length := List.length_pos.2 hT
  simp at hp
  omega

theorem prefix_charAt (H T : List Char) (w j : Nat) (hp : T <+: H.drop w) (hj : j < T.length) :
    charAt H (w + j) = T[j]? := by
  obtain ⟨t, ht⟩ := hp
  unfold charAt
  rw [List.get?_eq_getElem?, ← List.getElem?_drop, ← ht, List.getElem?_append_left hj]

theorem loopWithin_loop (T H : List Char) (fuel start : Nat) (b : Bool)
    (h : HasExtension.loopWithin T H fuel start = some b) :
    HasExtension.loop T H fuel start = b := by
  induction fuel generalizing start with
  | zero => simp [HasExtension.loopWithin] at h
  | succ fuel ih =>
    unfold HasExtension.loopWithin at h
    unfold HasExtension.loop
    cases hs : SDL_strstr (H.drop start) T with
    | none =>
      rw [hs] at h
      simpa using h
    | some k =>
      rw [hs] at h
      dsimp only at h ⊢
      split
      · rename_i hc
        rw [if_pos hc] at h
        simpa using h
      · rename_i hc
        rw [if_neg hc] at h
        exact ih _ h

theorem loopWithin_terminates (T H : List Char) (hT : T ≠ []) (fuel start : Nat)
    (hs : start ≤ H.length) (hf : H.length - start < fuel) :
    ∃ b, HasExtension.loopWithin T H fuel start = some b := by
  induction fuel generalizing start with
  | zero => omega
  | succ fuel ih =>
    unfold HasExtension.loopWithin
    cases hk : SDL_strstr (H.drop start) T with
    | none => exact ⟨false, rfl⟩
    | some k =>
      dsimp only
      split
      · exact ⟨true, rfl⟩
      · have hb := SDL_strstr_bound _ _ _ hT hk
        have : 0 < T.length := List.length_pos.2 hT
        simp at hb
        exact ih _ (by omega) (by omega)

theorem charAt_mid (a : List Char) (c : Char) (b : List Char) :
    charAt (a ++ c :: b) a.length = some c := by
  induction a with
  | nil => rfl
  | cons x a ih => simpa [charAt] using ih

theorem charAt_end (a : List Char) : charAt a a.length = none := by
  simp [charAt]

theorem occurrence_before_token (T pre post : List Char) (hT : T ≠ []) (hsp : ' ' ∉ T)
    (hpre : pre = [] ∨ ∃ q, pre = q ++ [' ']) (start : Nat) (hs : start ≤ pre.length) :
    ∃ k, SDL_strstr ((pre ++ T ++ post).drop start) T = some k ∧
      (start + k = pre.length ∨ start + k + T.length ≤ pre.length) := by
  have hTl : 0 < T.length := List.length_pos.2 hT
  have hocc : T <+: ((pre ++ T ++ post).drop start).drop (pre.length - start) := by
    rw [List.drop_drop, List.append_assoc,
      show start + (pre.length - start) = pre.length by omega, List.drop_left]
    exact List.prefix_append _ _
  obtain ⟨k, hk, hkle⟩ := SDL_strstr_le _ _ _ hocc
  refine ⟨k, hk, ?_⟩
  by_cases hw : start + k = pre.length
  · exact Or.inl hw
  · right
    have hpk : T <+: (pre ++ T ++ post).drop (start + k) := by
      have := SDL_strstr_some _ _ _ hk
      rwa [List.drop_drop] at this
    by_contra hgt
    have hj : pre.length - 1 - (start + k) < T.length := by omega
    have h1 := prefix_charAt _ _ _ _ hpk hj
    have hA : charAt (pre ++ T ++ post) (pre.length - 1) = some ' ' := by
      rcases hpre with h | ⟨q, rfl⟩
      · have : pre.length = 0 := by simp [h]
        omega
      · have := charAt_mid q ' ' (T ++ post)
        simpa using this
    rw [show start + k + (pre.length - 1 - (start + k)) = pre.length - 1 by omega,
      hA, List.getElem?_eq_getElem hj] at h1
    apply hsp
    have := List.getElem_mem hj
    simp only [Option.some.injEq] at h1
    rw [← h1] at this
    exact this

theorem loop_finds (T pre post : List Char) (hT : T ≠ []) (hsp : ' ' ∉ T)
    (hpre : pre = [] ∨ ∃ q, pre = q ++ [' '])
    (hpost : post = [] ∨ ∃ q, post = ' ' :: q) (fuel start : Nat)
    (hs : start ≤ pre.length) (hf : pre.length - start < fuel) :
    HasExtension.loop T (pre ++ T ++ post) fuel start = true := by
  have hTl : 0 < T.length := List.length_pos.2 hT
  -- the character before the token, and the character after it
  have hA : pre ≠ [] → charAt (pre ++ T ++ post) (pre.length - 1) = some ' ' := by
    intro hne
    rcases hpre with h | ⟨q, rfl⟩
    · exact absurd h hne
    · have := charAt_mid q ' ' (T ++ post)
      simpa using this
  have hB : charAt (pre ++ T ++ post) (pre.length + T.length) = some ' ' ∨
      charAt (pre ++ T ++ post) (pre.length + T.length) = none := by
    rcases hpost with rfl | ⟨q, rfl⟩
    · right
      have := charAt_end (pre ++ T)
      simpa using this
    · left
      have := charAt_mid (pre ++ T) ' ' q
      simpa using this
  induction fuel generalizing start with
  | zero => omega
  | succ fuel ih =>
    obtain ⟨k, hk, hcase⟩ := occurrence_before_token T pre post hT hsp hpre start hs
    unfold HasExtension.loop
    rw [hk]
    dsimp only
    split
    · rfl
    · rename_i hc
      simp only [Bool.and_eq_true, Bool.or_eq_true, beq_iff_eq] at hc
      rcases hcase with hw | hend
      · exfalso
        apply hc
        rw [hw]
        refine ⟨?_, hB⟩
        by_cases hps : pre.length = start
        · exact Or.inl hps
        · right
          apply hA
          intro hnil
          have : pre.length = 0 := by simp [hnil]
          omega
      · exact ih _ hend (by omega)

theorem intercalate_mem (T : List Char) (L : List (List Char)) (h : T ∈ L) :
    ∃ pre post, [' '].intercalate L = pre ++ T ++ post ∧
      (pre = [] ∨ ∃ q, pre = q ++ [' ']) ∧ (post = [] ∨ ∃ q, post = ' ' :: q) := by
  induction L with
  | nil => simp at h
  | cons a L ih =>
    cases L with
    | nil =>
      simp at h
      subst h
      exact ⟨[], [], by simp [List.intercalate], Or.inl rfl, Or.inl rfl⟩
    | cons b L =>
      have hcons : [' '].intercalate (a :: b :: L) = a ++ ' ' :: [' '].intercalate (b :: L) := by
        simp [List.intercalate, List.intersperse]
      rw [hcons]
      rcases List.mem_cons.1 h with rfl | h
      · exact ⟨[], ' ' :: [' '].intercalate (b :: L), by simp, Or.inl rfl, Or.inr ⟨_, rfl⟩⟩
      · obtain ⟨pre, post, he, hp, hq⟩ := ih h
        refine ⟨a ++ ' ' :: pre, post, by rw [he]; simp, Or.inr ?_, hq⟩
        rcases hp with rfl | ⟨q, rfl⟩
        · exact ⟨a, rfl⟩
        · exact ⟨a ++ ' ' :: q, by simp⟩

theorem tokens_mem (T H : List Char) (h : T ∈ tokens H) :
    ∃ pre post, H = pre ++ T ++ post ∧
      (pre = [] ∨ ∃ q, pre = q ++ [' ']) ∧ (post = [] ∨ ∃ q, post = ' ' :: q) := by
  have := intercalate_mem T (tokens H) h
  rwa [tokens, List.intercalate_splitOn] at this

theorem HasExtension_eq_loop (T H : List Char) (hT : T ≠ []) (hsp : ' ' ∉ T) :
    HasExtension T (some H) = HasExtension.loop T H (H.length + 1) 0 := by
  have h1 : (SDL_strchr T ' ').isSome = false := by
    rw [Bool.eq_false_iff, Ne, SDL_strchr_isSome]
    exact hsp
  have h2 : T.isEmpty = false := by
    cases T with
    | nil => exact absurd rfl hT
    | cons _ _ => rfl
  simp [HasExtension, h1, h2]

/-- C21: `HasExtension` has no false negatives.  For a non-empty token `T`
without a space and a haystack `H`: whenever `H = pre ++ T ++ post` where
`pre` is empty or ends with a space and `post` is empty or begins with a
space (in particular whenever `T` is one of the pieces of `H` split at
spaces), `HasExtension(T, H)` is true, whatever occurrences of `T` inside
other tokens come before; from every resumption point `start` at or before
the token, the next occurrence found by `SDL_strstr` is the token itself or
ends at or before the start of the token, so that `start = terminator` never
passes it; and for every haystack the loop leaves by `break` or `return`
within `length H + 1` iterations, with the result of `HasExtension`. -/
theorem C21_HasExtension_no_false_negative (T H : List Char) (hT : T ≠ []) (hsp : ' ' ∉ T) :
    (∀ pre post, H = pre ++ T ++ post →
        (pre = [] ∨ ∃ q, pre = q ++ [' ']) → (post = [] ∨ ∃ q, post = ' ' :: q) →
        HasExtension T (some H) = true ∧
        ∀ start, start ≤ pre.length →
          ∃ k, SDL_strstr (H.drop start) T = some k ∧
            (start + k = pre.length ∨ start + k + T.length ≤ pre.length)) ∧
    (T ∈ tokens H → HasExtension T (some H) = true) ∧
    HasExtension.loopWithin T H (H.length + 1) 0 = some (HasExtension T (some H)) := by
  have key : ∀ pre post, H = pre ++ T ++ post →
      (pre = [] ∨ ∃ q, pre = q ++ [' ']) → (post = [] ∨ ∃ q, post = ' ' :: q) →
      HasExtension T (some H) = true := by
    intro pre post hH hpre hpost
    rw [HasExtension_eq_loop T H hT hsp, hH]
    apply loop_finds T pre post hT hsp hpre hpost _ 0 (Nat.zero_le _)
    simp
    omega
  refine ⟨?_, ?_, ?_⟩
  · intro pre post hH hpre hpost
    refine ⟨key pre post hH hpre hpost, ?_⟩
    intro start hs
    rw [hH]
    exact occurrence_before_token T pre post hT hsp hpre start hs
  · intro hmem
    obtain ⟨pre, post, hH, hpre, hpost⟩ := tokens_mem T H hmem
    exact key pre post hH hpre hpost
  · obtain ⟨b, hb⟩ := loopWithin_terminates T H hT (H.length + 1) 0 (Nat.zero_le _) (by omega)
    rw [hb, HasExtension_eq_loop T H hT hsp, loopWithin_loop T H _ _ b hb]

/-- C21 on the token `aa` and the haystack `xaaa aa`: the occurrence at
offset 1 is rejected, the overlapping one at offset 2 is passed over, and the
token at offset 5 is found. -/
theorem C21_HasExtension_no_false_negative_witness :
    HasExtension "aa".toList (some "xaaa aa".toList) = true ∧
    "aa".toList ∈ tokens "xaaa aa".toList ∧
    HasExtension.loopWithin "aa".toList "xaaa aa".toList 8 0 = some true :=
  ⟨((C21_HasExtension_no_false_negative "aa".toList "xaaa aa".toList (by decide) (by decide)).1
      "xaaa ".toList [] (by decide) (Or.inr ⟨"xaaa".toList, by decide⟩) (Or.inl rfl)).1,
    by decide, by decide⟩

/-! ## The relaxation retry -/

theorem baseAttribs_congr (cfg : SDL_GLConfig) (gl gl' : SDL_GLDriverData) (for_FBConfig : Bool)
    (h : gl'.HAS_GLX_EXT_visual_rating = gl.HAS_GLX_EXT_visual_rating) :
    baseAttribs cfg gl' for_FBConfig = baseAttribs cfg gl for_FBConfig := by
  simp only [baseAttribs, h]

theorem take_set_writeAt (buf base tail : List Int) (v : Int)
    (h : base.length + tail.length ≤ buf.length) (ht : 0 < tail.length) :
    ((writeAt buf 0 (base ++ tail)).set base.length v).take (base.length + 1) = base ++ [v] := by
  apply List.ext_getElem?
  intro k
  rcases Nat.lt_trichotomy k base.length with hk | hk | hk
  · rw [List.getElem?_take_of_lt (by omega), List.getElem?_set_ne (by omega),
      writeAt_getElem _ _ _ (by simp; omega) (by simp; omega),
      List.getElem?_append_left hk, List.getElem?_append_left hk]
  · subst hk
    rw [List.getElem?_take_of_lt (by omega),
      List.getElem?_set_self (by rw [length_writeAt]; omega)]
    have := getElem?_append_at base [v] 0
    rw [Nat.add_zero] at this
    rw [this]
    rfl
  · rw [List.getElem?_take_eq_none (by omega), List.getElem?_eq_none (by simp; omega)]

theorem takeWhile_append_stop (P : Int → Bool) (b : List Int) (x : Int) (r : List Int)
    (hx : P x = false) : (b ++ x :: r).takeWhile P = (b ++ [x]).takeWhile P := by
  induction b with
  | nil => simp [List.takeWhile, hx]
  | cons y b ih =>
    simp only [List.cons_append, List.takeWhile]
    cases P y <;> simp [ih]

theorem upToSentinel_of_take (l b : List Int) (n : Nat) (h : l.take n = b ++ [X_None]) :
    upToSentinel l = upToSentinel (b ++ [X_None]) := by
  have hl : l = b ++ X_None :: l.drop n := by
    conv_lhs => rw [← List.take_append_drop n l, h]
    simp
  unfold upToSentinel
  conv_lhs => rw [hl]
  exact takeWhile_append_stop _ b X_None _ (by decide)

/-- C22: let `a` be the outcome of `X11_GL_GetAttributes` for a configuration
in which it records a visual-type slot `p`, and `b` its outcome for the same
configuration and the same `for_FBConfig` when the visual-type pair is not
requested (whichever of `transparent`, `X11_UseDirectColorVisuals()` and
`HAS_GLX_EXT_visual_info` rules it out).  Then the list of `b` ends with its
sentinel in slot `p`; the buffer of `a` after the relaxation `*pvistypeattr =
None` agrees with the list of `b` on slots `0 .. p`, sentinel included, so
every reading that stops at a sentinel gives the same list for both, and so
in particular does the reading up to the first slot that holds `None`; the
list of `a` before the relaxation was the list of `b` with the pair
(`GLX_X_VISUAL_TYPE_EXT`, `GLX_DIRECT_COLOR_EXT`) put before the sentinel;
and the retry of `glXChooseFBConfig` after a failed first query is made on
the relaxed buffer. -/
theorem C22_relaxation_drops_vistype (cfg : SDL_GLConfig) (gl gl' : SDL_GLDriverData)
    (useDirectColor useDirectColor' : Bool) (attribs attribs' : List Int)
    (for_FBConfig transparent transparent' : Bool) (a b : AttrState) (p : Nat)
    (hsize : MAX_ATTRIBUTES ≤ attribs.length) (hsize' : MAX_ATTRIBUTES ≤ attribs'.length)
    (ha : a = X11_GL_GetAttributes cfg gl useDirectColor attribs for_FBConfig transparent)
    (hb : b = X11_GL_GetAttributes cfg gl' useDirectColor' attribs' for_FBConfig transparent')
    (hrating : gl'.HAS_GLX_EXT_visual_rating = gl.HAS_GLX_EXT_visual_rating)
    (hp : a.pvistypeattr = some p) (hnot : b.pvistypeattr = none) :
    b.i = p + 1 ∧
    (a.attribs.set p X_None).take (p + 1) = b.attribs.take b.i ∧
    (a.attribs.set p X_None)[p]? = some X_None ∧
    a.attribs.take a.i
      = b.attribs.take p ++ [GLX_X_VISUAL_TYPE_EXT, GLX_DIRECT_COLOR_EXT, X_None] ∧
    upToSentinel (a.attribs.set p X_None) = upToSentinel b.attribs ∧
    ∀ (env : Env) (choose : List Call → Int → List Int → Option (GLXFBConfig × List GLXFBConfig))
      (screen : Int) (s : Sys), choose s.trace screen a.attribs = none →
      (chooseFBConfigRetry env choose screen a s).2.1 = a.attribs.set p X_None ∧
      (chooseFBConfigRetry env choose screen a s).2.2.trace
        = s.trace ++ [Call.glXChooseFBConfig screen a.attribs,
            Call.glXChooseFBConfig screen (a.attribs.set p X_None)] := by
  have hbl := baseAttribs_length_le cfg gl for_FBConfig
  simp only [MAX_ATTRIBUTES] at hsize hsize'
  rw [GetAttributes_eq] at ha hb
  have hw : wantsVisType gl useDirectColor transparent = true := by
    cases h : wantsVisType gl useDirectColor transparent
    · rw [ha, h] at hp
      simp at hp
    · rfl
  have hw' : wantsVisType gl' useDirectColor' transparent' = false := by
    cases h : wantsVisType gl' useDirectColor' transparent'
    · rfl
    · rw [hb, h] at hnot
      simp at hnot
  have hpe : p = (baseAttribs cfg gl for_FBConfig).length := by
    rw [ha, hw] at hp
    simpa [eq_comm] using hp
  have hall : allAttribs cfg gl useDirectColor for_FBConfig transparent
      = baseAttribs cfg gl for_FBConfig
        ++ [GLX_X_VISUAL_TYPE_EXT, GLX_DIRECT_COLOR_EXT, X_None] := by
    simp [allAttribs, hw]
  have hall' : allAttribs cfg gl' useDirectColor' for_FBConfig transparent'
      = baseAttribs cfg gl for_FBConfig ++ [X_None] := by
    simp [allAttribs, hw', baseAttribs_congr cfg gl gl' for_FBConfig hrating]
  rw [hall] at ha
  rw [hall'] at hb
  generalize baseAttribs cfg gl for_FBConfig = base at *
  subst hpe
  have hbi : b.i = base.length + 1 := by rw [hb]; simp
  have hbt : b.attribs.take (base.length + 1) = base ++ [X_None] := by
    have := take_writeAt attribs' (base ++ [X_None]) (by simp; omega)
    rw [hb]
    simpa using this
  have hrt : (a.attribs.set base.length X_None).take (base.length + 1) = base ++ [X_None] := by
    rw [ha]
    exact take_set_writeAt attribs base [GLX_X_VISUAL_TYPE_EXT, GLX_DIRECT_COLOR_EXT, X_None]
      X_None (by simp; omega) (by simp)
  have hbp : b.attribs.take base.length = base := by
    have := congrArg (List.take base.length) hbt
    rw [List.take_take, Nat.min_eq_left (by omega)] at this
    rw [this]
    simp
  refine ⟨hbi, ?_, ?_, ?_, ?_, ?_⟩
  · rw [hbi, hrt, hbt]
  · rw [List.getElem?_set_self (by rw [ha, length_writeAt]; omega)]
  · rw [hbp]
    have := take_writeAt attribs
      (base ++ [GLX_X_VISUAL_TYPE_EXT, GLX_DIRECT_COLOR_EXT, X_None]) (by simp; omega)
    rw [ha]
    exact this
  · rw [upToSentinel_of_take _ base _ hrt, upToSentinel_of_take _ base _ hbt]
  · intro env choose screen s hfail
    have hpa : a.pvistypeattr = some base.length := by rw [ha]; simp [hw]
    unfold chooseFBConfigRetry
    simp [hfail, hpa]

/-- C22 on the FBConfig list of `demoConfig`: with `demoDriver` the slot 14
is recorded, and the relaxed buffer read up to slot 14 is the list built
with `noVisInfoDriver`. -/
theorem C22_relaxation_drops_vistype_witness :
    (X11_GL_GetAttributes demoConfig demoDriver true (List.replicate 64 0) true
      false).pvistypeattr = some 14 ∧
    (X11_GL_GetAttributes demoConfig noVisInfoDriver true (List.replicate 64 0) true false).i
      = 15 ∧
    ((X11_GL_GetAttributes demoConfig demoDriver true (List.replicate 64 0) true
      false).attribs.set 14 X_None).take 15
      = (X11_GL_GetAttributes demoConfig noVisInfoDriver true (List.replicate 64 0) true
          false).attribs.take 15 ∧
    ((X11_GL_GetAttributes demoConfig demoDriver true (List.replicate 64 0) true
      false).attribs.set 14 X_None).take 15
      = [GLX_RENDER_TYPE, GLX_RGBA_BIT, GLX_RED_SIZE, 8, GLX_GREEN_SIZE, 8, GLX_BLUE_SIZE, 8,
         GLX_ALPHA_SIZE, 8, GLX_DOUBLEBUFFER, X_True, GLX_DEPTH_SIZE, 16, X_None] := by
  have h := C22_relaxation_drops_vistype demoConfig demoDriver noVisInfoDriver true true
    (List.replicate 64 0) (List.replicate 64 0) true false false _ _ 14
    (by decide) (by decide) rfl rfl rfl (by decide) (by decide)
  refine ⟨by decide, h.1, ?_, by decide⟩
  have h2 := h.2.1
  rw [h.1] at h2
  exact h2

end X11GL
